import Mathlib

/-!
# Lab 5 (stepper motor): the step sequencer of `Lab 5/lab5/Src/main.c`

The program keeps five `int` globals (`state`, `stateh`, `mode`, `direction`,
`period`), drives four output pins of port C (PC13, PC14, PC15, PC4: the coil
leads A, B, C, D) and reacts to two interrupt callbacks:

* `HAL_TIM_PeriodElapsedCallback`: the timer tick, which advances the motor;
* `HAL_GPIO_EXTI_Callback`: the push buttons (mode, direction, period up/down).

The embedding is shallow: the globals and the pin latches are the fields of one
record, and each C function is a Lean function from record to record.  Every
`if` / `else if` ladder is kept branch for branch.  The LCD calls have no effect
on the sequencer and are left out; the LED toggled by the tick is kept.  The
`int` globals are integers; the only one the code does arithmetic on, `period`,
is a 32-bit `int`, and each `period += 1000` / `period -= 1000` is reduced to
the 32-bit two's complement range (`wrapInt32`), which is what the compiled
code leaves in the variable.

The button callback of Lab 3 and the timer set-up and control ladder of Lab 4
follow in the namespaces `Lab3` and `Lab4`; all definitions come first, then
the theorems, lab by lab.
-/

namespace Lab5

/-! ## Constants of the vendor headers

The pin masks, the button pin, the core clock and the counter mode are declared
in the vendor HAL and board headers, which are not among the sources. -/

/-- Modelled from the spec: the mask `GPIO_PIN_0` of the vendor HAL header, one
bit per pin (bit 0), so that the lines the spec keeps apart are distinct. -/
def GPIO_PIN_0 : Nat := 0x0001
/-- Modelled from the spec: the mask `GPIO_PIN_1` of the vendor HAL header
(bit 1), the line of the direction-select button. -/
def GPIO_PIN_1 : Nat := 0x0002
/-- Modelled from the spec: the mask `GPIO_PIN_2` of the vendor HAL header
(bit 2), the line of the period-increase button. -/
def GPIO_PIN_2 : Nat := 0x0004
/-- Modelled from the spec: the mask `GPIO_PIN_3` of the vendor HAL header
(bit 3), the line of the period-decrease button. -/
def GPIO_PIN_3 : Nat := 0x0008
/-- Modelled from the spec: the mask `GPIO_PIN_4` of the vendor HAL header
(bit 4), the pin of coil lead D. -/
def GPIO_PIN_4 : Nat := 0x0010
/-- Modelled from the spec: the mask `GPIO_PIN_13` of the vendor HAL header
(bit 13), the pin of coil lead A. -/
def GPIO_PIN_13 : Nat := 0x2000
/-- Modelled from the spec: the mask `GPIO_PIN_14` of the vendor HAL header
(bit 14), the pin of coil lead B. -/
def GPIO_PIN_14 : Nat := 0x4000
/-- Modelled from the spec: the mask `GPIO_PIN_15` of the vendor HAL header
(bit 15), the pin of coil lead C. -/
def GPIO_PIN_15 : Nat := 0x8000
/-- Modelled from the spec: the macro `KEY_BUTTON_PIN` of the board header, the
line of the mode-select button; the source notes at its use that it is
`GPIO_PIN_0`. -/
def KEY_BUTTON_PIN : Nat := GPIO_PIN_0
/-- Modelled from the spec: the variable `SystemCoreClock` of the vendor system
file; after `SystemClock_Config` it holds the 180 MHz that the header comment of
that function states. -/
def SystemCoreClock : Nat := 180000000
/-- Modelled from the spec: the macro `TIM_COUNTERMODE_UP` of the vendor HAL
header (up-counting, value 0). -/
def TIM_COUNTERMODE_UP : Nat := 0

/-! ## Data model -/

/-- The `Init` part of `TIM_HandleTypeDef` that `TIM3_Config` fills in. -/
structure TIM_Base_InitTypeDef where
  Period : Nat
  Prescaler : Nat
  ClockDivision : Nat
  CounterMode : Nat
deriving DecidableEq, Repr

/-- The globals of `main.c` together with the output latches the program writes. -/
structure Board where
  /-- The C global `state`: phase index of full-step mode. -/
  state : Int
  /-- The C global `stateh`: phase index of half-step mode. -/
  stateh : Int
  /-- The C global `mode`: 0 means full step, 1 is half step. -/
  mode : Int
  /-- The C global `direction`. -/
  direction : Int
  /-- The C global `period`. -/
  period : Int
  /-- The C global `Tim3_PrescalerValue` (a `uint16_t`). -/
  Tim3_PrescalerValue : Nat
  /-- The field `Tim3_Handle.Init`. -/
  Tim3_Init : TIM_Base_InitTypeDef
  /-- Output latch of PC13 (coil A). -/
  pc13 : Bool
  /-- Output latch of PC14 (coil B). -/
  pc14 : Bool
  /-- Output latch of PC15 (coil C). -/
  pc15 : Bool
  /-- Output latch of PC4 (coil D). -/
  pc4 : Bool
  /-- The board LED `LED4`. -/
  led4 : Bool
deriving DecidableEq, Repr

/-- A coil pattern `{A, B, C, D}`. -/
abbrev Coils := Bool × Bool × Bool × Bool

/-- The four coil outputs in the order A, B, C, D, that is PC13, PC14, PC15, PC4. -/
def coils (s : Board) : Coils := (s.pc13, s.pc14, s.pc15, s.pc4)

/-- Number of coil outputs that are high. -/
def highCount (c : Coils) : Nat :=
  c.1.toNat + c.2.1.toNat + c.2.2.1.toNat + c.2.2.2.toNat

/-! ## The operations of `main.c` -/

/-- Modelled from the spec: the vendor HAL routine `HAL_GPIO_WritePin(GPIOC,
GPIO_Pin, PinState)`, whose body is not among the sources.  The coil leads are
four independent binary outputs: a write makes the latch of the named pin high
when `PinState` is not 0 and low otherwise, and leaves the other latches alone. -/
def HAL_GPIO_WritePin (s : Board) (GPIO_Pin : Nat) (PinState : Nat) : Board :=
  if GPIO_Pin = GPIO_PIN_13 then { s with pc13 := decide (PinState ≠ 0) }
  else if GPIO_Pin = GPIO_PIN_14 then { s with pc14 := decide (PinState ≠ 0) }
  else if GPIO_Pin = GPIO_PIN_15 then { s with pc15 := decide (PinState ≠ 0) }
  else if GPIO_Pin = GPIO_PIN_4 then { s with pc4 := decide (PinState ≠ 0) }
  else s

/-- Modelled from the spec: the board support routine `BSP_LED_Toggle(LED4)`,
whose body is not among the sources; it inverts the indicator LED. -/
def BSP_LED_Toggle (s : Board) : Board := { s with led4 := !s.led4 }

/-- The least value of the 32-bit `int` of the target. -/
def INT_MIN : Int := -2147483648

/-- The greatest value of the 32-bit `int` of the target. -/
def INT_MAX : Int := 2147483647

/-- The value a 32-bit `int` holds after an addition or subtraction whose exact
result is `x`: the representative of `x` modulo 2^32 in the range
`INT_MIN .. INT_MAX` (two's complement, as the Cortex-M4 `ADD` / `SUB` leave
it).  Inside the range it is `x` itself. -/
def wrapInt32 (x : Int) : Int := (x + 2 ^ 31) % 2 ^ 32 - 2 ^ 31

/-- The function `TIM3_Config`: the prescaler is computed in `uint32_t` and
stored in a `uint16_t`; `Init.Period` is a `uint32_t`, so `period - 1` is taken
modulo 2^32.  The source ignores the status that `HAL_TIM_Base_Init` and
`HAL_TIM_Base_Start_IT` return. -/
def TIM3_Config (s : Board) : Board :=
  let pv : Nat := ((((SystemCoreClock / 2) / 10000) % 2 ^ 32 + 2 ^ 32 - 1) % 2 ^ 32) % 2 ^ 16
  { s with
    Tim3_PrescalerValue := pv
    Tim3_Init :=
      { Period := ((s.period - 1) % 2 ^ 32).toNat
        Prescaler := pv
        ClockDivision := 0
        CounterMode := TIM_COUNTERMODE_UP } }

/-- The callback `HAL_GPIO_EXTI_Callback(GPIO_Pin)`: four consecutive `if` statements on the
pin that raised the interrupt.  The global `period` is an `int`: `period += 1000`
and `period -= 1000` leave the sum reduced to 32 bits (`wrapInt32`). -/
def HAL_GPIO_EXTI_Callback (s0 : Board) (GPIO_Pin : Nat) : Board :=
  let s1 : Board :=
    if GPIO_Pin = KEY_BUTTON_PIN then
      if s0.mode = 1 then
        let s := { s0 with mode := 0 }
        let s := { s with state := 0 }
        let s := HAL_GPIO_WritePin s GPIO_PIN_13 1
        let s := HAL_GPIO_WritePin s GPIO_PIN_14 0
        let s := HAL_GPIO_WritePin s GPIO_PIN_15 0
        HAL_GPIO_WritePin s GPIO_PIN_4 0
      else if s0.mode = 0 then
        let s := { s0 with mode := 1 }
        let s := { s with stateh := 0 }
        let s := HAL_GPIO_WritePin s GPIO_PIN_13 1
        let s := HAL_GPIO_WritePin s GPIO_PIN_14 0
        let s := HAL_GPIO_WritePin s GPIO_PIN_15 0
        HAL_GPIO_WritePin s GPIO_PIN_4 0
      else s0
    else s0
  let s2 : Board :=
    if GPIO_Pin = GPIO_PIN_1 then
      if s1.direction = 1 then
        let s := { s1 with direction := 0 }
        let s := { s with state := 0 }
        let s := { s with stateh := 0 }
        let s := HAL_GPIO_WritePin s GPIO_PIN_13 1
        let s := HAL_GPIO_WritePin s GPIO_PIN_14 0
        let s := HAL_GPIO_WritePin s GPIO_PIN_15 0
        HAL_GPIO_WritePin s GPIO_PIN_4 0
      else if s1.direction = 0 then
        let s := { s1 with direction := 1 }
        let s := { s with stateh := 0 }
        let s := { s with state := 0 }
        let s := HAL_GPIO_WritePin s GPIO_PIN_13 1
        let s := HAL_GPIO_WritePin s GPIO_PIN_14 0
        let s := HAL_GPIO_WritePin s GPIO_PIN_15 0
        HAL_GPIO_WritePin s GPIO_PIN_4 0
      else s1
    else s1
  let s3 : Board :=
    if GPIO_Pin = GPIO_PIN_2 then
      TIM3_Config { s2 with period := wrapInt32 (s2.period + 1000) }
    else s2
  if GPIO_Pin = GPIO_PIN_3 then
    TIM3_Config { s3 with period := wrapInt32 (s3.period - 1000) }
  else s3

/-- The callback `HAL_TIM_PeriodElapsedCallback`: the timer tick.  The four
ladders are kept as they stand in the source, one branch per `if`. -/
def HAL_TIM_PeriodElapsedCallback (s0 : Board) : Board :=
  let s := BSP_LED_Toggle s0
  if s.mode = 0 ∧ s.direction = 0 then
    if s.state = 0 then
      let s := HAL_GPIO_WritePin s GPIO_PIN_13 0
      let s := HAL_GPIO_WritePin s GPIO_PIN_14 1
      { s with state := 1 }
    else if s.state = 1 then
      let s := HAL_GPIO_WritePin s GPIO_PIN_14 0
      let s := HAL_GPIO_WritePin s GPIO_PIN_4 1
      { s with state := 2 }
    else if s.state = 2 then
      let s := HAL_GPIO_WritePin s GPIO_PIN_4 0
      let s := HAL_GPIO_WritePin s GPIO_PIN_15 1
      { s with state := 3 }
    else if s.state = 3 then
      let s := HAL_GPIO_WritePin s GPIO_PIN_15 0
      let s := HAL_GPIO_WritePin s GPIO_PIN_13 1
      { s with state := 0 }
    else s
  else if s.mode = 1 ∧ s.direction = 0 then
    if s.stateh = 0 then
      let s := HAL_GPIO_WritePin s GPIO_PIN_14 1
      { s with stateh := 1 }
    else if s.stateh = 1 then
      let s := HAL_GPIO_WritePin s GPIO_PIN_13 0
      { s with stateh := 2 }
    else if s.stateh = 2 then
      let s := HAL_GPIO_WritePin s GPIO_PIN_4 1
      { s with stateh := 3 }
    else if s.stateh = 3 then
      let s := HAL_GPIO_WritePin s GPIO_PIN_14 0
      { s with stateh := 4 }
    else if s.stateh = 4 then
      let s := HAL_GPIO_WritePin s GPIO_PIN_15 1
      { s with stateh := 5 }
    else if s.stateh = 5 then
      let s := HAL_GPIO_WritePin s GPIO_PIN_4 0
      { s with stateh := 6 }
    else if s.stateh = 6 then
      let s := HAL_GPIO_WritePin s GPIO_PIN_13 1
      { s with stateh := 7 }
    else if s.stateh = 7 then
      let s := HAL_GPIO_WritePin s GPIO_PIN_15 0
      { s with stateh := 0 }
    else s
  else if s.mode = 0 ∧ s.direction = 1 then
    if s.state = 0 then
      let s := HAL_GPIO_WritePin s GPIO_PIN_13 0
      let s := HAL_GPIO_WritePin s GPIO_PIN_14 1
      { s with state := 3 }
    else if s.state = 1 then
      let s := HAL_GPIO_WritePin s GPIO_PIN_14 0
      let s := HAL_GPIO_WritePin s GPIO_PIN_4 1
      { s with state := 0 }
    else if s.state = 2 then
      let s := HAL_GPIO_WritePin s GPIO_PIN_4 0
      let s := HAL_GPIO_WritePin s GPIO_PIN_15 1
      { s with state := 1 }
    else if s.state = 3 then
      let s := HAL_GPIO_WritePin s GPIO_PIN_15 0
      let s := HAL_GPIO_WritePin s GPIO_PIN_13 1
      { s with state := 2 }
    else s
  else if s.mode = 1 ∧ s.direction = 1 then
    if s.stateh = 0 then
      let s := HAL_GPIO_WritePin s GPIO_PIN_14 1
      { s with stateh := 7 }
    else if s.stateh = 1 then
      let s := HAL_GPIO_WritePin s GPIO_PIN_13 0
      { s with stateh := 0 }
    else if s.stateh = 2 then
      let s := HAL_GPIO_WritePin s GPIO_PIN_4 1
      { s with stateh := 1 }
    else if s.stateh = 3 then
      let s := HAL_GPIO_WritePin s GPIO_PIN_14 0
      { s with stateh := 2 }
    else if s.stateh = 4 then
      let s := HAL_GPIO_WritePin s GPIO_PIN_15 1
      { s with stateh := 3 }
    else if s.stateh = 5 then
      let s := HAL_GPIO_WritePin s GPIO_PIN_4 0
      { s with stateh := 4 }
    else if s.stateh = 6 then
      let s := HAL_GPIO_WritePin s GPIO_PIN_13 1
      { s with stateh := 5 }
    else if s.stateh = 7 then
      let s := HAL_GPIO_WritePin s GPIO_PIN_15 0
      { s with stateh := 6 }
    else s
  else s

/-- The globals as their initialisers give them, before `main` runs; the output
latches and the LED are low after a hardware reset. -/
def globals : Board :=
  { state := 0
    stateh := 0
    mode := 0
    direction := 0
    period := 11250
    Tim3_PrescalerValue := 0
    Tim3_Init := { Period := 0, Prescaler := 0, ClockDivision := 0, CounterMode := 0 }
    pc13 := false
    pc14 := false
    pc15 := false
    pc4 := false
    led4 := false }

/-- The part of `main` that runs before its endless loop: `TIM3_Config()` and
the four pin writes that put the coils in the home pattern.  This is the
power-up state of the sequencer. -/
def main : Board :=
  let s := TIM3_Config globals
  let s := HAL_GPIO_WritePin s GPIO_PIN_13 1
  let s := HAL_GPIO_WritePin s GPIO_PIN_14 0
  let s := HAL_GPIO_WritePin s GPIO_PIN_15 0
  HAL_GPIO_WritePin s GPIO_PIN_4 0

/-! ## Runs of the program -/

/-- The state after `n` consecutive timer ticks. -/
def ticks : Nat → Board → Board
  | 0, s => s
  | n + 1, s => ticks n (HAL_TIM_PeriodElapsedCallback s)

/-- The coil patterns seen after each of `n` consecutive timer ticks. -/
def coilTrace : Nat → Board → List Coils
  | 0, _ => []
  | n + 1, s =>
    coils (HAL_TIM_PeriodElapsedCallback s) :: coilTrace n (HAL_TIM_PeriodElapsedCallback s)

/-- An interrupt the program reacts to. -/
inductive Event where
  | tick : Event
  | exti (GPIO_Pin : Nat) : Event
deriving DecidableEq, Repr

/-- The effect of one interrupt. -/
def step (s : Board) : Event → Board
  | Event.tick => HAL_TIM_PeriodElapsedCallback s
  | Event.exti p => HAL_GPIO_EXTI_Callback s p

/-- The effect of a finite sequence of interrupts, oldest first. -/
def run (s : Board) (es : List Event) : Board := es.foldl step s

/-- States the program can be in after power-up. -/
def Reachable (s : Board) : Prop := ∃ es : List Event, run main es = s

/-- The event sequence `es`, run from `s`, does not overflow the `int` range:
every `period += 1000` and every `period -= 1000` it performs has its exact
result between `INT_MIN` and `INT_MAX`. -/
def NoOverflow : Board → List Event → Bool
  | _, [] => true
  | s, Event.tick :: rest => NoOverflow (step s Event.tick) rest
  | s, Event.exti pin :: rest =>
    (if pin = GPIO_PIN_2 then decide (s.period + 1000 ≤ INT_MAX) else true) &&
    (if pin = GPIO_PIN_3 then decide (INT_MIN ≤ s.period - 1000) else true) &&
    NoOverflow (step s (Event.exti pin)) rest

/-- The active phase index: `state` in full-step mode, `stateh` otherwise. -/
def activePhase (s : Board) : Int := if s.mode = 0 then s.state else s.stateh

/-- The coil pattern `{A, B, C, D}` written with the digits 0 and 1. -/
def pat (a b c d : Nat) : Coils := (decide (a ≠ 0), decide (b ≠ 0), decide (c ≠ 0), decide (d ≠ 0))

/-- Coil by coil union of two patterns. -/
def union (x y : Coils) : Coils := (x.1 || y.1, x.2.1 || y.2.1, x.2.2.1 || y.2.2.1, x.2.2.2 || y.2.2.2)

/-- Number of phases of the active table: 4 in full-step mode, 8 in half-step mode. -/
def cycleLength (s : Board) : Nat := if s.mode = 0 then 4 else 8

/-- Coil writes of the full-step ladders of the tick at phase `p`, read off the
source: the ladders of both directions perform the same two writes at a given
phase. -/
def fullWrite (p : Int) (c : Coils) : Coils :=
  if p = 0 then (false, true, c.2.2.1, c.2.2.2)
  else if p = 1 then (c.1, false, c.2.2.1, true)
  else if p = 2 then (c.1, c.2.1, true, false)
  else (true, c.2.1, false, c.2.2.2)

/-- Coil write of the half-step ladders of the tick at phase `p`, read off the
source: the ladders of both directions perform the same write at a given phase. -/
def halfWrite (p : Int) (c : Coils) : Coils :=
  if p = 0 then (c.1, true, c.2.2.1, c.2.2.2)
  else if p = 1 then (false, c.2.1, c.2.2.1, c.2.2.2)
  else if p = 2 then (c.1, c.2.1, c.2.2.1, true)
  else if p = 3 then (c.1, false, c.2.2.1, c.2.2.2)
  else if p = 4 then (c.1, c.2.1, true, c.2.2.2)
  else if p = 5 then (c.1, c.2.1, c.2.2.1, false)
  else if p = 6 then (true, c.2.1, c.2.2.1, c.2.2.2)
  else (c.1, c.2.1, false, c.2.2.2)

/-- Pattern held at phase `p` of the forward full-step cycle. -/
def fullPattern (p : Int) : Coils :=
  if p = 0 then pat 1 0 0 0
  else if p = 1 then pat 0 1 0 0
  else if p = 2 then pat 0 0 0 1
  else pat 0 0 1 0

/-- Pattern held at phase `p` of the forward half-step cycle. -/
def halfPattern (p : Int) : Coils :=
  if p = 0 then pat 1 0 0 0
  else if p = 1 then pat 1 1 0 0
  else if p = 2 then pat 0 1 0 0
  else if p = 3 then pat 0 1 0 1
  else if p = 4 then pat 0 0 0 1
  else if p = 5 then pat 0 0 1 1
  else if p = 6 then pat 0 0 1 0
  else pat 1 0 1 0

/-- What holds in every reachable state: the flags and both phase indices are
in range, and while `direction == 0` the coils show the pattern of the active
forward table at the active phase. -/
def FwdInv (s : Board) : Prop :=
  (s.mode = 0 ∨ s.mode = 1) ∧ (s.direction = 0 ∨ s.direction = 1) ∧
  (0 ≤ s.state ∧ s.state ≤ 3) ∧ (0 ≤ s.stateh ∧ s.stateh ≤ 7) ∧
  (s.direction = 0 →
    (s.mode = 0 → coils s = fullPattern s.state) ∧
    (s.mode = 1 → coils s = halfPattern s.stateh))

/-- The closed state space of the sequencer: both flags are 0 or 1 and both
phase indices are within their table. -/
def Valid (s : Board) : Prop :=
  (s.mode = 0 ∨ s.mode = 1) ∧ (s.direction = 0 ∨ s.direction = 1) ∧
  (0 ≤ s.state ∧ s.state ≤ 3) ∧ (0 ≤ s.stateh ∧ s.stateh ≤ 7)

/-- The effect of a sequence of button interrupts, given by their pins, oldest
first. -/
def presses (s : Board) (pins : List Nat) : Board := run s (pins.map Event.exti)

/-- Two consecutive interrupts of the same button. -/
def doublePress (GPIO_Pin : Nat) (s : Board) : Board :=
  HAL_GPIO_EXTI_Callback (HAL_GPIO_EXTI_Callback s GPIO_Pin) GPIO_Pin

/-- The reload value in the timer handle is the one `TIM3_Config` derives from
the current `period`. -/
def TimerSynced (s : Board) : Prop :=
  s.Tim3_Init.Period = ((s.period - 1) % 2 ^ 32).toNat

/-- The state `s` with its four coil outputs replaced by the pattern `c`. -/
def setCoils (s : Board) (c : Coils) : Board :=
  { s with pc13 := c.1, pc14 := c.2.1, pc15 := c.2.2.1, pc4 := c.2.2.2 }

/-- The coil output number `k` of a pattern, in the order A, B, C, D. -/
def coilAt (c : Coils) (k : Fin 4) : Bool :=
  match k with
  | 0 => c.1
  | 1 => c.2.1
  | 2 => c.2.2.1
  | 3 => c.2.2.2

/-- Some branch of the tick fires: the flags are valid and the active phase
index is within its table. -/
def Live (s : Board) : Prop :=
  (s.mode = 0 ∨ s.mode = 1) ∧ (s.direction = 0 ∨ s.direction = 1) ∧
  0 ≤ activePhase s ∧ activePhase s < cycleLength s

/-- Two states that the sequencer cannot tell apart: same mode, direction,
active phase index and coil outputs. -/
def SameView (f s : Board) : Prop :=
  f.mode = s.mode ∧ f.direction = s.direction ∧ activePhase f = activePhase s ∧
  coils f = coils s

/-- Modelled from the spec: the status type `HAL_StatusTypeDef` of the vendor
HAL header, which is not among the sources; the calls report `HAL_OK` or a
failure. -/
inductive HAL_StatusTypeDef where
  | HAL_OK
  | HAL_ERROR
  | HAL_BUSY
  | HAL_TIMEOUT
deriving DecidableEq, Repr

/-- How start-up ends: in the endless loop of `main` with the board in state
`s`, or in the endless loop of `Error_Handler` with LED4 in the given state. -/
inductive Outcome where
  | running (s : Board)
  | halted (led4 : Bool)
deriving DecidableEq, Repr

/-- The function `Error_Handler`: LED4 on, then an endless loop. -/
def Error_Handler : Outcome := Outcome.halted true

/-- Start-up of `main` with the status of the HAL calls as inputs:
`SystemClock_Config` calls `Error_Handler` when `HAL_RCC_OscConfig` or
`HAL_RCC_ClockConfig` does not report `HAL_OK`; `TIM3_Config` calls
`HAL_TIM_Base_Init` and `HAL_TIM_Base_Start_IT` as plain statements, so their
status goes nowhere, and `main` enters its loop. -/
def main_startup (oscConfig clockConfig timBaseInit timBaseStartIT : HAL_StatusTypeDef) :
    Outcome :=
  if oscConfig ≠ HAL_StatusTypeDef.HAL_OK then Error_Handler
  else if clockConfig ≠ HAL_StatusTypeDef.HAL_OK then Error_Handler
  else
    let _dropped : HAL_StatusTypeDef × HAL_StatusTypeDef := (timBaseInit, timBaseStartIT)
    Outcome.running main

end Lab5

namespace Lab3

/-! # Lab 3 (real-time clock): the button callback of `Lab 3/lab3/Src/main.c`

The globals `state`, `Hour1`, ..., `Year` hold the menu position and the clock
fields being edited.  The callback reads the running hardware calendar through
`HAL_RTC_GetTime` / `HAL_RTC_GetDate`; what the hardware answers is an input of
the model.  LCD output touches none of the globals and is left out. -/

/-- The fields of the HAL type `RTC_TimeTypeDef` that the program uses. -/
structure RTC_TimeTypeDef where
  Hours : Nat
  Minutes : Nat
  Seconds : Nat
deriving DecidableEq, Repr

/-- The fields of the HAL type `RTC_DateTypeDef` that the program uses. -/
structure RTC_DateTypeDef where
  WeekDay : Nat
  Month : Nat
  Date : Nat
  Year : Nat
deriving DecidableEq, Repr

/-- The globals of `main.c` that the button callback reads or writes, and the
calendar last handed to the hardware by `RTC_Config`. -/
structure Clock where
  /-- The C global `state` (an `int`): the menu position. -/
  state : Int
  /-- The C global `Hour1` (a `uint8_t`). -/
  Hour1 : Nat
  /-- The C global `Min1` (a `uint8_t`). -/
  Min1 : Nat
  /-- The C global `Sec1` (a `uint8_t`). -/
  Sec1 : Nat
  /-- The C global `Weekday` (a `uint8_t`). -/
  Weekday : Nat
  /-- The C global `Day` (a `uint8_t`). -/
  Day : Nat
  /-- The C global `Month` (a `uint8_t`). -/
  Month : Nat
  /-- The C global `Year` (a `uint8_t`). -/
  Year : Nat
  /-- The C global `RTC_TimeStructure`. -/
  RTC_TimeStructure : RTC_TimeTypeDef
  /-- The C global `RTC_DateStructure`. -/
  RTC_DateStructure : RTC_DateTypeDef
  /-- Modelled from the spec: the EEPROM bytes at `memLocation` to
  `memLocation + 2` (the older stored time); the I2C routines are not among the
  sources, and a byte written is the byte read back. -/
  eepromOld : RTC_TimeTypeDef
  /-- Modelled from the spec: the EEPROM bytes at `memLocation + 3` to
  `memLocation + 5` (the newer stored time). -/
  eepromNew : RTC_TimeTypeDef
  /-- The time last handed to `HAL_RTC_SetTime` by `RTC_Config`. -/
  setTime : RTC_TimeTypeDef
  /-- The date last handed to `HAL_RTC_SetDate` by `RTC_Config`. -/
  setDate : RTC_DateTypeDef
deriving DecidableEq, Repr

/-- The function `RTC_Config`: it fills local date and time structures from the
globals and hands them to `HAL_RTC_SetDate` and `HAL_RTC_SetTime`; a failure of
either call is only shown on the LCD. -/
def RTC_Config (s : Clock) : Clock :=
  { s with
    setDate := { Year := s.Year, Month := s.Month, Date := s.Day, WeekDay := s.Weekday }
    setTime := { Hours := s.Hour1, Minutes := s.Min1, Seconds := s.Sec1 } }

/-- The callback `HAL_GPIO_EXTI_Callback(GPIO_Pin)` of Lab 3: three consecutive
`if` statements on the pin.  The arguments `nowTime` and `nowDate` are what
`HAL_RTC_GetTime` and `HAL_RTC_GetDate` read from the running calendar.  The
`uint8_t` fields are incremented modulo 256. -/
def HAL_GPIO_EXTI_Callback (s0 : Clock) (GPIO_Pin : Nat)
    (nowTime : RTC_TimeTypeDef) (nowDate : RTC_DateTypeDef) : Clock :=
  let s1 : Clock :=
    if GPIO_Pin = Lab5.KEY_BUTTON_PIN then
      let s := { s0 with eepromOld := s0.eepromNew }
      { s with eepromNew := s.RTC_TimeStructure }
    else s0
  let s2 : Clock :=
    if GPIO_Pin = Lab5.GPIO_PIN_1 then
      if s1.state = 0 then { s1 with state := 3 }
      else if s1.state = 3 then { s1 with state := 0 }
      else if s1.state = 5 then
        let s := { s1 with Hour1 := (s1.Hour1 + 1) % 256 }
        if s.Hour1 = 24 then { s with Hour1 := 0 } else s
      else if s1.state = 6 then
        let s := { s1 with Min1 := (s1.Min1 + 1) % 256 }
        if s.Min1 = 60 then { s with Min1 := 0 } else s
      else if s1.state = 7 then
        let s := { s1 with Sec1 := (s1.Sec1 + 1) % 256 }
        if s.Sec1 = 60 then { s with Sec1 := 0 } else s
      else if s1.state = 8 then
        let s := { s1 with Weekday := (s1.Weekday + 1) % 256 }
        if s.Weekday = 8 then { s with Weekday := 1 } else s
      else if s1.state = 9 then
        let s := { s1 with Day := (s1.Day + 1) % 256 }
        if s.Day = 32 then { s with Day := 1 } else s
      else if s1.state = 10 then
        let s := { s1 with Month := (s1.Month + 1) % 256 }
        if s.Month = 13 then { s with Month := 1 } else s
      else if s1.state = 11 then
        let s := { s1 with Year := (s1.Year + 1) % 256 }
        if s.Month = 100 then { s with Month := 0 } else s
      else s1
    else s1
  if GPIO_Pin = Lab5.GPIO_PIN_2 then
    if s2.state = 0 ∨ s2.state = 3 then
      let s := { s2 with RTC_TimeStructure := nowTime }
      let s := { s with RTC_DateStructure := nowDate }
      let s := { s with Hour1 := s.RTC_TimeStructure.Hours }
      let s := { s with Min1 := s.RTC_TimeStructure.Minutes }
      let s := { s with Sec1 := s.RTC_TimeStructure.Seconds }
      let s := { s with Weekday := s.RTC_DateStructure.WeekDay }
      let s := { s with Day := s.RTC_DateStructure.Date }
      let s := { s with Month := s.RTC_DateStructure.Month }
      let s := { s with Year := s.RTC_DateStructure.Year }
      { s with state := 4 }
    else if s2.state = 4 then { s2 with state := 5 }
    else if s2.state = 5 then { s2 with state := 6 }
    else if s2.state = 6 then { s2 with state := 7 }
    else if s2.state = 7 then { s2 with state := 8 }
    else if s2.state = 8 then { s2 with state := 9 }
    else if s2.state = 9 then { s2 with state := 10 }
    else if s2.state = 10 then { s2 with state := 11 }
    else if s2.state = 11 then
      let s := { s2 with RTC_TimeStructure :=
        { Hours := s2.Hour1, Minutes := s2.Min1, Seconds := s2.Sec1 } }
      let s := { s with RTC_DateStructure :=
        { WeekDay := s.Weekday, Date := s.Day, Month := s.Month, Year := s.Year } }
      let s := RTC_Config s
      { s with state := 0 }
    else s2
  else s2

/-- The globals as their initialisers give them. -/
def globals : Clock :=
  { state := 0
    Hour1 := 12
    Min1 := 32
    Sec1 := 5
    Weekday := 7
    Day := 11
    Month := 8
    Year := 2
    RTC_TimeStructure := { Hours := 0, Minutes := 0, Seconds := 0 }
    RTC_DateStructure := { WeekDay := 0, Month := 0, Date := 0, Year := 0 }
    eepromOld := { Hours := 0, Minutes := 0, Seconds := 0 }
    eepromNew := { Hours := 0, Minutes := 0, Seconds := 0 }
    setTime := { Hours := 0, Minutes := 0, Seconds := 0 }
    setDate := { WeekDay := 0, Month := 0, Date := 0, Year := 0 } }

/-- The calendar ranges of the seven clock fields. -/
def InCalendarRange (s : Clock) : Prop :=
  s.Hour1 ≤ 23 ∧ s.Min1 ≤ 59 ∧ s.Sec1 ≤ 59 ∧ (1 ≤ s.Weekday ∧ s.Weekday ≤ 7) ∧
  (1 ≤ s.Day ∧ s.Day ≤ 31) ∧ (1 ≤ s.Month ∧ s.Month ≤ 12) ∧ s.Year ≤ 99

/-- The seven clock fields, in the order hour, minute, second, weekday, day,
month, year. -/
def fields (s : Clock) : List Nat :=
  [s.Hour1, s.Min1, s.Sec1, s.Weekday, s.Day, s.Month, s.Year]

/-- The values of `state` after each of a series of button-2 events; every
event comes with the calendar reading of its instant. -/
def menuTrace : Clock → List (RTC_TimeTypeDef × RTC_DateTypeDef) → List Int
  | _, [] => []
  | s, r :: rs =>
    (HAL_GPIO_EXTI_Callback s Lab5.GPIO_PIN_2 r.1 r.2).state ::
      menuTrace (HAL_GPIO_EXTI_Callback s Lab5.GPIO_PIN_2 r.1 r.2) rs

end Lab3

namespace Lab4

/-! # Lab 4 (fan control): timer set-up and the control ladder of `Lab 4/lab4/Src/main.c`

The temperature `b` and `setPoint` are `double` in the source; here they are
exact rational numbers. -/

/-- Declared as `__IO uint16_t TIM3_CCR1_Val=200`; nothing assigns it. -/
def TIM3_CCR1_Val : Nat := 200
/-- Declared as `__IO uint16_t TIM3_CCR2_Val=400`; nothing assigns it. -/
def TIM3_CCR2_Val : Nat := 400
/-- Declared as `__IO uint16_t TIM3_CCR3_Val=600`; nothing assigns it. -/
def TIM3_CCR3_Val : Nat := 600
/-- Declared as `__IO uint16_t TIM3_CCR4_Val=800`; nothing assigns it. -/
def TIM3_CCR4_Val : Nat := 800
/-- Modelled from the spec: the macro `TIM_AUTORELOAD_PRELOAD_ENABLE` of the
vendor HAL header (bit 7 of the control register). -/
def TIM_AUTORELOAD_PRELOAD_ENABLE : Nat := 0x80

/-- The `Init` part of `TIM_HandleTypeDef` that `TIM3_PWM_Config` fills in. -/
structure TIM_Base_InitTypeDef where
  Period : Nat
  Prescaler : Nat
  ClockDivision : Nat
  CounterMode : Nat
  RepetitionCounter : Nat
  AutoReloadPreload : Nat
deriving DecidableEq, Repr

/-- The globals of `main.c` that the timer set-up and the control ladder use. -/
structure Fan where
  /-- The C global `setPoint` (a `volatile double`, initialised to 33). -/
  setPoint : ℚ
  /-- The C global `b` (a `double`): the measured temperature. -/
  b : ℚ
  /-- The C global `Tim3_PrescalerValue` (a `uint16_t` without initialiser). -/
  Tim3_PrescalerValue : Nat
  /-- The C global `TIM3_Period` (a `uint16_t` without initialiser). -/
  TIM3_Period : Nat
  /-- The C global `TIM3Prescaler`, declared by `TIM3Prescaler=1799;`. -/
  TIM3Prescaler : Int
  /-- The C global `TIM3Period`, declared by `TIM3Period=1000;`. -/
  TIM3Period : Int
  /-- The field `Tim3_Handle.Init`. -/
  Tim3_Init : TIM_Base_InitTypeDef
  /-- The field `Tim3_OCInitStructure.Pulse`. -/
  Pulse : Nat
  /-- Whether the PWM output of channel 3 (the fan) is started. -/
  pwm3 : Bool
deriving DecidableEq, Repr

/-- The globals as their initialisers give them; globals without initialiser
are zero. -/
def globals : Fan :=
  { setPoint := 33
    b := 0
    Tim3_PrescalerValue := 0
    TIM3_Period := 0
    TIM3Prescaler := 1799
    TIM3Period := 1000
    Tim3_Init := { Period := 0, Prescaler := 0, ClockDivision := 0, CounterMode := 0,
                   RepetitionCounter := 0, AutoReloadPreload := 0 }
    Pulse := 0
    pwm3 := false }

/-- The function `TIM3_PWM_Config`.  The argument `hal` gives the status of its
nine HAL calls in program order (`HAL_TIM_PWM_Init`, four times
`HAL_TIM_PWM_ConfigChannel`, four times `HAL_TIM_PWM_Start`); a status other
than `HAL_OK` leads into `Error_Handler`, which never returns: the result is
then `none`. -/
def TIM3_PWM_Config (s0 : Fan) (hal : Nat → Lab5.HAL_StatusTypeDef) : Option Fan :=
  let s := { s0 with Tim3_Init :=
    { Period := s0.TIM3_Period
      Prescaler := s0.Tim3_PrescalerValue
      ClockDivision := 0
      CounterMode := Lab5.TIM_COUNTERMODE_UP
      RepetitionCounter := 0
      AutoReloadPreload := TIM_AUTORELOAD_PRELOAD_ENABLE } }
  if hal 0 ≠ Lab5.HAL_StatusTypeDef.HAL_OK then none else
  let s := { s with Pulse := TIM3_CCR1_Val }
  if hal 1 ≠ Lab5.HAL_StatusTypeDef.HAL_OK then none else
  let s := { s with Pulse := TIM3_CCR2_Val }
  if hal 2 ≠ Lab5.HAL_StatusTypeDef.HAL_OK then none else
  let s := { s with Pulse := TIM3_CCR3_Val }
  if hal 3 ≠ Lab5.HAL_StatusTypeDef.HAL_OK then none else
  let s := { s with Pulse := TIM3_CCR4_Val }
  if hal 4 ≠ Lab5.HAL_StatusTypeDef.HAL_OK then none else
  if hal 5 ≠ Lab5.HAL_StatusTypeDef.HAL_OK then none else
  if hal 6 ≠ Lab5.HAL_StatusTypeDef.HAL_OK then none else
  if hal 7 ≠ Lab5.HAL_StatusTypeDef.HAL_OK then none else
  let s := { s with pwm3 := true }
  if hal 8 ≠ Lab5.HAL_StatusTypeDef.HAL_OK then none else
  some s

/-- The control ladder that ends the body of the endless loop of `main`
(lines 173 to 189): it compares the measured temperature `b` with `setPoint`. -/
def main_ladder (s : Fan) : Fan :=
  if s.b > s.setPoint ∧ s.b ≤ s.setPoint + 2 then
    let s := { s with pwm3 := true }
    { s with Pulse := TIM3_CCR1_Val }
  else if s.b > s.setPoint + 2 ∧ s.b ≤ s.setPoint + 4 then
    { s with Pulse := TIM3_CCR2_Val }
  else if s.b > s.setPoint + 4 ∧ s.b ≤ s.setPoint + 6 then
    { s with Pulse := TIM3_CCR3_Val }
  else if s.b > s.setPoint + 6 ∧ s.b ≤ s.setPoint + 8 then
    { s with Pulse := TIM3_CCR4_Val }
  else if s.b < s.setPoint then
    let s := { s with pwm3 := false }
    { s with Pulse := 0 }
  else s

/-- One pass of the endless loop of `main`.  The inputs are whether button 1
and button 2 count as held at this pass (pin low and half a second since the
last count) and the value `a` that `HAL_ADC_GetValue` returns; the temperature
is `a * (3000.0/(4095.0*10.0*3.0))`. -/
def main_pass (s : Fan) (held1 held2 : Bool) (a : Nat) : Fan :=
  let s := if held1 then { s with setPoint := s.setPoint + 1 } else s
  let s := if held2 then { s with setPoint := s.setPoint - 1 } else s
  let s := { s with b := (a : ℚ) * (3000 / (4095 * 10 * 3)) }
  main_ladder s

/-- The part of `main` that runs before its endless loop, when no HAL call
fails: `TIM3_PWM_Config()`, then `Pulse = 0` and the stop of channel 3. -/
def main_startup (hal : Nat → Lab5.HAL_StatusTypeDef) : Option Fan :=
  match TIM3_PWM_Config globals hal with
  | none => none
  | some s =>
    let s := { s with Pulse := 0 }
    some { s with pwm3 := false }

end Lab4

/-! # Theorems -/

namespace Lab5

/-! ## Evaluation of the callbacks on explicit records

Each lemma runs one branch of a ladder; all of them hold by unfolding. -/

@[simp] theorem tick_full_d0_p0 (sth p : Int) (pv : Nat) (ti : TIM_Base_InitTypeDef)
    (a b c e l : Bool) :
    HAL_TIM_PeriodElapsedCallback (Board.mk 0 sth 0 0 p pv ti a b c e l) =
      Board.mk 1 sth 0 0 p pv ti false true c e (!l) := rfl

@[simp] theorem tick_full_d0_p1 (sth p : Int) (pv : Nat) (ti : TIM_Base_InitTypeDef)
    (a b c e l : Bool) :
    HAL_TIM_PeriodElapsedCallback (Board.mk 1 sth 0 0 p pv ti a b c e l) =
      Board.mk 2 sth 0 0 p pv ti a false c true (!l) := rfl

@[simp] theorem tick_full_d0_p2 (sth p : Int) (pv : Nat) (ti : TIM_Base_InitTypeDef)
    (a b c e l : Bool) :
    HAL_TIM_PeriodElapsedCallback (Board.mk 2 sth 0 0 p pv ti a b c e l) =
      Board.mk 3 sth 0 0 p pv ti a b true false (!l) := rfl

@[simp] theorem tick_full_d0_p3 (sth p : Int) (pv : Nat) (ti : TIM_Base_InitTypeDef)
    (a b c e l : Bool) :
    HAL_TIM_PeriodElapsedCallback (Board.mk 3 sth 0 0 p pv ti a b c e l) =
      Board.mk 0 sth 0 0 p pv ti true b false e (!l) := rfl

@[simp] theorem tick_full_d1_p0 (sth p : Int) (pv : Nat) (ti : TIM_Base_InitTypeDef)
    (a b c e l : Bool) :
    HAL_TIM_PeriodElapsedCallback (Board.mk 0 sth 0 1 p pv ti a b c e l) =
      Board.mk 3 sth 0 1 p pv ti false true c e (!l) := rfl

@[simp] theorem tick_full_d1_p1 (sth p : Int) (pv : Nat) (ti : TIM_Base_InitTypeDef)
    (a b c e l : Bool) :
    HAL_TIM_PeriodElapsedCallback (Board.mk 1 sth 0 1 p pv ti a b c e l) =
      Board.mk 0 sth 0 1 p pv ti a false c true (!l) := rfl

@[simp] theorem tick_full_d1_p2 (sth p : Int) (pv : Nat) (ti : TIM_Base_InitTypeDef)
    (a b c e l : Bool) :
    HAL_TIM_PeriodElapsedCallback (Board.mk 2 sth 0 1 p pv ti a b c e l) =
      Board.mk 1 sth 0 1 p pv ti a b true false (!l) := rfl

@[simp] theorem tick_full_d1_p3 (sth p : Int) (pv : Nat) (ti : TIM_Base_InitTypeDef)
    (a b c e l : Bool) :
    HAL_TIM_PeriodElapsedCallback (Board.mk 3 sth 0 1 p pv ti a b c e l) =
      Board.mk 2 sth 0 1 p pv ti true b false e (!l) := rfl

@[simp] theorem tick_half_d0_p0 (st p : Int) (pv : Nat) (ti : TIM_Base_InitTypeDef)
    (a b c e l : Bool) :
    HAL_TIM_PeriodElapsedCallback (Board.mk st 0 1 0 p pv ti a b c e l) =
      Board.mk st 1 1 0 p pv ti a true c e (!l) := rfl

@[simp] theorem tick_half_d0_p1 (st p : Int) (pv : Nat) (ti : TIM_Base_InitTypeDef)
    (a b c e l : Bool) :
    HAL_TIM_PeriodElapsedCallback (Board.mk st 1 1 0 p pv ti a b c e l) =
      Board.mk st 2 1 0 p pv ti false b c e (!l) := rfl

@[simp] theorem tick_half_d0_p2 (st p : Int) (pv : Nat) (ti : TIM_Base_InitTypeDef)
    (a b c e l : Bool) :
    HAL_TIM_PeriodElapsedCallback (Board.mk st 2 1 0 p pv ti a b c e l) =
      Board.mk st 3 1 0 p pv ti a b c true (!l) := rfl

@[simp] theorem tick_half_d0_p3 (st p : Int) (pv : Nat) (ti : TIM_Base_InitTypeDef)
    (a b c e l : Bool) :
    HAL_TIM_PeriodElapsedCallback (Board.mk st 3 1 0 p pv ti a b c e l) =
      Board.mk st 4 1 0 p pv ti a false c e (!l) := rfl

@[simp] theorem tick_half_d0_p4 (st p : Int) (pv : Nat) (ti : TIM_Base_InitTypeDef)
    (a b c e l : Bool) :
    HAL_TIM_PeriodElapsedCallback (Board.mk st 4 1 0 p pv ti a b c e l) =
      Board.mk st 5 1 0 p pv ti a b true e (!l) := rfl

@[simp] theorem tick_half_d0_p5 (st p : Int) (pv : Nat) (ti : TIM_Base_InitTypeDef)
    (a b c e l : Bool) :
    HAL_TIM_PeriodElapsedCallback (Board.mk st 5 1 0 p pv ti a b c e l) =
      Board.mk st 6 1 0 p pv ti a b c false (!l) := rfl

@[simp] theorem tick_half_d0_p6 (st p : Int) (pv : Nat) (ti : TIM_Base_InitTypeDef)
    (a b c e l : Bool) :
    HAL_TIM_PeriodElapsedCallback (Board.mk st 6 1 0 p pv ti a b c e l) =
      Board.mk st 7 1 0 p pv ti true b c e (!l) := rfl

@[simp] theorem tick_half_d0_p7 (st p : Int) (pv : Nat) (ti : TIM_Base_InitTypeDef)
    (a b c e l : Bool) :
    HAL_TIM_PeriodElapsedCallback (Board.mk st 7 1 0 p pv ti a b c e l) =
      Board.mk st 0 1 0 p pv ti a b false e (!l) := rfl

@[simp] theorem tick_half_d1_p0 (st p : Int) (pv : Nat) (ti : TIM_Base_InitTypeDef)
    (a b c e l : Bool) :
    HAL_TIM_PeriodElapsedCallback (Board.mk st 0 1 1 p pv ti a b c e l) =
      Board.mk st 7 1 1 p pv ti a true c e (!l) := rfl

@[simp] theorem tick_half_d1_p1 (st p : Int) (pv : Nat) (ti : TIM_Base_InitTypeDef)
    (a b c e l : Bool) :
    HAL_TIM_PeriodElapsedCallback (Board.mk st 1 1 1 p pv ti a b c e l) =
      Board.mk st 0 1 1 p pv ti false b c e (!l) := rfl

@[simp] theorem tick_half_d1_p2 (st p : Int) (pv : Nat) (ti : TIM_Base_InitTypeDef)
    (a b c e l : Bool) :
    HAL_TIM_PeriodElapsedCallback (Board.mk st 2 1 1 p pv ti a b c e l) =
      Board.mk st 1 1 1 p pv ti a b c true (!l) := rfl

@[simp] theorem tick_half_d1_p3 (st p : Int) (pv : Nat) (ti : TIM_Base_InitTypeDef)
    (a b c e l : Bool) :
    HAL_TIM_PeriodElapsedCallback (Board.mk st 3 1 1 p pv ti a b c e l) =
      Board.mk st 2 1 1 p pv ti a false c e (!l) := rfl

@[simp] theorem tick_half_d1_p4 (st p : Int) (pv : Nat) (ti : TIM_Base_InitTypeDef)
    (a b c e l : Bool) :
    HAL_TIM_PeriodElapsedCallback (Board.mk st 4 1 1 p pv ti a b c e l) =
      Board.mk st 3 1 1 p pv ti a b true e (!l) := rfl

@[simp] theorem tick_half_d1_p5 (st p : Int) (pv : Nat) (ti : TIM_Base_InitTypeDef)
    (a b c e l : Bool) :
    HAL_TIM_PeriodElapsedCallback (Board.mk st 5 1 1 p pv ti a b c e l) =
      Board.mk st 4 1 1 p pv ti a b c false (!l) := rfl

@[simp] theorem tick_half_d1_p6 (st p : Int) (pv : Nat) (ti : TIM_Base_InitTypeDef)
    (a b c e l : Bool) :
    HAL_TIM_PeriodElapsedCallback (Board.mk st 6 1 1 p pv ti a b c e l) =
      Board.mk st 5 1 1 p pv ti true b c e (!l) := rfl

@[simp] theorem tick_half_d1_p7 (st p : Int) (pv : Nat) (ti : TIM_Base_InitTypeDef)
    (a b c e l : Bool) :
    HAL_TIM_PeriodElapsedCallback (Board.mk st 7 1 1 p pv ti a b c e l) =
      Board.mk st 6 1 1 p pv ti a b false e (!l) := rfl

@[simp] theorem exti_key_m1 (st sth d : Int) (p : Int) (pv : Nat) (ti : TIM_Base_InitTypeDef)
    (a b c e l : Bool) :
    HAL_GPIO_EXTI_Callback (Board.mk st sth 1 d p pv ti a b c e l) KEY_BUTTON_PIN =
      Board.mk 0 sth 0 d p pv ti true false false false l := rfl

@[simp] theorem exti_key_m0 (st sth d : Int) (p : Int) (pv : Nat) (ti : TIM_Base_InitTypeDef)
    (a b c e l : Bool) :
    HAL_GPIO_EXTI_Callback (Board.mk st sth 0 d p pv ti a b c e l) KEY_BUTTON_PIN =
      Board.mk st 0 1 d p pv ti true false false false l := rfl

@[simp] theorem exti_pin1_d1 (st sth m : Int) (p : Int) (pv : Nat) (ti : TIM_Base_InitTypeDef)
    (a b c e l : Bool) :
    HAL_GPIO_EXTI_Callback (Board.mk st sth m 1 p pv ti a b c e l) GPIO_PIN_1 =
      Board.mk 0 0 m 0 p pv ti true false false false l := rfl

@[simp] theorem exti_pin1_d0 (st sth m : Int) (p : Int) (pv : Nat) (ti : TIM_Base_InitTypeDef)
    (a b c e l : Bool) :
    HAL_GPIO_EXTI_Callback (Board.mk st sth m 0 p pv ti a b c e l) GPIO_PIN_1 =
      Board.mk 0 0 m 1 p pv ti true false false false l := rfl

@[simp] theorem exti_pin2 (st sth m d : Int) (p : Int) (pv : Nat) (ti : TIM_Base_InitTypeDef)
    (a b c e l : Bool) :
    HAL_GPIO_EXTI_Callback (Board.mk st sth m d p pv ti a b c e l) GPIO_PIN_2 =
      Board.mk st sth m d (wrapInt32 (p + 1000)) 8999
        (TIM_Base_InitTypeDef.mk ((wrapInt32 (p + 1000) - 1) % 2 ^ 32).toNat 8999 0
          TIM_COUNTERMODE_UP)
        a b c e l := rfl

@[simp] theorem exti_pin3 (st sth m d : Int) (p : Int) (pv : Nat) (ti : TIM_Base_InitTypeDef)
    (a b c e l : Bool) :
    HAL_GPIO_EXTI_Callback (Board.mk st sth m d p pv ti a b c e l) GPIO_PIN_3 =
      Board.mk st sth m d (wrapInt32 (p - 1000)) 8999
        (TIM_Base_InitTypeDef.mk ((wrapInt32 (p - 1000) - 1) % 2 ^ 32).toNat 8999 0
          TIM_COUNTERMODE_UP)
        a b c e l := rfl

/-- The power-up state, field by field. -/
theorem main_eq :
    main = Board.mk 0 0 0 0 11250 8999 (TIM_Base_InitTypeDef.mk 11249 8999 0 0)
      true false false false false := by decide

/-! ## Single steps -/

/-- One tick in full-step mode, on a valid phase. -/
theorem tick_full (s : Board) (hm : s.mode = 0) (hd : s.direction = 0 ∨ s.direction = 1)
    (h0 : 0 ≤ s.state) (h3 : s.state ≤ 3) :
    (HAL_TIM_PeriodElapsedCallback s).mode = s.mode ∧
    (HAL_TIM_PeriodElapsedCallback s).direction = s.direction ∧
    (HAL_TIM_PeriodElapsedCallback s).stateh = s.stateh ∧
    (HAL_TIM_PeriodElapsedCallback s).period = s.period ∧
    (HAL_TIM_PeriodElapsedCallback s).state =
      (if s.direction = 0 then (s.state + 1) % 4 else (s.state - 1) % 4) ∧
    coils (HAL_TIM_PeriodElapsedCallback s) = fullWrite s.state (coils s) := by
  rcases s with ⟨st, sth, m, d, p, pv, ti, a, b, c, e, l⟩
  simp only at hm hd h0 h3
  subst hm
  rcases hd with rfl | rfl <;> interval_cases st <;> exact ⟨rfl, rfl, rfl, rfl, rfl, rfl⟩

/-- One tick in half-step mode, on a valid phase. -/
theorem tick_half (s : Board) (hm : s.mode = 1) (hd : s.direction = 0 ∨ s.direction = 1)
    (h0 : 0 ≤ s.stateh) (h7 : s.stateh ≤ 7) :
    (HAL_TIM_PeriodElapsedCallback s).mode = s.mode ∧
    (HAL_TIM_PeriodElapsedCallback s).direction = s.direction ∧
    (HAL_TIM_PeriodElapsedCallback s).state = s.state ∧
    (HAL_TIM_PeriodElapsedCallback s).period = s.period ∧
    (HAL_TIM_PeriodElapsedCallback s).stateh =
      (if s.direction = 0 then (s.stateh + 1) % 8 else (s.stateh - 1) % 8) ∧
    coils (HAL_TIM_PeriodElapsedCallback s) = halfWrite s.stateh (coils s) := by
  rcases s with ⟨st, sth, m, d, p, pv, ti, a, b, c, e, l⟩
  simp only at hm hd h0 h7
  subst hm
  rcases hd with rfl | rfl <;> interval_cases sth <;> exact ⟨rfl, rfl, rfl, rfl, rfl, rfl⟩

theorem ticks_succ (n : Nat) (s : Board) :
    ticks (n + 1) s = ticks n (HAL_TIM_PeriodElapsedCallback s) := rfl

/-- Ticks can be peeled off at the end as well as at the start. -/
theorem ticks_succ_last (n : Nat) (s : Board) :
    ticks (n + 1) s = HAL_TIM_PeriodElapsedCallback (ticks n s) := by
  induction n generalizing s with
  | zero => rfl
  | succ k ih => rw [ticks_succ, ih, ticks_succ]

/-- Phase index after `n` ticks in full-step mode. -/
theorem ticks_full_phase (n : Nat) (s : Board) (hm : s.mode = 0)
    (hd : s.direction = 0 ∨ s.direction = 1) (h0 : 0 ≤ s.state) (h3 : s.state ≤ 3) :
    (ticks n s).mode = 0 ∧ (ticks n s).direction = s.direction ∧
    (ticks n s).stateh = s.stateh ∧
    (ticks n s).state = (if s.direction = 0 then (s.state + n) % 4 else (s.state - n) % 4) := by
  induction n generalizing s with
  | zero =>
    refine ⟨hm, rfl, rfl, ?_⟩
    show s.state = _
    split_ifs <;> omega
  | succ k ih =>
    obtain ⟨t1, t2, t3, _, t5, _⟩ := tick_full s hm hd h0 h3
    have hr : 0 ≤ (HAL_TIM_PeriodElapsedCallback s).state ∧
        (HAL_TIM_PeriodElapsedCallback s).state ≤ 3 := by
      rw [t5]; split_ifs <;> omega
    obtain ⟨i1, i2, i3, i4⟩ := ih (HAL_TIM_PeriodElapsedCallback s) (t1.trans hm)
      (by rw [t2]; exact hd) hr.1 hr.2
    rw [ticks_succ]
    refine ⟨i1, i2.trans t2, i3.trans t3, ?_⟩
    rw [i4, t2, t5]
    push_cast
    split_ifs <;> omega

/-- Phase index after `n` ticks in half-step mode. -/
theorem ticks_half_phase (n : Nat) (s : Board) (hm : s.mode = 1)
    (hd : s.direction = 0 ∨ s.direction = 1) (h0 : 0 ≤ s.stateh) (h7 : s.stateh ≤ 7) :
    (ticks n s).mode = 1 ∧ (ticks n s).direction = s.direction ∧
    (ticks n s).state = s.state ∧
    (ticks n s).stateh = (if s.direction = 0 then (s.stateh + n) % 8 else (s.stateh - n) % 8) := by
  induction n generalizing s with
  | zero =>
    refine ⟨hm, rfl, rfl, ?_⟩
    show s.stateh = _
    split_ifs <;> omega
  | succ k ih =>
    obtain ⟨t1, t2, t3, _, t5, _⟩ := tick_half s hm hd h0 h7
    have hr : 0 ≤ (HAL_TIM_PeriodElapsedCallback s).stateh ∧
        (HAL_TIM_PeriodElapsedCallback s).stateh ≤ 7 := by
      rw [t5]; split_ifs <;> omega
    obtain ⟨i1, i2, i3, i4⟩ := ih (HAL_TIM_PeriodElapsedCallback s) (t1.trans hm)
      (by rw [t2]; exact hd) hr.1 hr.2
    rw [ticks_succ]
    refine ⟨i1, i2.trans t2, i3.trans t3, ?_⟩
    rw [i4, t2, t5]
    push_cast
    split_ifs <;> omega

/-! ## The tables of the forward direction -/

/-- C1: in full-step mode with `direction == 0`, from phase 0 and the home
pattern `{1,0,0,0}`, four consecutive ticks produce the patterns `{0,1,0,0}`,
`{0,0,0,1}`, `{0,0,1,0}`, `{1,0,0,0}` and the phase indices 1, 2, 3, 0. -/
theorem C1_full_step_table (s : Board) (hm : s.mode = 0) (hd : s.direction = 0)
    (hp : s.state = 0) (hc : coils s = pat 1 0 0 0) :
    coilTrace 4 s = [pat 0 1 0 0, pat 0 0 0 1, pat 0 0 1 0, pat 1 0 0 0] ∧
    (ticks 1 s).state = 1 ∧ (ticks 2 s).state = 2 ∧
    (ticks 3 s).state = 3 ∧ (ticks 4 s).state = 0 := by
  rcases s with ⟨st, sth, m, d, p, pv, ti, a, b, c, e, l⟩
  simp only [coils, pat, Prod.mk.injEq] at hm hd hp hc
  obtain ⟨rfl, rfl, rfl, rfl⟩ := hc
  subst hm hd hp
  simp [coilTrace, ticks, coils, pat]

/-- C1 at the power-up state. -/
theorem C1_full_step_table_witness :
    coilTrace 4 main = [pat 0 1 0 0, pat 0 0 0 1, pat 0 0 1 0, pat 1 0 0 0] ∧
    (ticks 1 main).state = 1 ∧ (ticks 2 main).state = 2 ∧
    (ticks 3 main).state = 3 ∧ (ticks 4 main).state = 0 :=
  C1_full_step_table main rfl rfl rfl (by decide)

/-- C2: in half-step mode with `direction == 0`, from `stateh = 0` and the home
pattern, eight consecutive ticks produce `{1,1,0,0}`, `{0,1,0,0}`, `{0,1,0,1}`,
`{0,0,0,1}`, `{0,0,1,1}`, `{0,0,1,0}`, `{1,0,1,0}`, `{1,0,0,0}`; the patterns
after ticks 2, 4, 6, 8 are the four patterns of a full-step run from the home
position, in that order, and each pattern after ticks 1, 3, 5, 7 has two coils
high and is the union of the full-step patterns on either side of it. -/
theorem C2_half_step_table (s : Board) (hm : s.mode = 1) (hd : s.direction = 0)
    (hp : s.stateh = 0) (hc : coils s = pat 1 0 0 0) :
    coilTrace 8 s = [pat 1 1 0 0, pat 0 1 0 0, pat 0 1 0 1, pat 0 0 0 1,
      pat 0 0 1 1, pat 0 0 1 0, pat 1 0 1 0, pat 1 0 0 0] ∧
    (∀ f : Board, f.mode = 0 → f.direction = 0 → f.state = 0 → coils f = pat 1 0 0 0 →
      coilTrace 4 f =
        [coils (ticks 2 s), coils (ticks 4 s), coils (ticks 6 s), coils (ticks 8 s)]) ∧
    (coils (ticks 1 s) = union (coils s) (coils (ticks 2 s)) ∧
      highCount (coils (ticks 1 s)) = 2) ∧
    (coils (ticks 3 s) = union (coils (ticks 2 s)) (coils (ticks 4 s)) ∧
      highCount (coils (ticks 3 s)) = 2) ∧
    (coils (ticks 5 s) = union (coils (ticks 4 s)) (coils (ticks 6 s)) ∧
      highCount (coils (ticks 5 s)) = 2) ∧
    (coils (ticks 7 s) = union (coils (ticks 6 s)) (coils (ticks 8 s)) ∧
      highCount (coils (ticks 7 s)) = 2) := by
  rcases s with ⟨st, sth, m, d, p, pv, ti, a, b, c, e, l⟩
  simp only [coils, pat, Prod.mk.injEq] at hm hd hp hc
  obtain ⟨rfl, rfl, rfl, rfl⟩ := hc
  subst hm hd hp
  refine ⟨by simp [coilTrace, coils, pat], ?_, by simp [ticks, coils, union, highCount]⟩
  intro f fm fd fp fc
  rcases f with ⟨st, sth, m, d, p, pv, ti, a, b, c, e, l⟩
  simp only [coils, pat, Prod.mk.injEq] at fm fd fp fc
  obtain ⟨rfl, rfl, rfl, rfl⟩ := fc
  subst fm fd fp
  simp [coilTrace, ticks, coils]

/-- C2 at the state reached from power-up by one press of the mode button. -/
theorem C2_half_step_table_witness :
    coilTrace 8 (HAL_GPIO_EXTI_Callback main KEY_BUTTON_PIN) =
      [pat 1 1 0 0, pat 0 1 0 0, pat 0 1 0 1, pat 0 0 0 1,
        pat 0 0 1 1, pat 0 0 1 0, pat 1 0 1 0, pat 1 0 0 0] :=
  (C2_half_step_table (HAL_GPIO_EXTI_Callback main KEY_BUTTON_PIN) rfl rfl rfl (by decide)).1

/-- C3: from every state with `mode` and `direction` in {0,1}, a mode-button
event and a direction-button event both leave the phase index of the now-active
mode at 0 and the coils in the home pattern `{1,0,0,0}`; entering half-step mode
(by the mode button from full-step mode, or by the direction button while in
half-step mode) yields `stateh = 0` and the home pattern. -/
theorem C3_reset (s : Board) (hm : s.mode = 0 ∨ s.mode = 1)
    (hd : s.direction = 0 ∨ s.direction = 1) :
    (activePhase (HAL_GPIO_EXTI_Callback s KEY_BUTTON_PIN) = 0 ∧
      coils (HAL_GPIO_EXTI_Callback s KEY_BUTTON_PIN) = pat 1 0 0 0) ∧
    (activePhase (HAL_GPIO_EXTI_Callback s GPIO_PIN_1) = 0 ∧
      coils (HAL_GPIO_EXTI_Callback s GPIO_PIN_1) = pat 1 0 0 0) ∧
    (s.mode = 0 →
      (HAL_GPIO_EXTI_Callback s KEY_BUTTON_PIN).mode = 1 ∧
      (HAL_GPIO_EXTI_Callback s KEY_BUTTON_PIN).direction = s.direction ∧
      (HAL_GPIO_EXTI_Callback s KEY_BUTTON_PIN).stateh = 0 ∧
      coils (HAL_GPIO_EXTI_Callback s KEY_BUTTON_PIN) = pat 1 0 0 0) ∧
    (s.mode = 1 →
      (HAL_GPIO_EXTI_Callback s GPIO_PIN_1).mode = 1 ∧
      (HAL_GPIO_EXTI_Callback s GPIO_PIN_1).direction = 1 - s.direction ∧
      (HAL_GPIO_EXTI_Callback s GPIO_PIN_1).stateh = 0 ∧
      coils (HAL_GPIO_EXTI_Callback s GPIO_PIN_1) = pat 1 0 0 0) := by
  rcases s with ⟨st, sth, m, d, p, pv, ti, a, b, c, e, l⟩
  simp only at hm hd
  rcases hm with rfl | rfl <;> rcases hd with rfl | rfl <;>
    simp [activePhase, coils, pat]

/-- C3 in half-step mode, three ticks after the mode button: the direction
button brings the sequencer back to `stateh = 0` and the home pattern. -/
theorem C3_reset_witness :
    activePhase (HAL_GPIO_EXTI_Callback
      (ticks 3 (HAL_GPIO_EXTI_Callback main KEY_BUTTON_PIN)) GPIO_PIN_1) = 0 ∧
    coils (HAL_GPIO_EXTI_Callback
      (ticks 3 (HAL_GPIO_EXTI_Callback main KEY_BUTTON_PIN)) GPIO_PIN_1) = pat 1 0 0 0 :=
  (C3_reset (ticks 3 (HAL_GPIO_EXTI_Callback main KEY_BUTTON_PIN))
    (Or.inr (by decide)) (Or.inl (by decide))).2.1

/-! ## Phase arithmetic -/

/-- C4: on a valid phase `p`, a tick maps the active phase index to
`(p + 1) mod N` when `direction == 0` and to `(p - 1) mod N` when
`direction == 1`, with `N = 4` for the index `state` of full-step mode and
`N = 8` for the index `stateh` of half-step mode. -/
theorem C4_phase_update_modular (s : Board) (hd : s.direction = 0 ∨ s.direction = 1) :
    (s.mode = 0 → 0 ≤ s.state → s.state ≤ 3 →
      (HAL_TIM_PeriodElapsedCallback s).state =
        (if s.direction = 0 then (s.state + 1) % 4 else (s.state - 1) % 4)) ∧
    (s.mode = 1 → 0 ≤ s.stateh → s.stateh ≤ 7 →
      (HAL_TIM_PeriodElapsedCallback s).stateh =
        (if s.direction = 0 then (s.stateh + 1) % 8 else (s.stateh - 1) % 8)) :=
  ⟨fun hm h0 h3 => (tick_full s hm hd h0 h3).2.2.2.2.1,
   fun hm h0 h7 => (tick_half s hm hd h0 h7).2.2.2.2.1⟩

/-- C4 on the reverse full-step ladder at phase 0: the next phase is 3. -/
theorem C4_phase_update_modular_witness :
    (HAL_TIM_PeriodElapsedCallback (HAL_GPIO_EXTI_Callback main GPIO_PIN_1)).state = 3 :=
  (C4_phase_update_modular (HAL_GPIO_EXTI_Callback main GPIO_PIN_1) (Or.inr rfl)).1 rfl
    (by decide) (by decide)

/-- C5: for both modes and both directions, from every valid phase, the active
phase index after 1, 2, ..., k consecutive ticks takes k pairwise distinct
values, covers the whole range [0, k-1], is back at the starting phase after
exactly k ticks and at no earlier tick (k = 4 in full-step, 8 in half-step). -/
theorem C5_phase_cycle_length (s : Board) (hm : s.mode = 0 ∨ s.mode = 1)
    (hd : s.direction = 0 ∨ s.direction = 1)
    (h0 : 0 ≤ activePhase s) (hk : activePhase s < cycleLength s) :
    (∀ i j : Nat, 1 ≤ i → i ≤ cycleLength s → 1 ≤ j → j ≤ cycleLength s →
      activePhase (ticks i s) = activePhase (ticks j s) → i = j) ∧
    (∀ v : Int, 0 ≤ v → v < cycleLength s →
      ∃ i : Nat, 1 ≤ i ∧ i ≤ cycleLength s ∧ activePhase (ticks i s) = v) ∧
    activePhase (ticks (cycleLength s) s) = activePhase s ∧
    (∀ i : Nat, 1 ≤ i → i < cycleLength s → activePhase (ticks i s) ≠ activePhase s) := by
  rcases hm with hm | hm
  · have hc : cycleLength s = 4 := by simp [cycleLength, hm]
    have ha : activePhase s = s.state := by simp [activePhase, hm]
    rw [hc] at hk ⊢
    rw [ha] at h0 hk ⊢
    have h3 : s.state ≤ 3 := by push_cast at hk; omega
    have key : ∀ n : Nat, activePhase (ticks n s) =
        (if s.direction = 0 then (s.state + n) % 4 else (s.state - n) % 4) := by
      intro n
      obtain ⟨e1, _, _, e4⟩ := ticks_full_phase n s hm hd h0 h3
      simp only [activePhase, e1, if_true, e4]
    refine ⟨?_, ?_, ?_, ?_⟩
    · intro i j hi1 hi4 hj1 hj4 hij
      rw [key i, key j] at hij
      split_ifs at hij <;> omega
    · intro v hv0 hv4
      push_cast at hv4
      by_cases hdir : s.direction = 0
      · rcases (show v = (s.state + (1 : Nat)) % 4 ∨ v = (s.state + (2 : Nat)) % 4 ∨
            v = (s.state + (3 : Nat)) % 4 ∨ v = (s.state + (4 : Nat)) % 4 by
            push_cast; omega) with h | h | h | h
        · exact ⟨1, by omega, by omega, by rw [key, if_pos hdir, h]⟩
        · exact ⟨2, by omega, by omega, by rw [key, if_pos hdir, h]⟩
        · exact ⟨3, by omega, by omega, by rw [key, if_pos hdir, h]⟩
        · exact ⟨4, by omega, by omega, by rw [key, if_pos hdir, h]⟩
      · rcases (show v = (s.state - (1 : Nat)) % 4 ∨ v = (s.state - (2 : Nat)) % 4 ∨
            v = (s.state - (3 : Nat)) % 4 ∨ v = (s.state - (4 : Nat)) % 4 by
            push_cast; omega) with h | h | h | h
        · exact ⟨1, by omega, by omega, by rw [key, if_neg hdir, h]⟩
        · exact ⟨2, by omega, by omega, by rw [key, if_neg hdir, h]⟩
        · exact ⟨3, by omega, by omega, by rw [key, if_neg hdir, h]⟩
        · exact ⟨4, by omega, by omega, by rw [key, if_neg hdir, h]⟩
    · rw [key 4]
      push_cast
      split_ifs <;> omega
    · intro i hi1 hi4 h
      rw [key i] at h
      split_ifs at h <;> omega
  · have hne : s.mode ≠ 0 := by rw [hm]; decide
    have hc : cycleLength s = 8 := by simp [cycleLength, hm]
    have ha : activePhase s = s.stateh := by simp [activePhase, hm]
    rw [hc] at hk ⊢
    rw [ha] at h0 hk ⊢
    have h7 : s.stateh ≤ 7 := by push_cast at hk; omega
    have key : ∀ n : Nat, activePhase (ticks n s) =
        (if s.direction = 0 then (s.stateh + n) % 8 else (s.stateh - n) % 8) := by
      intro n
      obtain ⟨e1, _, _, e4⟩ := ticks_half_phase n s hm hd h0 h7
      have : (ticks n s).mode ≠ 0 := by rw [e1]; decide
      simp only [activePhase, if_neg this, e4]
    refine ⟨?_, ?_, ?_, ?_⟩
    · intro i j hi1 hi4 hj1 hj4 hij
      rw [key i, key j] at hij
      split_ifs at hij <;> omega
    · intro v hv0 hv8
      push_cast at hv8
      by_cases hdir : s.direction = 0
      · rcases (show v = (s.stateh + (1 : Nat)) % 8 ∨ v = (s.stateh + (2 : Nat)) % 8 ∨
            v = (s.stateh + (3 : Nat)) % 8 ∨ v = (s.stateh + (4 : Nat)) % 8 ∨
            v = (s.stateh + (5 : Nat)) % 8 ∨ v = (s.stateh + (6 : Nat)) % 8 ∨
            v = (s.stateh + (7 : Nat)) % 8 ∨ v = (s.stateh + (8 : Nat)) % 8 by
            push_cast; omega) with h | h | h | h | h | h | h | h
        · exact ⟨1, by omega, by omega, by rw [key, if_pos hdir, h]⟩
        · exact ⟨2, by omega, by omega, by rw [key, if_pos hdir, h]⟩
        · exact ⟨3, by omega, by omega, by rw [key, if_pos hdir, h]⟩
        · exact ⟨4, by omega, by omega, by rw [key, if_pos hdir, h]⟩
        · exact ⟨5, by omega, by omega, by rw [key, if_pos hdir, h]⟩
        · exact ⟨6, by omega, by omega, by rw [key, if_pos hdir, h]⟩
        · exact ⟨7, by omega, by omega, by rw [key, if_pos hdir, h]⟩
        · exact ⟨8, by omega, by omega, by rw [key, if_pos hdir, h]⟩
      · rcases (show v = (s.stateh - (1 : Nat)) % 8 ∨ v = (s.stateh - (2 : Nat)) % 8 ∨
            v = (s.stateh - (3 : Nat)) % 8 ∨ v = (s.stateh - (4 : Nat)) % 8 ∨
            v = (s.stateh - (5 : Nat)) % 8 ∨ v = (s.stateh - (6 : Nat)) % 8 ∨
            v = (s.stateh - (7 : Nat)) % 8 ∨ v = (s.stateh - (8 : Nat)) % 8 by
            push_cast; omega) with h | h | h | h | h | h | h | h
        · exact ⟨1, by omega, by omega, by rw [key, if_neg hdir, h]⟩
        · exact ⟨2, by omega, by omega, by rw [key, if_neg hdir, h]⟩
        · exact ⟨3, by omega, by omega, by rw [key, if_neg hdir, h]⟩
        · exact ⟨4, by omega, by omega, by rw [key, if_neg hdir, h]⟩
        · exact ⟨5, by omega, by omega, by rw [key, if_neg hdir, h]⟩
        · exact ⟨6, by omega, by omega, by rw [key, if_neg hdir, h]⟩
        · exact ⟨7, by omega, by omega, by rw [key, if_neg hdir, h]⟩
        · exact ⟨8, by omega, by omega, by rw [key, if_neg hdir, h]⟩
    · rw [key 8]
      push_cast
      split_ifs <;> omega
    · intro i hi1 hi8 h
      rw [key i] at h
      split_ifs at h <;> omega

/-- C5 at the power-up state: the phase is back after four ticks. -/
theorem C5_phase_cycle_length_witness :
    activePhase (ticks (cycleLength main) main) = activePhase main :=
  (C5_phase_cycle_length main (Or.inl rfl) (Or.inl rfl) (by decide) (by decide)).2.2.1

/-! ## Reachable states -/

/-- A pin that is none of the four buttons raises no reaction. -/
theorem exti_other (s : Board) (p : Nat) (h0 : p ≠ KEY_BUTTON_PIN) (h1 : p ≠ GPIO_PIN_1)
    (h2 : p ≠ GPIO_PIN_2) (h3 : p ≠ GPIO_PIN_3) : HAL_GPIO_EXTI_Callback s p = s := by
  simp only [HAL_GPIO_EXTI_Callback, if_neg h0, if_neg h1, if_neg h2, if_neg h3]

theorem fwdInv_main : FwdInv main := by
  rw [main_eq]
  simp [FwdInv, coils, fullPattern, pat]

theorem fwdInv_tick (s : Board) (h : FwdInv s) : FwdInv (HAL_TIM_PeriodElapsedCallback s) := by
  rcases s with ⟨st, sth, m, d, p, pv, ti, a, b, c, e, l⟩
  obtain ⟨hm, hd, ⟨h0, h3⟩, ⟨g0, g7⟩, hc⟩ := h
  simp only at hm hd h0 h3 g0 g7
  rcases hm with rfl | rfl <;> rcases hd with rfl | rfl
  · interval_cases st <;>
      simp_all [FwdInv, coils, fullPattern, pat]
  · interval_cases st <;>
      simp_all [FwdInv, coils, fullPattern, pat]
  · interval_cases sth <;>
      simp_all [FwdInv, coils, halfPattern, pat]
  · interval_cases sth <;>
      simp_all [FwdInv, coils, halfPattern, pat]

theorem fwdInv_exti (s : Board) (pin : Nat) (h : FwdInv s) :
    FwdInv (HAL_GPIO_EXTI_Callback s pin) := by
  by_cases h0 : pin = KEY_BUTTON_PIN
  · subst h0
    rcases s with ⟨st, sth, m, d, p, pv, ti, a, b, c, e, l⟩
    obtain ⟨hm, hd, hs, hh, hc⟩ := h
    simp only at hm hd hs hh
    rcases hm with rfl | rfl <;>
      simp_all [FwdInv, coils, fullPattern, halfPattern, pat]
  by_cases h1 : pin = GPIO_PIN_1
  · subst h1
    rcases s with ⟨st, sth, m, d, p, pv, ti, a, b, c, e, l⟩
    obtain ⟨hm, hd, hs, hh, hc⟩ := h
    simp only at hm hd hs hh
    rcases hd with rfl | rfl <;>
      simp_all [FwdInv, coils, fullPattern, halfPattern, pat]
  by_cases h2 : pin = GPIO_PIN_2
  · subst h2
    rcases s with ⟨st, sth, m, d, p, pv, ti, a, b, c, e, l⟩
    simpa [FwdInv, coils] using h
  by_cases h3 : pin = GPIO_PIN_3
  · subst h3
    rcases s with ⟨st, sth, m, d, p, pv, ti, a, b, c, e, l⟩
    simpa [FwdInv, coils] using h
  rw [exti_other s pin h0 h1 h2 h3]
  exact h

theorem fwdInv_run (es : List Event) (s : Board) (h : FwdInv s) : FwdInv (run s es) := by
  induction es generalizing s with
  | nil => exact h
  | cons ev rest ih =>
    cases ev with
    | tick => exact ih _ (fwdInv_tick s h)
    | exti pin => exact ih _ (fwdInv_exti s pin h)

theorem fwdInv_of_reachable (s : Board) (h : Reachable s) : FwdInv s := by
  obtain ⟨es, rfl⟩ := h
  exact fwdInv_run es main fwdInv_main

theorem run_append (s : Board) (es fs : List Event) : run s (es ++ fs) = run (run s es) fs := by
  simp [run, List.foldl_append]

theorem reachable_tick (s : Board) (h : Reachable s) :
    Reachable (HAL_TIM_PeriodElapsedCallback s) := by
  obtain ⟨es, rfl⟩ := h
  exact ⟨es ++ [Event.tick], by rw [run_append]; rfl⟩

theorem reachable_ticks (n : Nat) (s : Board) (h : Reachable s) : Reachable (ticks n s) := by
  induction n generalizing s with
  | zero => exact h
  | succ k ih => exact ih _ (reachable_tick s h)

/-! ## Cycle closure and coil counts

In the forward direction the coils always show the pattern of the active
table; the ladders of `direction == 1` perform the writes of the forward
ladders while stepping the phase index backwards, and the properties below
fail there. -/

/-- Forward full-step runs close after four ticks. -/
theorem full_cycle_closed_forward (s : Board) (hr : Reachable s) (hm : s.mode = 0)
    (hd : s.direction = 0) :
    (ticks 4 s).state = s.state ∧ coils (ticks 4 s) = coils s := by
  obtain ⟨_, _, ⟨h0, h3⟩, _, hc⟩ := fwdInv_of_reachable s hr
  have hp := (hc hd).1 hm
  rcases s with ⟨st, sth, m, d, p, pv, ti, a, b, c, e, l⟩
  simp only at hm hd h0 h3
  subst hm hd
  interval_cases st <;> simp_all [ticks, coils, fullPattern, pat]

/-- C6, evaluated where it fails: after one press of the direction button the
program is in full-step mode with `direction == 1`, phase 0 and the home
pattern; four ticks later the phase index is 0 again but the coils are
`{1,0,1,1}`, not `{1,0,0,0}`. -/
theorem C6_full_cycle_open_in_reverse :
    Reachable (run main [Event.exti GPIO_PIN_1]) ∧
    (run main [Event.exti GPIO_PIN_1]).mode = 0 ∧
    (run main [Event.exti GPIO_PIN_1]).direction = 1 ∧
    (run main [Event.exti GPIO_PIN_1]).state = 0 ∧
    coils (run main [Event.exti GPIO_PIN_1]) = pat 1 0 0 0 ∧
    (ticks 4 (run main [Event.exti GPIO_PIN_1])).state = 0 ∧
    coils (ticks 4 (run main [Event.exti GPIO_PIN_1])) = pat 1 0 1 1 := by
  refine ⟨⟨_, rfl⟩, ?_⟩
  simp [run, step, main_eq, ticks, coils, pat]

/-- Forward half-step runs close after eight ticks. -/
theorem half_cycle_closed_forward (s : Board) (hr : Reachable s) (hm : s.mode = 1)
    (hd : s.direction = 0) :
    (ticks 8 s).stateh = s.stateh ∧ coils (ticks 8 s) = coils s := by
  obtain ⟨_, _, _, ⟨h0, h7⟩, hc⟩ := fwdInv_of_reachable s hr
  have hp := (hc hd).2 hm
  rcases s with ⟨st, sth, m, d, p, pv, ti, a, b, c, e, l⟩
  simp only at hm hd h0 h7
  subst hm hd
  interval_cases sth <;> simp_all [ticks, coils, halfPattern, pat]

/-- C7, evaluated where it fails: after the mode button and the direction button
the program is in half-step mode with `direction == 1`, `stateh = 0` and the
home pattern; eight ticks later `stateh` is 0 again but the coils are
`{0,0,1,1}`, not `{1,0,0,0}`. -/
theorem C7_half_cycle_open_in_reverse :
    Reachable (run main [Event.exti KEY_BUTTON_PIN, Event.exti GPIO_PIN_1]) ∧
    (run main [Event.exti KEY_BUTTON_PIN, Event.exti GPIO_PIN_1]).mode = 1 ∧
    (run main [Event.exti KEY_BUTTON_PIN, Event.exti GPIO_PIN_1]).direction = 1 ∧
    (run main [Event.exti KEY_BUTTON_PIN, Event.exti GPIO_PIN_1]).stateh = 0 ∧
    coils (run main [Event.exti KEY_BUTTON_PIN, Event.exti GPIO_PIN_1]) = pat 1 0 0 0 ∧
    (ticks 8 (run main [Event.exti KEY_BUTTON_PIN, Event.exti GPIO_PIN_1])).stateh = 0 ∧
    coils (ticks 8 (run main [Event.exti KEY_BUTTON_PIN, Event.exti GPIO_PIN_1])) =
      pat 0 0 1 1 := by
  refine ⟨⟨_, rfl⟩, ?_⟩
  simp [run, step, main_eq, ticks, coils, pat]

/-- Forward full-step states have exactly one coil high. -/
theorem one_hot_forward (s : Board) (hr : Reachable s) (hm : s.mode = 0)
    (hd : s.direction = 0) : highCount (coils s) = 1 := by
  obtain ⟨_, _, ⟨h0, h3⟩, _, hc⟩ := fwdInv_of_reachable s hr
  rw [(hc hd).1 hm]
  have : s.state = 0 ∨ s.state = 1 ∨ s.state = 2 ∨ s.state = 3 := by omega
  rcases this with h | h | h | h <;> rw [h] <;> decide

/-- C8, evaluated where it fails: the direction button followed by two ticks
leads to a full-step state with `direction == 1` in which PC13 and PC14 are both
high; one tick further three coils are high. -/
theorem C8_two_coils_high_in_reverse :
    Reachable (run main [Event.exti GPIO_PIN_1, Event.tick, Event.tick]) ∧
    (run main [Event.exti GPIO_PIN_1, Event.tick, Event.tick]).mode = 0 ∧
    (run main [Event.exti GPIO_PIN_1, Event.tick, Event.tick]).direction = 1 ∧
    coils (run main [Event.exti GPIO_PIN_1, Event.tick, Event.tick]) = pat 1 1 0 0 ∧
    highCount (coils (run main [Event.exti GPIO_PIN_1, Event.tick, Event.tick])) = 2 ∧
    highCount (coils (run main [Event.exti GPIO_PIN_1, Event.tick, Event.tick,
      Event.tick])) = 3 := by
  refine ⟨⟨_, rfl⟩, ?_⟩
  simp [run, step, main_eq, coils, pat, highCount]

/-- Number of high coils in the forward half-step table. -/
theorem highCount_halfPattern (p : Int) (h0 : 0 ≤ p) (h7 : p ≤ 7) :
    highCount (halfPattern p) = if p % 2 = 0 then 1 else 2 := by
  interval_cases p <;> decide

/-- Forward half-step runs show one or two high coils, in alternation. -/
theorem half_count_alternates_forward (s : Board) (hr : Reachable s) (hm : s.mode = 1)
    (hd : s.direction = 0) (n : Nat) :
    (highCount (coils (ticks n s)) = 1 ∧ highCount (coils (ticks (n + 1) s)) = 2) ∨
    (highCount (coils (ticks n s)) = 2 ∧ highCount (coils (ticks (n + 1) s)) = 1) := by
  obtain ⟨_, _, _, ⟨h0, h7⟩, _⟩ := fwdInv_of_reachable s hr
  obtain ⟨a1, a2, _, a4⟩ := ticks_half_phase n s hm (Or.inl hd) h0 h7
  obtain ⟨b1, b2, _, b4⟩ := ticks_half_phase (n + 1) s hm (Or.inl hd) h0 h7
  obtain ⟨_, _, _, ⟨c0, c7⟩, cc⟩ := fwdInv_of_reachable _ (reachable_ticks n s hr)
  obtain ⟨_, _, _, ⟨d0, d7⟩, dc⟩ := fwdInv_of_reachable _ (reachable_ticks (n + 1) s hr)
  rw [(cc (a2.trans hd)).2 a1, (dc (b2.trans hd)).2 b1,
    highCount_halfPattern _ c0 c7, highCount_halfPattern _ d0 d7, a4, b4, if_pos hd]
  push_cast
  split_ifs <;> omega

/-- C9, evaluated where it fails: in half-step mode with `direction == 1`, from
the reset state, the numbers of high coils after ticks 1 to 8 are
2, 2, 2, 2, 3, 2, 3, 2: they do not alternate and they reach 3. -/
theorem C9_half_count_in_reverse :
    Reachable (run main [Event.exti KEY_BUTTON_PIN, Event.exti GPIO_PIN_1]) ∧
    (run main [Event.exti KEY_BUTTON_PIN, Event.exti GPIO_PIN_1]).mode = 1 ∧
    (run main [Event.exti KEY_BUTTON_PIN, Event.exti GPIO_PIN_1]).direction = 1 ∧
    (coilTrace 8 (run main [Event.exti KEY_BUTTON_PIN, Event.exti GPIO_PIN_1])).map highCount =
      [2, 2, 2, 2, 3, 2, 3, 2] := by
  refine ⟨⟨_, rfl⟩, ?_⟩
  simp [run, step, main_eq, coilTrace, coils, highCount]

/-! ## Reversing the direction -/

/-- The direction button on a state with a valid direction flag. -/
theorem exti_pin1_reset (s : Board) (hd : s.direction = 0 ∨ s.direction = 1) :
    (HAL_GPIO_EXTI_Callback s GPIO_PIN_1).mode = s.mode ∧
    (HAL_GPIO_EXTI_Callback s GPIO_PIN_1).direction = 1 - s.direction ∧
    (HAL_GPIO_EXTI_Callback s GPIO_PIN_1).state = 0 ∧
    (HAL_GPIO_EXTI_Callback s GPIO_PIN_1).stateh = 0 ∧
    coils (HAL_GPIO_EXTI_Callback s GPIO_PIN_1) = pat 1 0 0 0 := by
  rcases s with ⟨st, sth, m, d, p, pv, ti, a, b, c, e, l⟩
  simp only at hd
  rcases hd with rfl | rfl <;> simp [coils, pat]

/-- The patterns produced by ticks depend only on the mode, the direction, the
active phase index and the current coil outputs. -/
theorem coilTrace_congr (n : Nat) (s f : Board) (hm : s.mode = 0 ∨ s.mode = 1)
    (hd : s.direction = 0 ∨ s.direction = 1)
    (h0 : 0 ≤ activePhase s) (hk : activePhase s < cycleLength s)
    (e1 : f.mode = s.mode) (e2 : f.direction = s.direction)
    (e3 : activePhase f = activePhase s) (e4 : coils f = coils s) :
    coilTrace n f = coilTrace n s := by
  induction n generalizing s f with
  | zero => rfl
  | succ k ih =>
    rcases hm with hm | hm
    · have fm : f.mode = 0 := e1.trans hm
      have hs : activePhase s = s.state := by simp [activePhase, hm]
      have hf : activePhase f = f.state := by simp [activePhase, fm]
      have hc : cycleLength s = 4 := by simp [cycleLength, hm]
      rw [hs] at h0 hk e3
      rw [hf] at e3
      rw [hc] at hk
      have h3 : s.state ≤ 3 := by push_cast at hk; omega
      obtain ⟨a1, a2, _, _, a5, a6⟩ := tick_full s hm hd h0 h3
      obtain ⟨b1, b2, _, _, b5, b6⟩ :=
        tick_full f fm (by rw [e2]; exact hd) (by rw [e3]; exact h0) (by rw [e3]; exact h3)
      have tm : (HAL_TIM_PeriodElapsedCallback s).mode = 0 := a1.trans hm
      have um : (HAL_TIM_PeriodElapsedCallback f).mode = 0 := b1.trans fm
      have r : 0 ≤ (HAL_TIM_PeriodElapsedCallback s).state ∧
          (HAL_TIM_PeriodElapsedCallback s).state ≤ 3 := by
        rw [a5]; split_ifs <;> omega
      have q : (HAL_TIM_PeriodElapsedCallback f).state =
          (HAL_TIM_PeriodElapsedCallback s).state := by rw [a5, b5, e2, e3]
      have cq : coils (HAL_TIM_PeriodElapsedCallback f) =
          coils (HAL_TIM_PeriodElapsedCallback s) := by rw [a6, b6, e3, e4]
      show coils _ :: coilTrace k _ = coils _ :: coilTrace k _
      rw [cq, ih (HAL_TIM_PeriodElapsedCallback s) (HAL_TIM_PeriodElapsedCallback f)
        (Or.inl tm) (by rw [a2]; exact hd)
        (by simp only [activePhase, tm, if_true]; exact r.1)
        (by simp only [activePhase, cycleLength, tm, if_true]; push_cast; omega)
        (um.trans tm.symm) (by rw [a2, b2, e2])
        (by simp only [activePhase, tm, um, if_true]; exact q) cq]
    · have fm : f.mode = 1 := e1.trans hm
      have n1 : (1 : Int) ≠ 0 := by decide
      have hs : activePhase s = s.stateh := by simp [activePhase, hm]
      have hf : activePhase f = f.stateh := by simp [activePhase, fm]
      have hc : cycleLength s = 8 := by simp [cycleLength, hm]
      rw [hs] at h0 hk e3
      rw [hf] at e3
      rw [hc] at hk
      have h7 : s.stateh ≤ 7 := by push_cast at hk; omega
      obtain ⟨a1, a2, _, _, a5, a6⟩ := tick_half s hm hd h0 h7
      obtain ⟨b1, b2, _, _, b5, b6⟩ :=
        tick_half f fm (by rw [e2]; exact hd) (by rw [e3]; exact h0) (by rw [e3]; exact h7)
      have tm : (HAL_TIM_PeriodElapsedCallback s).mode = 1 := a1.trans hm
      have um : (HAL_TIM_PeriodElapsedCallback f).mode = 1 := b1.trans fm
      have r : 0 ≤ (HAL_TIM_PeriodElapsedCallback s).stateh ∧
          (HAL_TIM_PeriodElapsedCallback s).stateh ≤ 7 := by
        rw [a5]; split_ifs <;> omega
      have q : (HAL_TIM_PeriodElapsedCallback f).stateh =
          (HAL_TIM_PeriodElapsedCallback s).stateh := by rw [a5, b5, e2, e3]
      have cq : coils (HAL_TIM_PeriodElapsedCallback f) =
          coils (HAL_TIM_PeriodElapsedCallback s) := by rw [a6, b6, e3, e4]
      show coils _ :: coilTrace k _ = coils _ :: coilTrace k _
      rw [cq, ih (HAL_TIM_PeriodElapsedCallback s) (HAL_TIM_PeriodElapsedCallback f)
        (Or.inr tm) (by rw [a2]; exact hd)
        (by simp only [activePhase, tm, if_neg n1]; exact r.1)
        (by simp only [activePhase, cycleLength, tm, if_neg n1]; push_cast; omega)
        (um.trans tm.symm) (by rw [a2, b2, e2])
        (by simp only [activePhase, tm, um, if_neg n1]; exact q) cq]

/-- Active phase index after `n` ticks, in either mode. -/
theorem ticks_activePhase (n : Nat) (s : Board) (hm : s.mode = 0 ∨ s.mode = 1)
    (hd : s.direction = 0 ∨ s.direction = 1)
    (h0 : 0 ≤ activePhase s) (hk : activePhase s < cycleLength s) :
    (ticks n s).mode = s.mode ∧ (ticks n s).direction = s.direction ∧
    activePhase (ticks n s) =
      (if s.direction = 0 then (activePhase s + n) % cycleLength s
       else (activePhase s - n) % cycleLength s) := by
  rcases hm with hm | hm
  · have hs : activePhase s = s.state := by simp [activePhase, hm]
    have hc : cycleLength s = 4 := by simp [cycleLength, hm]
    rw [hs] at h0 hk ⊢
    rw [hc] at hk ⊢
    obtain ⟨e1, e2, _, e4⟩ := ticks_full_phase n s hm hd h0 (by push_cast at hk; omega)
    refine ⟨e1.trans hm.symm, e2, ?_⟩
    simp only [activePhase, e1, if_true, e4]
    push_cast
    rfl
  · have n1 : (1 : Int) ≠ 0 := by decide
    have hs : activePhase s = s.stateh := by simp [activePhase, hm]
    have hc : cycleLength s = 8 := by simp [cycleLength, hm]
    rw [hs] at h0 hk ⊢
    rw [hc] at hk ⊢
    obtain ⟨e1, e2, _, e4⟩ := ticks_half_phase n s hm hd h0 (by push_cast at hk; omega)
    refine ⟨e1.trans hm.symm, e2, ?_⟩
    simp only [activePhase, e1, if_neg n1, e4]
    push_cast
    rfl

/-- C10 as stated fails: two forward full-step ticks from power-up produce
`{0,1,0,0}`, `{0,0,0,1}`; after the direction button the next two ticks produce
`{0,1,0,0}`, `{1,1,0,0}`, which is not the reverse sequence. -/
theorem C10_not_reverse_sequence :
    coilTrace 2 main = [pat 0 1 0 0, pat 0 0 0 1] ∧
    coilTrace 2 (HAL_GPIO_EXTI_Callback (ticks 2 main) GPIO_PIN_1) =
      [pat 0 1 0 0, pat 1 1 0 0] ∧
    coilTrace 2 (HAL_GPIO_EXTI_Callback (ticks 2 main) GPIO_PIN_1) ≠
      (coilTrace 2 main).reverse := by
  simp [main_eq, ticks, coilTrace, coils, pat]

/-- C10, amended: for both modes, both starting directions and every `n`, the
direction button pressed after `n` ticks from the reset state throws the reached
position away: the mode is kept, the direction is toggled, the phase indices are
0 and the coils show the home pattern.  The `n` further ticks therefore produce
the patterns of a sequencer freshly reset into the opposite direction, and they
step the active phase index the opposite way round: after `i` of them it is the
negative, modulo the cycle length, of the index after the `i`-th earlier tick. -/
theorem C10_direction_button_restarts (n : Nat) (s : Board)
    (hm : s.mode = 0 ∨ s.mode = 1) (hd : s.direction = 0 ∨ s.direction = 1)
    (hp : activePhase s = 0) :
    (HAL_GPIO_EXTI_Callback (ticks n s) GPIO_PIN_1).mode = s.mode ∧
    (HAL_GPIO_EXTI_Callback (ticks n s) GPIO_PIN_1).direction = 1 - s.direction ∧
    activePhase (HAL_GPIO_EXTI_Callback (ticks n s) GPIO_PIN_1) = 0 ∧
    coils (HAL_GPIO_EXTI_Callback (ticks n s) GPIO_PIN_1) = pat 1 0 0 0 ∧
    (∀ f : Board, f.mode = s.mode → f.direction = 1 - s.direction → activePhase f = 0 →
      coils f = pat 1 0 0 0 →
      coilTrace n (HAL_GPIO_EXTI_Callback (ticks n s) GPIO_PIN_1) = coilTrace n f) ∧
    (∀ i : Nat, activePhase (ticks i (HAL_GPIO_EXTI_Callback (ticks n s) GPIO_PIN_1)) =
      (-activePhase (ticks i s)) % cycleLength s) := by
  have hpos : (0 : Int) < cycleLength s := by
    rcases hm with h | h <;> simp [cycleLength, h]
  obtain ⟨t1, t2, _⟩ := ticks_activePhase n s hm hd (by omega) (by omega)
  obtain ⟨p1, p2, p3, p4, p5⟩ := exti_pin1_reset (ticks n s) (by rw [t2]; exact hd)
  have pm : (HAL_GPIO_EXTI_Callback (ticks n s) GPIO_PIN_1).mode = s.mode := p1.trans t1
  have pd : (HAL_GPIO_EXTI_Callback (ticks n s) GPIO_PIN_1).direction = 1 - s.direction := by
    rw [p2, t2]
  have pa : activePhase (HAL_GPIO_EXTI_Callback (ticks n s) GPIO_PIN_1) = 0 := by
    simp only [activePhase, p3, p4, ite_self]
  have pc : cycleLength (HAL_GPIO_EXTI_Callback (ticks n s) GPIO_PIN_1) = cycleLength s := by
    simp only [cycleLength, pm]
  have pdv : (HAL_GPIO_EXTI_Callback (ticks n s) GPIO_PIN_1).direction = 0 ∨
      (HAL_GPIO_EXTI_Callback (ticks n s) GPIO_PIN_1).direction = 1 := by
    rw [pd]; omega
  refine ⟨pm, pd, pa, p5, ?_, ?_⟩
  · intro f f1 f2 f3 f4
    exact (coilTrace_congr n f _ (by rw [f1]; exact hm) (by rw [f2]; omega)
      (by omega) (by rw [f3]; simp only [cycleLength, f1]; exact hpos)
      (pm.trans f1.symm) (pd.trans f2.symm) (pa.trans f3.symm) (p5.trans f4.symm))
  · intro i
    obtain ⟨_, _, u3⟩ := ticks_activePhase i s hm hd (by omega) (by omega)
    obtain ⟨_, _, v3⟩ := ticks_activePhase i _ (by rw [pm]; exact hm) pdv
      (by omega) (by rw [pa, pc]; exact hpos)
    rw [u3, v3, pa, pc, pd, hp]
    have hc : cycleLength s = 4 ∨ cycleLength s = 8 := by
      rcases hm with h | h <;> simp [cycleLength, h]
    rcases hd with h | h <;> rcases hc with c | c <;> rw [h, c] <;> norm_num <;> omega

/-- C10, amended, at the power-up state with three ticks. -/
theorem C10_direction_button_restarts_witness :
    coilTrace 3 (HAL_GPIO_EXTI_Callback (ticks 3 main) GPIO_PIN_1) =
      coilTrace 3 (HAL_GPIO_EXTI_Callback main GPIO_PIN_1) :=
  (C10_direction_button_restarts 3 main (Or.inl rfl) (Or.inl rfl) rfl).2.2.2.2.1
    (HAL_GPIO_EXTI_Callback main GPIO_PIN_1) rfl rfl rfl (by decide)

/-! ## Arbitrary states -/

/-- Outside the valid flag and phase ranges no branch of the tick fires: only
the LED is toggled. -/
theorem tick_idle (s : Board)
    (h : ¬ ((s.mode = 0 ∨ s.mode = 1) ∧ (s.direction = 0 ∨ s.direction = 1) ∧
      0 ≤ activePhase s ∧ activePhase s < cycleLength s)) :
    HAL_TIM_PeriodElapsedCallback s = BSP_LED_Toggle s := by
  rcases s with ⟨st, sth, m, d, p, pv, ti, a, b, c, e, l⟩
  simp only [activePhase, cycleLength] at h
  by_cases hm0 : m = 0
  · subst hm0
    by_cases hd0 : d = 0
    · subst hd0
      simp at h
      have h0 : st ≠ 0 := by omega
      have h1 : st ≠ 1 := by omega
      have h2 : st ≠ 2 := by omega
      have h3 : st ≠ 3 := by omega
      simp [HAL_TIM_PeriodElapsedCallback, BSP_LED_Toggle, h0, h1, h2, h3]
    by_cases hd1 : d = 1
    · subst hd1
      simp at h
      have h0 : st ≠ 0 := by omega
      have h1 : st ≠ 1 := by omega
      have h2 : st ≠ 2 := by omega
      have h3 : st ≠ 3 := by omega
      simp [HAL_TIM_PeriodElapsedCallback, BSP_LED_Toggle, h0, h1, h2, h3]
    simp [HAL_TIM_PeriodElapsedCallback, BSP_LED_Toggle, hd0, hd1]
  by_cases hm1 : m = 1
  · subst hm1
    by_cases hd0 : d = 0
    · subst hd0
      simp at h
      have h0 : sth ≠ 0 := by omega
      have h1 : sth ≠ 1 := by omega
      have h2 : sth ≠ 2 := by omega
      have h3 : sth ≠ 3 := by omega
      have h4 : sth ≠ 4 := by omega
      have h5 : sth ≠ 5 := by omega
      have h6 : sth ≠ 6 := by omega
      have h7 : sth ≠ 7 := by omega
      simp [HAL_TIM_PeriodElapsedCallback, BSP_LED_Toggle, h0, h1, h2, h3, h4, h5, h6, h7]
    by_cases hd1 : d = 1
    · subst hd1
      simp at h
      have h0 : sth ≠ 0 := by omega
      have h1 : sth ≠ 1 := by omega
      have h2 : sth ≠ 2 := by omega
      have h3 : sth ≠ 3 := by omega
      have h4 : sth ≠ 4 := by omega
      have h5 : sth ≠ 5 := by omega
      have h6 : sth ≠ 6 := by omega
      have h7 : sth ≠ 7 := by omega
      simp [HAL_TIM_PeriodElapsedCallback, BSP_LED_Toggle, h0, h1, h2, h3, h4, h5, h6, h7]
    simp [HAL_TIM_PeriodElapsedCallback, BSP_LED_Toggle, hd0, hd1]
  simp [HAL_TIM_PeriodElapsedCallback, BSP_LED_Toggle, hm0, hm1]

/-- In full-step mode on a valid phase the tick leaves the timer settings alone
and toggles the LED. -/
theorem tick_full_rest (s : Board) (hm : s.mode = 0) (hd : s.direction = 0 ∨ s.direction = 1)
    (h0 : 0 ≤ s.state) (h3 : s.state ≤ 3) :
    (HAL_TIM_PeriodElapsedCallback s).Tim3_Init = s.Tim3_Init ∧
    (HAL_TIM_PeriodElapsedCallback s).Tim3_PrescalerValue = s.Tim3_PrescalerValue ∧
    (HAL_TIM_PeriodElapsedCallback s).led4 = !s.led4 := by
  rcases s with ⟨st, sth, m, d, p, pv, ti, a, b, c, e, l⟩
  simp only at hm hd h0 h3
  subst hm
  rcases hd with rfl | rfl <;> interval_cases st <;> simp

/-- In half-step mode on a valid phase the tick leaves the timer settings alone
and toggles the LED. -/
theorem tick_half_rest (s : Board) (hm : s.mode = 1) (hd : s.direction = 0 ∨ s.direction = 1)
    (h0 : 0 ≤ s.stateh) (h7 : s.stateh ≤ 7) :
    (HAL_TIM_PeriodElapsedCallback s).Tim3_Init = s.Tim3_Init ∧
    (HAL_TIM_PeriodElapsedCallback s).Tim3_PrescalerValue = s.Tim3_PrescalerValue ∧
    (HAL_TIM_PeriodElapsedCallback s).led4 = !s.led4 := by
  rcases s with ⟨st, sth, m, d, p, pv, ti, a, b, c, e, l⟩
  simp only at hm hd h0 h7
  subst hm
  rcases hd with rfl | rfl <;> interval_cases sth <;> simp

/-- Every state is in exactly one of three situations for the tick: a valid
full-step phase, a valid half-step phase, or none of the branches fires. -/
theorem tick_trichotomy (s : Board) :
    (s.mode = 0 ∧ (s.direction = 0 ∨ s.direction = 1) ∧ 0 ≤ s.state ∧ s.state ≤ 3) ∨
    (s.mode = 1 ∧ (s.direction = 0 ∨ s.direction = 1) ∧ 0 ≤ s.stateh ∧ s.stateh ≤ 7) ∨
    HAL_TIM_PeriodElapsedCallback s = BSP_LED_Toggle s := by
  by_cases h : (s.mode = 0 ∨ s.mode = 1) ∧ (s.direction = 0 ∨ s.direction = 1) ∧
      0 ≤ activePhase s ∧ activePhase s < cycleLength s
  · obtain ⟨hm, hd, h0, hk⟩ := h
    rcases hm with hm | hm
    · left
      simp only [activePhase, cycleLength, hm, if_true] at h0 hk
      exact ⟨hm, hd, h0, by push_cast at hk; omega⟩
    · right; left
      have n1 : (1 : Int) ≠ 0 := by decide
      simp only [activePhase, cycleLength, hm, if_neg n1] at h0 hk
      exact ⟨hm, hd, h0, by push_cast at hk; omega⟩
  · right; right
    exact tick_idle s h

/-- The tick never touches `mode`, `direction`, `period` or the timer settings,
whatever the state. -/
theorem tick_frame (s : Board) :
    (HAL_TIM_PeriodElapsedCallback s).mode = s.mode ∧
    (HAL_TIM_PeriodElapsedCallback s).direction = s.direction ∧
    (HAL_TIM_PeriodElapsedCallback s).period = s.period ∧
    (HAL_TIM_PeriodElapsedCallback s).Tim3_Init = s.Tim3_Init ∧
    (HAL_TIM_PeriodElapsedCallback s).Tim3_PrescalerValue = s.Tim3_PrescalerValue := by
  rcases tick_trichotomy s with ⟨hm, hd, h0, h3⟩ | ⟨hm, hd, h0, h7⟩ | h
  · obtain ⟨a1, a2, _, a4, _, _⟩ := tick_full s hm hd h0 h3
    obtain ⟨b1, b2, _⟩ := tick_full_rest s hm hd h0 h3
    exact ⟨a1, a2, a4, b1, b2⟩
  · obtain ⟨a1, a2, _, a4, _, _⟩ := tick_half s hm hd h0 h7
    obtain ⟨b1, b2, _⟩ := tick_half_rest s hm hd h0 h7
    exact ⟨a1, a2, a4, b1, b2⟩
  · rw [h]
    exact ⟨rfl, rfl, rfl, rfl, rfl⟩

/-- The mode button on a state whose mode flag is neither 0 nor 1 does nothing. -/
theorem exti_key_idle (s : Board) (h0 : s.mode ≠ 0) (h1 : s.mode ≠ 1) :
    HAL_GPIO_EXTI_Callback s KEY_BUTTON_PIN = s := by
  simp [HAL_GPIO_EXTI_Callback, h0, h1, KEY_BUTTON_PIN, GPIO_PIN_0, GPIO_PIN_1, GPIO_PIN_2,
    GPIO_PIN_3]

/-- The direction button on a state whose direction flag is neither 0 nor 1 does
nothing. -/
theorem exti_pin1_idle (s : Board) (h0 : s.direction ≠ 0) (h1 : s.direction ≠ 1) :
    HAL_GPIO_EXTI_Callback s GPIO_PIN_1 = s := by
  simp [HAL_GPIO_EXTI_Callback, h0, h1, KEY_BUTTON_PIN, GPIO_PIN_0, GPIO_PIN_1, GPIO_PIN_2,
    GPIO_PIN_3]

/-! ## Reverse traversal and the pattern as a function of the phase -/

/-- None of the four full-step patterns has PC13 and PC14 high together. -/
theorem fullPattern_ne_1100 (p : Int) : fullPattern p ≠ pat 1 1 0 0 := by
  unfold fullPattern
  split_ifs <;> decide

/-- C11, evaluated where it fails: in full-step mode with `direction == 1`, from
the reset state, the four ticks produce `{0,1,0,0}`, `{1,1,0,0}`, `{1,1,1,0}`,
`{1,0,1,1}`.  The first is the pattern that follows the home pattern in the
forward cycle (the forward run produces it first as well), not the one that
precedes it, and the second is none of the four full-step patterns. -/
theorem C11_reverse_patterns_off_table :
    (run main [Event.exti GPIO_PIN_1]).mode = 0 ∧
    (run main [Event.exti GPIO_PIN_1]).direction = 1 ∧
    (run main [Event.exti GPIO_PIN_1]).state = 0 ∧
    coils (run main [Event.exti GPIO_PIN_1]) = pat 1 0 0 0 ∧
    coilTrace 4 (run main [Event.exti GPIO_PIN_1]) =
      [pat 0 1 0 0, pat 1 1 0 0, pat 1 1 1 0, pat 1 0 1 1] ∧
    coilTrace 4 main = [pat 0 1 0 0, pat 0 0 0 1, pat 0 0 1 0, pat 1 0 0 0] ∧
    (∀ p : Int, coils (ticks 2 (run main [Event.exti GPIO_PIN_1])) ≠ fullPattern p) := by
  refine ⟨?_, ?_, ?_, ?_, ?_, ?_, ?_⟩
  · simp [run, step, main_eq]
  · simp [run, step, main_eq]
  · simp [run, step, main_eq]
  · simp [run, step, main_eq, coils, pat]
  · simp [run, step, main_eq, coilTrace, coils, pat]
  · simp [main_eq, coilTrace, coils, pat]
  · intro p h
    have e : coils (ticks 2 (run main [Event.exti GPIO_PIN_1])) = pat 1 1 0 0 := by
      simp [run, step, main_eq, ticks, coils, pat]
    exact fullPattern_ne_1100 p (h.symm.trans e)

/-- In the forward direction the coil pattern of a reachable state is a
function of the mode and the active phase index. -/
theorem coils_determined_forward (s t : Board) (hs : Reachable s) (ht : Reachable t)
    (hd : s.direction = 0) (e1 : t.mode = s.mode) (e2 : t.direction = s.direction)
    (e3 : activePhase t = activePhase s) : coils t = coils s := by
  obtain ⟨hm, _, _, _, hc⟩ := fwdInv_of_reachable s hs
  obtain ⟨_, _, _, _, tc⟩ := fwdInv_of_reachable t ht
  have td : t.direction = 0 := e2.trans hd
  rcases hm with hm | hm
  · have tm : t.mode = 0 := e1.trans hm
    simp only [activePhase, hm, tm, if_true] at e3
    rw [(hc hd).1 hm, (tc td).1 tm, e3]
  · have tm : t.mode = 1 := e1.trans hm
    have n1 : (1 : Int) ≠ 0 := by decide
    simp only [activePhase, hm, tm, if_neg n1] at e3
    rw [(hc hd).2 hm, (tc td).2 tm, e3]

/-- C12, evaluated where it fails: the state right after the direction button
and the state four ticks later are both reachable and agree on `mode` (0),
`direction` (1) and the active phase index (0), but their coil outputs are
`{1,0,0,0}` and `{1,0,1,1}`. -/
theorem C12_same_phase_two_patterns :
    Reachable (run main [Event.exti GPIO_PIN_1]) ∧
    Reachable (run main
      [Event.exti GPIO_PIN_1, Event.tick, Event.tick, Event.tick, Event.tick]) ∧
    (run main [Event.exti GPIO_PIN_1, Event.tick, Event.tick, Event.tick, Event.tick]).mode =
      (run main [Event.exti GPIO_PIN_1]).mode ∧
    (run main
      [Event.exti GPIO_PIN_1, Event.tick, Event.tick, Event.tick, Event.tick]).direction =
      (run main [Event.exti GPIO_PIN_1]).direction ∧
    activePhase (run main
      [Event.exti GPIO_PIN_1, Event.tick, Event.tick, Event.tick, Event.tick]) =
      activePhase (run main [Event.exti GPIO_PIN_1]) ∧
    coils (run main [Event.exti GPIO_PIN_1]) = pat 1 0 0 0 ∧
    coils (run main
      [Event.exti GPIO_PIN_1, Event.tick, Event.tick, Event.tick, Event.tick]) =
      pat 1 0 1 1 := by
  refine ⟨⟨_, rfl⟩, ⟨_, rfl⟩, ?_⟩
  simp [run, step, main_eq, activePhase, coils, pat]

/-! ## Reset and fresh start -/

/-- The mode button on a state with a valid mode flag. -/
theorem exti_key_reset (s : Board) (hm : s.mode = 0 ∨ s.mode = 1) :
    (HAL_GPIO_EXTI_Callback s KEY_BUTTON_PIN).mode = 1 - s.mode ∧
    (HAL_GPIO_EXTI_Callback s KEY_BUTTON_PIN).direction = s.direction ∧
    activePhase (HAL_GPIO_EXTI_Callback s KEY_BUTTON_PIN) = 0 ∧
    coils (HAL_GPIO_EXTI_Callback s KEY_BUTTON_PIN) = pat 1 0 0 0 ∧
    (HAL_GPIO_EXTI_Callback s KEY_BUTTON_PIN).period = s.period := by
  rcases s with ⟨st, sth, m, d, p, pv, ti, a, b, c, e, l⟩
  simp only at hm
  rcases hm with rfl | rfl <;> simp [activePhase, coils, pat]

/-- C13: for every state with `mode` and `direction` in {0,1} and every `n`,
the `n` coil patterns that follow a mode-button event, and the `n` that follow
a direction-button event, are those of any fresh state with the resulting mode
and direction, both phase indices 0 and the pattern `{1,0,0,0}`. -/
theorem C13_reset_like_fresh (s : Board) (hm : s.mode = 0 ∨ s.mode = 1)
    (hd : s.direction = 0 ∨ s.direction = 1) (n : Nat) (f : Board)
    (f3 : f.state = 0) (f4 : f.stateh = 0) (f5 : coils f = pat 1 0 0 0) :
    (f.mode = 1 - s.mode → f.direction = s.direction →
      (HAL_GPIO_EXTI_Callback s KEY_BUTTON_PIN).mode = f.mode ∧
      (HAL_GPIO_EXTI_Callback s KEY_BUTTON_PIN).direction = f.direction ∧
      coilTrace n (HAL_GPIO_EXTI_Callback s KEY_BUTTON_PIN) = coilTrace n f) ∧
    (f.mode = s.mode → f.direction = 1 - s.direction →
      (HAL_GPIO_EXTI_Callback s GPIO_PIN_1).mode = f.mode ∧
      (HAL_GPIO_EXTI_Callback s GPIO_PIN_1).direction = f.direction ∧
      coilTrace n (HAL_GPIO_EXTI_Callback s GPIO_PIN_1) = coilTrace n f) := by
  have fa : activePhase f = 0 := by simp only [activePhase, f3, f4, ite_self]
  have fpos : ∀ g : Board, (0 : Int) < cycleLength g := by
    intro g; unfold cycleLength; split_ifs <;> decide
  constructor
  · intro f1 f2
    obtain ⟨k1, k2, k3, k4, _⟩ := exti_key_reset s hm
    refine ⟨k1.trans f1.symm, k2.trans f2.symm, ?_⟩
    exact coilTrace_congr n f _ (by rw [f1]; omega) (by rw [f2]; exact hd)
      (by omega) (by rw [fa]; exact fpos f)
      (k1.trans f1.symm) (k2.trans f2.symm) (k3.trans fa.symm) (k4.trans f5.symm)
  · intro f1 f2
    obtain ⟨p1, p2, p3, p4, p5⟩ := exti_pin1_reset s hd
    have pa : activePhase (HAL_GPIO_EXTI_Callback s GPIO_PIN_1) = 0 := by
      simp only [activePhase, p3, p4, ite_self]
    refine ⟨p1.trans f1.symm, p2.trans f2.symm, ?_⟩
    exact coilTrace_congr n f _ (by rw [f1]; exact hm) (by rw [f2]; omega)
      (by omega) (by rw [fa]; exact fpos f)
      (p1.trans f1.symm) (p2.trans f2.symm) (pa.trans fa.symm) (p5.trans f5.symm)

/-- C13 on a half-step state in mid-cycle: after the direction button, five
ticks show what five ticks show after the same button at power-up. -/
theorem C13_reset_like_fresh_witness :
    coilTrace 5 (HAL_GPIO_EXTI_Callback
        (ticks 3 (HAL_GPIO_EXTI_Callback main KEY_BUTTON_PIN)) GPIO_PIN_1) =
      coilTrace 5 (HAL_GPIO_EXTI_Callback
        (HAL_GPIO_EXTI_Callback main KEY_BUTTON_PIN) GPIO_PIN_1) :=
  ((C13_reset_like_fresh (ticks 3 (HAL_GPIO_EXTI_Callback main KEY_BUTTON_PIN))
    (Or.inr (by decide)) (Or.inl (by decide)) 5
    (HAL_GPIO_EXTI_Callback (HAL_GPIO_EXTI_Callback main KEY_BUTTON_PIN) GPIO_PIN_1)
    (by decide) (by decide) (by decide)).2 (by decide) (by decide)).2.2

/-! ## The state space is closed -/

theorem valid_main : Valid main := by
  rw [main_eq]
  simp [Valid]

theorem valid_tick (s : Board) (h : Valid s) : Valid (HAL_TIM_PeriodElapsedCallback s) := by
  obtain ⟨hm, hd, ⟨h0, h3⟩, ⟨g0, g7⟩⟩ := h
  rcases hm with hm | hm
  · obtain ⟨a1, a2, a3, _, a5, _⟩ := tick_full s hm hd h0 h3
    refine ⟨by rw [a1]; exact Or.inl hm, by rw [a2]; exact hd, ?_, by rw [a3]; exact ⟨g0, g7⟩⟩
    rw [a5]
    split_ifs <;> omega
  · obtain ⟨a1, a2, a3, _, a5, _⟩ := tick_half s hm hd g0 g7
    refine ⟨by rw [a1]; exact Or.inr hm, by rw [a2]; exact hd, by rw [a3]; exact ⟨h0, h3⟩, ?_⟩
    rw [a5]
    split_ifs <;> omega

theorem valid_exti (s : Board) (pin : Nat) (h : Valid s) :
    Valid (HAL_GPIO_EXTI_Callback s pin) := by
  by_cases h0 : pin = KEY_BUTTON_PIN
  · subst h0
    rcases s with ⟨st, sth, m, d, p, pv, ti, a, b, c, e, l⟩
    obtain ⟨hm, hd, hs, hh⟩ := h
    simp only at hm hd hs hh
    rcases hm with rfl | rfl <;> simp_all [Valid]
  by_cases h1 : pin = GPIO_PIN_1
  · subst h1
    rcases s with ⟨st, sth, m, d, p, pv, ti, a, b, c, e, l⟩
    obtain ⟨hm, hd, hs, hh⟩ := h
    simp only at hm hd hs hh
    rcases hd with rfl | rfl <;> simp_all [Valid]
  by_cases h2 : pin = GPIO_PIN_2
  · subst h2
    rcases s with ⟨st, sth, m, d, p, pv, ti, a, b, c, e, l⟩
    simpa [Valid] using h
  by_cases h3 : pin = GPIO_PIN_3
  · subst h3
    rcases s with ⟨st, sth, m, d, p, pv, ti, a, b, c, e, l⟩
    simpa [Valid] using h
  rw [exti_other s pin h0 h1 h2 h3]
  exact h

theorem valid_run (es : List Event) (s : Board) (h : Valid s) : Valid (run s es) := by
  induction es generalizing s with
  | nil => exact h
  | cons ev rest ih =>
    cases ev with
    | tick => exact ih _ (valid_tick s h)
    | exti pin => exact ih _ (valid_exti s pin h)

/-- C14: the predicate `mode` in {0,1}, `direction` in {0,1}, `state` in [0,3],
`stateh` in [0,7] holds in the power-up state and is preserved by a tick and by
every button event (the mode, direction, period-up and period-down pins, and
any other pin), so every reachable state satisfies it. -/
theorem C14_state_space_closed :
    Valid main ∧
    (∀ s : Board, Valid s → Valid (HAL_TIM_PeriodElapsedCallback s)) ∧
    (∀ s : Board, Valid s →
      Valid (HAL_GPIO_EXTI_Callback s KEY_BUTTON_PIN) ∧
      Valid (HAL_GPIO_EXTI_Callback s GPIO_PIN_1) ∧
      Valid (HAL_GPIO_EXTI_Callback s GPIO_PIN_2) ∧
      Valid (HAL_GPIO_EXTI_Callback s GPIO_PIN_3)) ∧
    (∀ (s : Board) (pin : Nat), Valid s → Valid (HAL_GPIO_EXTI_Callback s pin)) ∧
    (∀ s : Board, Reachable s → Valid s) := by
  refine ⟨valid_main, valid_tick, ?_, valid_exti, ?_⟩
  · intro s h
    exact ⟨valid_exti s _ h, valid_exti s _ h, valid_exti s _ h, valid_exti s _ h⟩
  · rintro s ⟨es, rfl⟩
    exact valid_run es main valid_main

/-- C14 on a run that mixes ticks with all four buttons. -/
theorem C14_state_space_closed_witness :
    Valid (run main [Event.tick, Event.exti GPIO_PIN_1, Event.tick, Event.exti GPIO_PIN_3,
      Event.exti KEY_BUTTON_PIN, Event.tick, Event.exti GPIO_PIN_2, Event.tick]) :=
  C14_state_space_closed.2.2.2.2 _ ⟨_, rfl⟩

/-! ## The timer period -/

/-- The mode button leaves the timer settings alone, whatever the state. -/
theorem exti_key_timer (s : Board) :
    (HAL_GPIO_EXTI_Callback s KEY_BUTTON_PIN).period = s.period ∧
    (HAL_GPIO_EXTI_Callback s KEY_BUTTON_PIN).Tim3_Init = s.Tim3_Init := by
  by_cases h0 : s.mode = 0
  · rcases s with ⟨st, sth, m, d, p, pv, ti, a, b, c, e, l⟩
    simp only at h0
    subst h0
    simp
  by_cases h1 : s.mode = 1
  · rcases s with ⟨st, sth, m, d, p, pv, ti, a, b, c, e, l⟩
    simp only at h1
    subst h1
    simp
  rw [exti_key_idle s h0 h1]
  exact ⟨rfl, rfl⟩

/-- The direction button leaves the timer settings alone, whatever the state. -/
theorem exti_pin1_timer (s : Board) :
    (HAL_GPIO_EXTI_Callback s GPIO_PIN_1).period = s.period ∧
    (HAL_GPIO_EXTI_Callback s GPIO_PIN_1).Tim3_Init = s.Tim3_Init := by
  by_cases h0 : s.direction = 0
  · rcases s with ⟨st, sth, m, d, p, pv, ti, a, b, c, e, l⟩
    simp only at h0
    subst h0
    simp
  by_cases h1 : s.direction = 1
  · rcases s with ⟨st, sth, m, d, p, pv, ti, a, b, c, e, l⟩
    simp only at h1
    subst h1
    simp
  rw [exti_pin1_idle s h0 h1]
  exact ⟨rfl, rfl⟩

/-- Inside the `int` range the 32-bit result is the exact one. -/
theorem wrapInt32_of_range (x : Int) (h1 : INT_MIN ≤ x) (h2 : x ≤ INT_MAX) :
    wrapInt32 x = x := by
  unfold INT_MIN at h1
  unfold INT_MAX at h2
  unfold wrapInt32
  omega

/-- The 32-bit result is always an `int`. -/
theorem wrapInt32_range (x : Int) : INT_MIN ≤ wrapInt32 x ∧ wrapInt32 x ≤ INT_MAX := by
  unfold INT_MIN INT_MAX wrapInt32
  omega

/-- The reload value `TIM3_Config` derives (`period - 1` as a `uint32_t`) is the
same for the 32-bit result and for the exact one. -/
theorem wrapInt32_reload (x : Int) :
    ((wrapInt32 x - 1) % 2 ^ 32).toNat = ((x - 1) % 2 ^ 32).toNat := by
  unfold wrapInt32
  omega

/-- The 32-bit reduction keeps the residue modulo 8. -/
theorem wrapInt32_mod8 (x : Int) : wrapInt32 x % 8 = x % 8 := by
  unfold wrapInt32
  omega

/-- The period-up button, whatever the state: `period` is the 32-bit result of
`period + 1000`, and the reload value is `period + 1000 - 1` modulo 2^32. -/
theorem exti_pin2_period (s : Board) :
    (HAL_GPIO_EXTI_Callback s GPIO_PIN_2).period = wrapInt32 (s.period + 1000) ∧
    (HAL_GPIO_EXTI_Callback s GPIO_PIN_2).Tim3_Init.Period =
      ((s.period + 1000 - 1) % 2 ^ 32).toNat := by
  rcases s with ⟨st, sth, m, d, p, pv, ti, a, b, c, e, l⟩
  rw [exti_pin2]
  exact ⟨rfl, wrapInt32_reload _⟩

/-- The period-down button, whatever the state: `period` is the 32-bit result of
`period - 1000`, and the reload value is `period - 1000 - 1` modulo 2^32. -/
theorem exti_pin3_period (s : Board) :
    (HAL_GPIO_EXTI_Callback s GPIO_PIN_3).period = wrapInt32 (s.period - 1000) ∧
    (HAL_GPIO_EXTI_Callback s GPIO_PIN_3).Tim3_Init.Period =
      ((s.period - 1000 - 1) % 2 ^ 32).toNat := by
  rcases s with ⟨st, sth, m, d, p, pv, ti, a, b, c, e, l⟩
  rw [exti_pin3]
  exact ⟨rfl, wrapInt32_reload _⟩

theorem synced_main : TimerSynced main := by
  rw [main_eq]
  simp [TimerSynced]

theorem synced_tick (s : Board) (h : TimerSynced s) :
    TimerSynced (HAL_TIM_PeriodElapsedCallback s) := by
  obtain ⟨_, _, a3, a4, _⟩ := tick_frame s
  unfold TimerSynced at h ⊢
  rw [a3, a4]
  exact h

theorem synced_exti (s : Board) (pin : Nat) (h : TimerSynced s) :
    TimerSynced (HAL_GPIO_EXTI_Callback s pin) := by
  unfold TimerSynced at h ⊢
  by_cases h0 : pin = KEY_BUTTON_PIN
  · subst h0
    obtain ⟨a, b⟩ := exti_key_timer s
    rw [a, b]; exact h
  by_cases h1 : pin = GPIO_PIN_1
  · subst h1
    obtain ⟨a, b⟩ := exti_pin1_timer s
    rw [a, b]; exact h
  by_cases h2 : pin = GPIO_PIN_2
  · subst h2
    obtain ⟨a, b⟩ := exti_pin2_period s
    rw [a, b]
    exact (wrapInt32_reload _).symm
  by_cases h3 : pin = GPIO_PIN_3
  · subst h3
    obtain ⟨a, b⟩ := exti_pin3_period s
    rw [a, b]
    exact (wrapInt32_reload _).symm
  rw [exti_other s pin h0 h1 h2 h3]
  exact h

theorem synced_run (es : List Event) (s : Board) (h : TimerSynced s) :
    TimerSynced (run s es) := by
  induction es generalizing s with
  | nil => exact h
  | cons ev rest ih =>
    cases ev with
    | tick => exact ih _ (synced_tick s h)
    | exti pin => exact ih _ (synced_exti s pin h)

theorem synced_of_reachable (s : Board) (h : Reachable s) : TimerSynced s := by
  obtain ⟨es, rfl⟩ := h
  exact synced_run es main synced_main

/-- The `period` after `n` consecutive period-up events, as long as the exact
result stays within the range of `int`. -/
theorem period_after_ups (n : Nat) (s : Board) (h1 : INT_MIN ≤ s.period)
    (h2 : s.period + 1000 * n ≤ INT_MAX) :
    (run s (List.replicate n (Event.exti GPIO_PIN_2))).period = s.period + 1000 * n := by
  induction n generalizing s with
  | zero => simp [run]
  | succ k ih =>
    have e : run s (List.replicate (k + 1) (Event.exti GPIO_PIN_2)) =
        run (HAL_GPIO_EXTI_Callback s GPIO_PIN_2) (List.replicate k (Event.exti GPIO_PIN_2)) :=
      rfl
    push_cast at h2
    have hp : (HAL_GPIO_EXTI_Callback s GPIO_PIN_2).period = s.period + 1000 :=
      (exti_pin2_period s).1.trans (wrapInt32_of_range _ (by omega) (by omega))
    rw [e, ih _ (by rw [hp]; omega) (by rw [hp]; omega), hp]
    push_cast
    ring

/-- The `int` limit is within reach of the buttons: 2147472 period-up events
after power-up bring `period` to 2147483250, and the next one leaves it at
-2147483046 instead of 2147484250. -/
theorem period_up_overflow_reachable :
    (run main (List.replicate 2147472 (Event.exti GPIO_PIN_2))).period = 2147483250 ∧
    (HAL_GPIO_EXTI_Callback (run main (List.replicate 2147472 (Event.exti GPIO_PIN_2)))
      GPIO_PIN_2).period = -2147483046 := by
  have h : (run main (List.replicate 2147472 (Event.exti GPIO_PIN_2))).period =
      2147483250 := by
    rw [period_after_ups 2147472 main (by decide) (by decide)]
    rfl
  refine ⟨h, ?_⟩
  rw [(exti_pin2_period _).1, h]
  decide

/-- C15 as stated fails at the ends of the `int` range: with `period` at
2147483647 a `GPIO_PIN_2` event leaves `period` at -2147482649, not at
2147484647, and with `period` at -2147483648 a `GPIO_PIN_3` event leaves it at
2147482648, not at -2147484648. -/
theorem C15_period_wraps_at_int_limit :
    (HAL_GPIO_EXTI_Callback { main with period := 2147483647 } GPIO_PIN_2).period =
      -2147482649 ∧
    (HAL_GPIO_EXTI_Callback { main with period := 2147483647 } GPIO_PIN_2).period ≠
      2147483647 + 1000 ∧
    (HAL_GPIO_EXTI_Callback { main with period := -2147483648 } GPIO_PIN_3).period =
      2147482648 ∧
    (HAL_GPIO_EXTI_Callback { main with period := -2147483648 } GPIO_PIN_3).period ≠
      -2147483648 - 1000 := by
  rw [main_eq]
  simp only [exti_pin2, exti_pin3]
  decide

/-- C15, amended: for every state in which `period + 1000` is within the range
of `int`, a `GPIO_PIN_2` event sets `period` to `period + 1000`, and for every
state in which `period - 1000` is within the range of `int`, a `GPIO_PIN_3`
event sets it to `period - 1000`; in both cases, and for every state,
`TIM3_Config` stores the reload value `(period + 1000 - 1) mod 2^32`, respectively
`(period - 1000 - 1) mod 2^32`, which is `(new period - 1) mod 2^32`.  In a
reachable state the stored reload value therefore moves by exactly 1000 in
`uint32_t` arithmetic, and by exactly 1000 as a number as long as `period - 1`
does not leave the range of the unsigned field. -/
theorem C15_period_adjustment (s : Board) :
    ((INT_MIN ≤ s.period + 1000 → s.period + 1000 ≤ INT_MAX →
        (HAL_GPIO_EXTI_Callback s GPIO_PIN_2).period = s.period + 1000) ∧
      (HAL_GPIO_EXTI_Callback s GPIO_PIN_2).Tim3_Init.Period =
        ((s.period + 1000 - 1) % 2 ^ 32).toNat ∧
      (HAL_GPIO_EXTI_Callback s GPIO_PIN_2).Tim3_Init.Period =
        (((HAL_GPIO_EXTI_Callback s GPIO_PIN_2).period - 1) % 2 ^ 32).toNat) ∧
    ((INT_MIN ≤ s.period - 1000 → s.period - 1000 ≤ INT_MAX →
        (HAL_GPIO_EXTI_Callback s GPIO_PIN_3).period = s.period - 1000) ∧
      (HAL_GPIO_EXTI_Callback s GPIO_PIN_3).Tim3_Init.Period =
        ((s.period - 1000 - 1) % 2 ^ 32).toNat ∧
      (HAL_GPIO_EXTI_Callback s GPIO_PIN_3).Tim3_Init.Period =
        (((HAL_GPIO_EXTI_Callback s GPIO_PIN_3).period - 1) % 2 ^ 32).toNat) ∧
    (Reachable s →
      (HAL_GPIO_EXTI_Callback s GPIO_PIN_2).Tim3_Init.Period =
        (s.Tim3_Init.Period + 1000) % 2 ^ 32 ∧
      s.Tim3_Init.Period =
        ((HAL_GPIO_EXTI_Callback s GPIO_PIN_3).Tim3_Init.Period + 1000) % 2 ^ 32) ∧
    (Reachable s → 1 ≤ s.period → s.period + 1000 ≤ 2 ^ 32 →
      (HAL_GPIO_EXTI_Callback s GPIO_PIN_2).Tim3_Init.Period = s.Tim3_Init.Period + 1000) ∧
    (Reachable s → 1001 ≤ s.period → s.period ≤ 2 ^ 32 →
      (HAL_GPIO_EXTI_Callback s GPIO_PIN_3).Tim3_Init.Period + 1000 = s.Tim3_Init.Period) := by
  obtain ⟨u1, u2⟩ := exti_pin2_period s
  obtain ⟨d1, d2⟩ := exti_pin3_period s
  refine ⟨⟨fun h1 h2 => u1.trans (wrapInt32_of_range _ h1 h2), u2, ?_⟩,
    ⟨fun h1 h2 => d1.trans (wrapInt32_of_range _ h1 h2), d2, ?_⟩, ?_, ?_, ?_⟩
  · rw [u1, u2]
    exact (wrapInt32_reload _).symm
  · rw [d1, d2]
    exact (wrapInt32_reload _).symm
  · intro hr
    have hs : s.Tim3_Init.Period = ((s.period - 1) % 2 ^ 32).toNat := synced_of_reachable s hr
    rw [u2, d2, hs]
    constructor <;> omega
  · intro hr h1 h2
    have hs : s.Tim3_Init.Period = ((s.period - 1) % 2 ^ 32).toNat := synced_of_reachable s hr
    rw [u2, hs]
    omega
  · intro hr h1 h2
    have hs : s.Tim3_Init.Period = ((s.period - 1) % 2 ^ 32).toNat := synced_of_reachable s hr
    rw [d2, hs]
    omega

/-- C15, amended, at the power-up state: `period` goes from 11250 to 12250 and
the reload value from 11249 to 12249. -/
theorem C15_period_adjustment_witness :
    (HAL_GPIO_EXTI_Callback main GPIO_PIN_2).period = main.period + 1000 ∧
    (HAL_GPIO_EXTI_Callback main GPIO_PIN_3).period = main.period - 1000 ∧
    (HAL_GPIO_EXTI_Callback main GPIO_PIN_2).Tim3_Init.Period = main.Tim3_Init.Period + 1000 :=
  ⟨(C15_period_adjustment main).1.1 (by decide) (by decide),
    (C15_period_adjustment main).2.1.1 (by decide) (by decide),
    (C15_period_adjustment main).2.2.2.1 ⟨[], rfl⟩ (by decide) (by decide)⟩

/-! ## Repeated presses -/

/-- A button event sets a phase index to 0 or leaves it as it was, whatever the
state and the pin. -/
theorem exti_phase (s : Board) (pin : Nat) :
    ((HAL_GPIO_EXTI_Callback s pin).state = 0 ∨
      (HAL_GPIO_EXTI_Callback s pin).state = s.state) ∧
    ((HAL_GPIO_EXTI_Callback s pin).stateh = 0 ∨
      (HAL_GPIO_EXTI_Callback s pin).stateh = s.stateh) := by
  by_cases h0 : pin = KEY_BUTTON_PIN
  · subst h0
    by_cases m0 : s.mode = 0
    · rcases s with ⟨st, sth, m, d, p, pv, ti, a, b, c, e, l⟩
      simp only at m0
      subst m0
      simp
    by_cases m1 : s.mode = 1
    · rcases s with ⟨st, sth, m, d, p, pv, ti, a, b, c, e, l⟩
      simp only at m1
      subst m1
      simp
    rw [exti_key_idle s m0 m1]
    exact ⟨Or.inr rfl, Or.inr rfl⟩
  by_cases h1 : pin = GPIO_PIN_1
  · subst h1
    by_cases d0 : s.direction = 0
    · rcases s with ⟨st, sth, m, d, p, pv, ti, a, b, c, e, l⟩
      simp only at d0
      subst d0
      simp
    by_cases d1 : s.direction = 1
    · rcases s with ⟨st, sth, m, d, p, pv, ti, a, b, c, e, l⟩
      simp only at d1
      subst d1
      simp
    rw [exti_pin1_idle s d0 d1]
    exact ⟨Or.inr rfl, Or.inr rfl⟩
  by_cases h2 : pin = GPIO_PIN_2
  · subst h2
    rcases s with ⟨st, sth, m, d, p, pv, ti, a, b, c, e, l⟩
    simp
  by_cases h3 : pin = GPIO_PIN_3
  · subst h3
    rcases s with ⟨st, sth, m, d, p, pv, ti, a, b, c, e, l⟩
    simp
  rw [exti_other s pin h0 h1 h2 h3]
  exact ⟨Or.inr rfl, Or.inr rfl⟩

theorem presses_cons (s : Board) (pin : Nat) (pins : List Nat) :
    presses s (pin :: pins) = presses (HAL_GPIO_EXTI_Callback s pin) pins := rfl

/-- Button events alone set phase indices to 0 or leave them as they were. -/
theorem presses_phase (pins : List Nat) (s : Board) :
    ((presses s pins).state = 0 ∨ (presses s pins).state = s.state) ∧
    ((presses s pins).stateh = 0 ∨ (presses s pins).stateh = s.stateh) := by
  induction pins generalizing s with
  | nil => exact ⟨Or.inr rfl, Or.inr rfl⟩
  | cons pin rest ih =>
    rw [presses_cons]
    obtain ⟨a1, a2⟩ := ih (HAL_GPIO_EXTI_Callback s pin)
    obtain ⟨b1, b2⟩ := exti_phase s pin
    constructor
    · rcases a1 with a | a
      · exact Or.inl a
      · rw [a]; exact b1
    · rcases a2 with a | a
      · exact Or.inl a
      · rw [a]; exact b2

/-- A double press is a fixed point of itself on valid flags. -/
theorem doublePress_fixed (s : Board) (hm : s.mode = 0 ∨ s.mode = 1)
    (hd : s.direction = 0 ∨ s.direction = 1) :
    doublePress KEY_BUTTON_PIN (doublePress KEY_BUTTON_PIN s) = doublePress KEY_BUTTON_PIN s ∧
    doublePress GPIO_PIN_1 (doublePress GPIO_PIN_1 s) = doublePress GPIO_PIN_1 s := by
  rcases s with ⟨st, sth, m, d, p, pv, ti, a, b, c, e, l⟩
  simp only at hm hd
  rcases hm with rfl | rfl <;> rcases hd with rfl | rfl <;> simp [doublePress]

/-- C16: for every state with `mode` and `direction` in {0,1}, two consecutive
presses of the mode button, or of the direction button, restore the original
mode and direction with both phase indices 0 and the home pattern; repeating
the double press any number of times yields the identical state; and button
presses alone never make a phase index non-zero: each index ends at 0 or at
the value it had. -/
theorem C16_reset_idempotent (s : Board) (hm : s.mode = 0 ∨ s.mode = 1)
    (hd : s.direction = 0 ∨ s.direction = 1) :
    ((doublePress KEY_BUTTON_PIN s).mode = s.mode ∧
      (doublePress KEY_BUTTON_PIN s).direction = s.direction ∧
      (doublePress KEY_BUTTON_PIN s).state = 0 ∧
      (doublePress KEY_BUTTON_PIN s).stateh = 0 ∧
      coils (doublePress KEY_BUTTON_PIN s) = pat 1 0 0 0) ∧
    ((doublePress GPIO_PIN_1 s).mode = s.mode ∧
      (doublePress GPIO_PIN_1 s).direction = s.direction ∧
      (doublePress GPIO_PIN_1 s).state = 0 ∧
      (doublePress GPIO_PIN_1 s).stateh = 0 ∧
      coils (doublePress GPIO_PIN_1 s) = pat 1 0 0 0) ∧
    (∀ k : Nat, Nat.iterate (doublePress KEY_BUTTON_PIN) (k + 1) s =
      doublePress KEY_BUTTON_PIN s) ∧
    (∀ k : Nat, Nat.iterate (doublePress GPIO_PIN_1) (k + 1) s =
      doublePress GPIO_PIN_1 s) ∧
    (∀ pins : List Nat,
      ((presses s pins).state = 0 ∨ (presses s pins).state = s.state) ∧
      ((presses s pins).stateh = 0 ∨ (presses s pins).stateh = s.stateh)) ∧
    (∀ pins : List Nat, (s.state = 0 → (presses s pins).state = 0) ∧
      (s.stateh = 0 → (presses s pins).stateh = 0)) := by
  obtain ⟨fk, fp⟩ := doublePress_fixed s hm hd
  refine ⟨?_, ?_, ?_, ?_, fun pins => presses_phase pins s, ?_⟩
  · rcases s with ⟨st, sth, m, d, p, pv, ti, a, b, c, e, l⟩
    simp only at hm hd
    rcases hm with rfl | rfl <;> simp [doublePress, coils, pat]
  · rcases s with ⟨st, sth, m, d, p, pv, ti, a, b, c, e, l⟩
    simp only at hm hd
    rcases hd with rfl | rfl <;> simp [doublePress, coils, pat]
  · intro k
    rw [Function.iterate_succ_apply]
    exact Function.iterate_fixed fk k
  · intro k
    rw [Function.iterate_succ_apply]
    exact Function.iterate_fixed fp k
  · intro pins
    obtain ⟨a1, a2⟩ := presses_phase pins s
    constructor
    · intro z
      rcases a1 with a | a
      · exact a
      · rw [a, z]
    · intro z
      rcases a2 with a | a
      · exact a
      · rw [a, z]

/-- C16 three ticks into a half-step run: two presses of the direction button
give back half-step mode and direction 0, at phase 0 with the home pattern. -/
theorem C16_reset_idempotent_witness :
    (doublePress GPIO_PIN_1 (ticks 3 (HAL_GPIO_EXTI_Callback main KEY_BUTTON_PIN))).mode =
      (ticks 3 (HAL_GPIO_EXTI_Callback main KEY_BUTTON_PIN)).mode ∧
    (doublePress GPIO_PIN_1 (ticks 3 (HAL_GPIO_EXTI_Callback main KEY_BUTTON_PIN))).direction =
      (ticks 3 (HAL_GPIO_EXTI_Callback main KEY_BUTTON_PIN)).direction ∧
    (doublePress GPIO_PIN_1 (ticks 3 (HAL_GPIO_EXTI_Callback main KEY_BUTTON_PIN))).state = 0 ∧
    (doublePress GPIO_PIN_1 (ticks 3 (HAL_GPIO_EXTI_Callback main KEY_BUTTON_PIN))).stateh = 0 ∧
    coils (doublePress GPIO_PIN_1 (ticks 3 (HAL_GPIO_EXTI_Callback main KEY_BUTTON_PIN))) =
      pat 1 0 0 0 :=
  (C16_reset_idempotent (ticks 3 (HAL_GPIO_EXTI_Callback main KEY_BUTTON_PIN))
    (Or.inr (by decide)) (Or.inl (by decide))).2.1

/-! ## Frames of the buttons -/

/-- C17: for every state with `mode` in {0,1}, a mode-button event changes
`mode` to `1 - mode` and leaves `direction` and `period` unchanged; for every
state with `direction` in {0,1}, a direction-button event changes `direction`
to `1 - direction` and leaves `mode` and `period` unchanged. -/
theorem C17_toggle_semantics (s : Board) :
    (s.mode = 0 ∨ s.mode = 1 →
      (HAL_GPIO_EXTI_Callback s KEY_BUTTON_PIN).mode = 1 - s.mode ∧
      (HAL_GPIO_EXTI_Callback s KEY_BUTTON_PIN).direction = s.direction ∧
      (HAL_GPIO_EXTI_Callback s KEY_BUTTON_PIN).period = s.period) ∧
    (s.direction = 0 ∨ s.direction = 1 →
      (HAL_GPIO_EXTI_Callback s GPIO_PIN_1).direction = 1 - s.direction ∧
      (HAL_GPIO_EXTI_Callback s GPIO_PIN_1).mode = s.mode ∧
      (HAL_GPIO_EXTI_Callback s GPIO_PIN_1).period = s.period) := by
  constructor
  · intro hm
    obtain ⟨k1, k2, _, _, k5⟩ := exti_key_reset s hm
    exact ⟨k1, k2, k5⟩
  · intro hd
    obtain ⟨p1, p2, _⟩ := exti_pin1_reset s hd
    exact ⟨p2, p1, (exti_pin1_timer s).1⟩

/-- C17 at the power-up state: the mode button enters half-step mode and keeps
direction 0 and period 11250. -/
theorem C17_toggle_semantics_witness :
    (HAL_GPIO_EXTI_Callback main KEY_BUTTON_PIN).mode = 1 ∧
    (HAL_GPIO_EXTI_Callback main KEY_BUTTON_PIN).direction = 0 ∧
    (HAL_GPIO_EXTI_Callback main KEY_BUTTON_PIN).period = 11250 :=
  (C17_toggle_semantics main).1 (Or.inl rfl)

/-- The tick does not read `period` or the timer handle: changing them in the
state before the tick changes nothing else in the state after it. -/
theorem tick_ignores_timer (s : Board) (p1 : Int) (t1 : TIM_Base_InitTypeDef) :
    (HAL_TIM_PeriodElapsedCallback { s with period := p1, Tim3_Init := t1 }).mode =
      (HAL_TIM_PeriodElapsedCallback s).mode ∧
    (HAL_TIM_PeriodElapsedCallback { s with period := p1, Tim3_Init := t1 }).direction =
      (HAL_TIM_PeriodElapsedCallback s).direction ∧
    (HAL_TIM_PeriodElapsedCallback { s with period := p1, Tim3_Init := t1 }).state =
      (HAL_TIM_PeriodElapsedCallback s).state ∧
    (HAL_TIM_PeriodElapsedCallback { s with period := p1, Tim3_Init := t1 }).stateh =
      (HAL_TIM_PeriodElapsedCallback s).stateh ∧
    coils (HAL_TIM_PeriodElapsedCallback { s with period := p1, Tim3_Init := t1 }) =
      coils (HAL_TIM_PeriodElapsedCallback s) := by
  by_cases h : (s.mode = 0 ∨ s.mode = 1) ∧ (s.direction = 0 ∨ s.direction = 1) ∧
      0 ≤ activePhase s ∧ activePhase s < cycleLength s
  · rcases s with ⟨st, sth, m, d, p, pv, ti, a, b, c, e, l⟩
    obtain ⟨hm, hd, h0, hk⟩ := h
    simp only [activePhase, cycleLength] at hm hd h0 hk
    rcases hm with rfl | rfl <;> rcases hd with rfl | rfl
    · simp at h0 hk
      interval_cases st <;> simp [coils]
    · simp at h0 hk
      interval_cases st <;> simp [coils]
    · simp at h0 hk
      interval_cases sth <;> simp [coils]
    · simp at h0 hk
      interval_cases sth <;> simp [coils]
  · rw [tick_idle s h, tick_idle { s with period := p1, Tim3_Init := t1 } h]
    exact ⟨rfl, rfl, rfl, rfl, rfl⟩

/-- C18: whatever the state, a `GPIO_PIN_2` or `GPIO_PIN_3` event leaves `mode`,
`direction`, `state`, `stateh` and the four coil outputs unchanged, and the
mode, direction, phase indices and coil outputs after a tick are the same for
every value of `period` (and of the reload value derived from it). -/
theorem C18_period_no_feedback (s : Board) :
    ((HAL_GPIO_EXTI_Callback s GPIO_PIN_2).mode = s.mode ∧
      (HAL_GPIO_EXTI_Callback s GPIO_PIN_2).direction = s.direction ∧
      (HAL_GPIO_EXTI_Callback s GPIO_PIN_2).state = s.state ∧
      (HAL_GPIO_EXTI_Callback s GPIO_PIN_2).stateh = s.stateh ∧
      coils (HAL_GPIO_EXTI_Callback s GPIO_PIN_2) = coils s) ∧
    ((HAL_GPIO_EXTI_Callback s GPIO_PIN_3).mode = s.mode ∧
      (HAL_GPIO_EXTI_Callback s GPIO_PIN_3).direction = s.direction ∧
      (HAL_GPIO_EXTI_Callback s GPIO_PIN_3).state = s.state ∧
      (HAL_GPIO_EXTI_Callback s GPIO_PIN_3).stateh = s.stateh ∧
      coils (HAL_GPIO_EXTI_Callback s GPIO_PIN_3) = coils s) ∧
    (∀ (p1 : Int) (t1 : TIM_Base_InitTypeDef),
      (HAL_TIM_PeriodElapsedCallback { s with period := p1, Tim3_Init := t1 }).mode =
        (HAL_TIM_PeriodElapsedCallback s).mode ∧
      (HAL_TIM_PeriodElapsedCallback { s with period := p1, Tim3_Init := t1 }).direction =
        (HAL_TIM_PeriodElapsedCallback s).direction ∧
      (HAL_TIM_PeriodElapsedCallback { s with period := p1, Tim3_Init := t1 }).state =
        (HAL_TIM_PeriodElapsedCallback s).state ∧
      (HAL_TIM_PeriodElapsedCallback { s with period := p1, Tim3_Init := t1 }).stateh =
        (HAL_TIM_PeriodElapsedCallback s).stateh ∧
      coils (HAL_TIM_PeriodElapsedCallback { s with period := p1, Tim3_Init := t1 }) =
        coils (HAL_TIM_PeriodElapsedCallback s)) ∧
    (∀ p1 : Int,
      (HAL_TIM_PeriodElapsedCallback { s with period := p1 }).mode =
        (HAL_TIM_PeriodElapsedCallback s).mode ∧
      (HAL_TIM_PeriodElapsedCallback { s with period := p1 }).direction =
        (HAL_TIM_PeriodElapsedCallback s).direction ∧
      (HAL_TIM_PeriodElapsedCallback { s with period := p1 }).state =
        (HAL_TIM_PeriodElapsedCallback s).state ∧
      (HAL_TIM_PeriodElapsedCallback { s with period := p1 }).stateh =
        (HAL_TIM_PeriodElapsedCallback s).stateh ∧
      coils (HAL_TIM_PeriodElapsedCallback { s with period := p1 }) =
        coils (HAL_TIM_PeriodElapsedCallback s)) := by
  refine ⟨?_, ?_, tick_ignores_timer s, fun p1 => tick_ignores_timer s p1 s.Tim3_Init⟩
  · rcases s with ⟨st, sth, m, d, p, pv, ti, a, b, c, e, l⟩
    simp [coils]
  · rcases s with ⟨st, sth, m, d, p, pv, ti, a, b, c, e, l⟩
    simp [coils]

/-! ## The period is not clamped from below -/

/-- The `period` after `n` consecutive period-down events, as long as the
exact result stays within the range of `int`. -/
theorem period_after_downs (n : Nat) (s : Board) (h1 : s.period ≤ INT_MAX)
    (h2 : INT_MIN ≤ s.period - 1000 * n) :
    (run s (List.replicate n (Event.exti GPIO_PIN_3))).period = s.period - 1000 * n := by
  induction n generalizing s with
  | zero => simp [run]
  | succ k ih =>
    have e : run s (List.replicate (k + 1) (Event.exti GPIO_PIN_3)) =
        run (HAL_GPIO_EXTI_Callback s GPIO_PIN_3) (List.replicate k (Event.exti GPIO_PIN_3)) :=
      rfl
    push_cast at h2
    have hp : (HAL_GPIO_EXTI_Callback s GPIO_PIN_3).period = s.period - 1000 :=
      (exti_pin3_period s).1.trans (wrapInt32_of_range _ (by omega) (by omega))
    rw [e, ih _ (by rw [hp]; omega) (by rw [hp]; omega), hp]
    push_cast
    ring

/-- C19: a period-down event is never rejected or clamped: whatever the state,
`period` becomes the 32-bit result of `period - 1000`, which is `period - 1000`
itself whenever that is within the range of `int`; after `n` such events from
power-up `period` is `11250 - 1000 n`, as long as that is within the range of
`int`; and after 12 of them `period` is -750, so the reload value `period - 1`
handed to the timer is -751 as a signed integer, which the unsigned field
stores as 4294966545. -/
theorem C19_period_unbounded_below :
    (∀ s : Board,
      (HAL_GPIO_EXTI_Callback s GPIO_PIN_3).period = wrapInt32 (s.period - 1000)) ∧
    (∀ s : Board, INT_MIN ≤ s.period - 1000 → s.period - 1000 ≤ INT_MAX →
      (HAL_GPIO_EXTI_Callback s GPIO_PIN_3).period = s.period - 1000) ∧
    (∀ n : Nat, INT_MIN ≤ 11250 - 1000 * (n : Int) →
      (run main (List.replicate n (Event.exti GPIO_PIN_3))).period = 11250 - 1000 * n) ∧
    (∃ n : Nat, (run main (List.replicate n (Event.exti GPIO_PIN_3))).period - 1 ≤ 0) ∧
    (run main (List.replicate 12 (Event.exti GPIO_PIN_3))).period - 1 = -751 ∧
    (run main (List.replicate 12 (Event.exti GPIO_PIN_3))).Tim3_Init.Period = 4294966545 := by
  have hn : ∀ n : Nat, INT_MIN ≤ 11250 - 1000 * (n : Int) →
      (run main (List.replicate n (Event.exti GPIO_PIN_3))).period = 11250 - 1000 * n := by
    intro n h
    rw [period_after_downs n main (by decide) h]
    rfl
  have h12 : (run main (List.replicate 12 (Event.exti GPIO_PIN_3))).period = -750 := by
    rw [hn 12 (by decide)]
    decide
  refine ⟨fun s => (exti_pin3_period s).1,
    fun s a b => (exti_pin3_period s).1.trans (wrapInt32_of_range _ a b), hn, ⟨12, ?_⟩, ?_, ?_⟩
  · rw [h12]; decide
  · rw [h12]; decide
  · have hr : Reachable (run main (List.replicate 12 (Event.exti GPIO_PIN_3))) := ⟨_, rfl⟩
    have hs := synced_of_reachable _ hr
    unfold TimerSynced at hs
    rw [hs, h12]
    decide

/-- C19 at three period-down events from power-up: `period` is 8250. -/
theorem C19_period_unbounded_below_witness :
    (HAL_GPIO_EXTI_Callback main GPIO_PIN_3).period = main.period - 1000 ∧
    (run main (List.replicate 3 (Event.exti GPIO_PIN_3))).period =
      11250 - 1000 * ((3 : Nat) : Int) :=
  ⟨C19_period_unbounded_below.2.1 main (by decide) (by decide),
    C19_period_unbounded_below.2.2.1 3 (by decide)⟩

/-! ## What the direction decides -/

theorem live_iff_of_sameView (f s : Board) (h : SameView f s) : Live f ↔ Live s := by
  obtain ⟨e1, e2, e3, _⟩ := h
  simp only [Live, cycleLength, e1, e2, e3]

/-- C21: whatever the state, the four coil outputs after a tick with
`direction` set to 0 equal those after a tick with `direction` set to 1; so do
the mode, the period, the LED and the phase index of the inactive mode: between
the two ticks only the direction flag and the active phase index can differ. -/
theorem C21_coils_independent_of_direction (s : Board) :
    coils (HAL_TIM_PeriodElapsedCallback { s with direction := 0 }) =
      coils (HAL_TIM_PeriodElapsedCallback { s with direction := 1 }) ∧
    (HAL_TIM_PeriodElapsedCallback { s with direction := 0 }).mode =
      (HAL_TIM_PeriodElapsedCallback { s with direction := 1 }).mode ∧
    (HAL_TIM_PeriodElapsedCallback { s with direction := 0 }).period =
      (HAL_TIM_PeriodElapsedCallback { s with direction := 1 }).period ∧
    (HAL_TIM_PeriodElapsedCallback { s with direction := 0 }).led4 =
      (HAL_TIM_PeriodElapsedCallback { s with direction := 1 }).led4 ∧
    (s.mode ≠ 0 →
      (HAL_TIM_PeriodElapsedCallback { s with direction := 0 }).state =
        (HAL_TIM_PeriodElapsedCallback { s with direction := 1 }).state) ∧
    (s.mode ≠ 1 →
      (HAL_TIM_PeriodElapsedCallback { s with direction := 0 }).stateh =
        (HAL_TIM_PeriodElapsedCallback { s with direction := 1 }).stateh) := by
  by_cases h : (s.mode = 0 ∨ s.mode = 1) ∧ 0 ≤ activePhase s ∧ activePhase s < cycleLength s
  · rcases s with ⟨st, sth, m, d, p, pv, ti, a, b, c, e, l⟩
    obtain ⟨hm, h0, hk⟩ := h
    simp only [activePhase, cycleLength] at hm h0 hk
    rcases hm with rfl | rfl
    · simp at h0 hk
      interval_cases st <;> simp [coils]
    · simp at h0 hk
      interval_cases sth <;> simp [coils]
  · have h0 : ¬ Live { s with direction := 0 } := by
      intro g; exact h ⟨g.1, g.2.2.1, g.2.2.2⟩
    have h1 : ¬ Live { s with direction := 1 } := by
      intro g; exact h ⟨g.1, g.2.2.1, g.2.2.2⟩
    rw [tick_idle _ h0, tick_idle _ h1]
    exact ⟨rfl, rfl, rfl, rfl, fun _ => rfl, fun _ => rfl⟩

/-! ## Totality -/

/-- C22: the tick is a total function of the state, and whenever `mode` is not
in {0,1}, or `direction` is not in {0,1}, or the active phase index is outside
[0,3] in full-step mode or outside [0,7] in half-step mode, no branch fires:
`mode`, `direction`, `state`, `stateh` and the four coil outputs are unchanged
(only the LED is toggled). -/
theorem C22_tick_total (s : Board) :
    (∃ t : Board, HAL_TIM_PeriodElapsedCallback s = t) ∧
    ((s.mode ≠ 0 ∧ s.mode ≠ 1) ∨ (s.direction ≠ 0 ∧ s.direction ≠ 1) ∨
        (s.mode = 0 ∧ (s.state < 0 ∨ 3 < s.state)) ∨
        (s.mode = 1 ∧ (s.stateh < 0 ∨ 7 < s.stateh)) →
      HAL_TIM_PeriodElapsedCallback s = BSP_LED_Toggle s ∧
      (HAL_TIM_PeriodElapsedCallback s).mode = s.mode ∧
      (HAL_TIM_PeriodElapsedCallback s).direction = s.direction ∧
      (HAL_TIM_PeriodElapsedCallback s).state = s.state ∧
      (HAL_TIM_PeriodElapsedCallback s).stateh = s.stateh ∧
      coils (HAL_TIM_PeriodElapsedCallback s) = coils s) := by
  refine ⟨⟨_, rfl⟩, ?_⟩
  intro h
  have hl : ¬ ((s.mode = 0 ∨ s.mode = 1) ∧ (s.direction = 0 ∨ s.direction = 1) ∧
      0 ≤ activePhase s ∧ activePhase s < cycleLength s) := by
    rintro ⟨hm, hd, h0, hk⟩
    rcases h with ⟨a, b⟩ | ⟨a, b⟩ | ⟨a, b⟩ | ⟨a, b⟩
    · rcases hm with g | g
      · exact a g
      · exact b g
    · rcases hd with g | g
      · exact a g
      · exact b g
    · simp only [activePhase, cycleLength, a, if_true] at h0 hk
      push_cast at hk
      omega
    · have n1 : (1 : Int) ≠ 0 := by decide
      simp only [activePhase, cycleLength, a, if_neg n1] at h0 hk
      push_cast at hk
      omega
  rw [tick_idle s hl]
  exact ⟨rfl, rfl, rfl, rfl, rfl, rfl⟩

/-- C22 on a full-step state whose phase index is 7: the tick changes nothing
but the LED. -/
theorem C22_tick_total_witness :
    coils (HAL_TIM_PeriodElapsedCallback { main with state := 7 }) =
      coils { main with state := 7 } ∧
    (HAL_TIM_PeriodElapsedCallback { main with state := 7 }).state = 7 :=
  ⟨((C22_tick_total { main with state := 7 }).2
      (Or.inr (Or.inr (Or.inl ⟨by decide, Or.inr (by decide)⟩)))).2.2.2.2.2,
   ((C22_tick_total { main with state := 7 }).2
      (Or.inr (Or.inr (Or.inl ⟨by decide, Or.inr (by decide)⟩)))).2.2.2.1⟩

/-! ## Start-up and the timer status -/

/-- C23, evaluated where it fails: when `HAL_TIM_Base_Init` and
`HAL_TIM_Base_Start_IT` report `HAL_ERROR` (or any other status) during
`TIM3_Config`, start-up still ends in the main loop, in the power-up state;
only a failure of the clock configuration ends in `Error_Handler`. -/
theorem C23_timer_failure_not_checked :
    main_startup HAL_StatusTypeDef.HAL_OK HAL_StatusTypeDef.HAL_OK
      HAL_StatusTypeDef.HAL_ERROR HAL_StatusTypeDef.HAL_ERROR = Outcome.running main ∧
    (∀ a b : HAL_StatusTypeDef,
      main_startup HAL_StatusTypeDef.HAL_OK HAL_StatusTypeDef.HAL_OK a b =
        Outcome.running main) ∧
    (∀ a b : HAL_StatusTypeDef,
      main_startup HAL_StatusTypeDef.HAL_ERROR HAL_StatusTypeDef.HAL_OK a b =
        Outcome.halted true ∧
      main_startup HAL_StatusTypeDef.HAL_OK HAL_StatusTypeDef.HAL_ERROR a b =
        Outcome.halted true) := by
  refine ⟨rfl, fun _ _ => rfl, fun _ _ => ⟨rfl, rfl⟩⟩

/-! ## Views and periodicity -/

theorem ticks_add (a b : Nat) (s : Board) : ticks (a + b) s = ticks b (ticks a s) := by
  induction a generalizing s with
  | zero => simp [ticks]
  | succ k ih =>
    have e : k + 1 + b = (k + b) + 1 := by omega
    rw [e, ticks_succ, ticks_succ, ih]

/-- States with the same view have the same view after a tick. -/
theorem tick_sameView (f s : Board) (h : SameView f s) :
    SameView (HAL_TIM_PeriodElapsedCallback f) (HAL_TIM_PeriodElapsedCallback s) := by
  by_cases hl : Live s
  · obtain ⟨e1, e2, e3, e4⟩ := h
    obtain ⟨hm, hd, h0, hk⟩ := hl
    rcases hm with hm | hm
    · have fm : f.mode = 0 := e1.trans hm
      simp only [activePhase, hm, fm, if_true] at e3 h0 hk
      simp only [cycleLength, hm, if_true] at hk
      have h3 : s.state ≤ 3 := by push_cast at hk; omega
      obtain ⟨a1, a2, _, _, a5, a6⟩ := tick_full s hm hd h0 h3
      obtain ⟨b1, b2, _, _, b5, b6⟩ :=
        tick_full f fm (by rw [e2]; exact hd) (by rw [e3]; exact h0) (by rw [e3]; exact h3)
      refine ⟨by rw [a1, b1, e1], by rw [a2, b2, e2], ?_, by rw [a6, b6, e3, e4]⟩
      simp only [activePhase, a1, b1, hm, fm, if_true]
      rw [a5, b5, e2, e3]
    · have fm : f.mode = 1 := e1.trans hm
      have n1 : (1 : Int) ≠ 0 := by decide
      simp only [activePhase, hm, fm, if_neg n1] at e3 h0 hk
      simp only [cycleLength, hm, if_neg n1] at hk
      have h7 : s.stateh ≤ 7 := by push_cast at hk; omega
      obtain ⟨a1, a2, _, _, a5, a6⟩ := tick_half s hm hd h0 h7
      obtain ⟨b1, b2, _, _, b5, b6⟩ :=
        tick_half f fm (by rw [e2]; exact hd) (by rw [e3]; exact h0) (by rw [e3]; exact h7)
      refine ⟨by rw [a1, b1, e1], by rw [a2, b2, e2], ?_, by rw [a6, b6, e3, e4]⟩
      simp only [activePhase, a1, b1, hm, fm, if_neg n1]
      rw [a5, b5, e2, e3]
  · have hf : ¬ Live f := fun g => hl ((live_iff_of_sameView f s h).1 g)
    rw [tick_idle s hl, tick_idle f hf]
    exact h

/-- States with the same view have the same view after any number of ticks. -/
theorem ticks_sameView (n : Nat) (f s : Board) (h : SameView f s) :
    SameView (ticks n f) (ticks n s) := by
  induction n generalizing f s with
  | zero => exact h
  | succ k ih => exact ih _ _ (tick_sameView f s h)

/-- One full cycle from a valid phase: the phase index is back and the coil
outputs do not depend on the outputs at the start. -/
theorem cycle_erases (s : Board) (hl : Live s) (c : Coils) :
    (ticks (cycleLength s) s).mode = s.mode ∧
    (ticks (cycleLength s) s).direction = s.direction ∧
    activePhase (ticks (cycleLength s) s) = activePhase s ∧
    coils (ticks (cycleLength s) (setCoils s c)) = coils (ticks (cycleLength s) s) := by
  rcases s with ⟨st, sth, m, d, p, pv, ti, a, b, e, g, l⟩
  obtain ⟨hm, hd, h0, hk⟩ := hl
  simp only [activePhase, cycleLength] at hm hd h0 hk
  rcases hm with rfl | rfl <;> rcases hd with rfl | rfl
  · simp at h0 hk
    interval_cases st <;> simp [cycleLength, ticks, setCoils, coils, activePhase]
  · simp at h0 hk
    interval_cases st <;> simp [cycleLength, ticks, setCoils, coils, activePhase]
  · simp at h0 hk
    interval_cases sth <;> simp [cycleLength, ticks, setCoils, coils, activePhase]
  · simp at h0 hk
    interval_cases sth <;> simp [cycleLength, ticks, setCoils, coils, activePhase]

theorem setCoils_coils (s : Board) : setCoils s (coils s) = s := rfl

/-- C24: for both modes, both directions and every valid active phase, the
coil outputs after `k` consecutive ticks (`k` = 4 in full-step, 8 in half-step
mode) are the same for every choice of the initial coil outputs; hence `k`
ticks applied twice give the same phase index and coil outputs as `k` ticks
applied once, and from the `k`-th tick onward the outputs repeat with period
`k`. -/
theorem C24_cycle_erases_initial_coils (s : Board) (hm : s.mode = 0 ∨ s.mode = 1)
    (hd : s.direction = 0 ∨ s.direction = 1)
    (h0 : 0 ≤ activePhase s) (hk : activePhase s < cycleLength s) :
    (∀ c1 c2 : Coils, coils (ticks (cycleLength s) (setCoils s c1)) =
      coils (ticks (cycleLength s) (setCoils s c2))) ∧
    activePhase (ticks (cycleLength s) s) = activePhase s ∧
    (activePhase (ticks (cycleLength s) (ticks (cycleLength s) s)) =
        activePhase (ticks (cycleLength s) s) ∧
      coils (ticks (cycleLength s) (ticks (cycleLength s) s)) =
        coils (ticks (cycleLength s) s)) ∧
    (∀ n : Nat, cycleLength s ≤ n →
      activePhase (ticks (n + cycleLength s) s) = activePhase (ticks n s) ∧
      coils (ticks (n + cycleLength s) s) = coils (ticks n s)) := by
  have hl : Live s := ⟨hm, hd, h0, hk⟩
  obtain ⟨k1, k2, k3, _⟩ := cycle_erases s hl (coils s)
  -- the state after one cycle is again on a valid phase, with the same cycle length
  have hc : cycleLength (ticks (cycleLength s) s) = cycleLength s := by
    show (if (ticks (cycleLength s) s).mode = 0 then 4 else 8) = _
    rw [k1]
    rfl
  have hl2 : Live (ticks (cycleLength s) s) := by
    refine ⟨by rw [k1]; exact hm, by rw [k2]; exact hd, by rw [k3]; exact h0, ?_⟩
    rw [k3, hc]; exact hk
  -- a second cycle brings back the view reached by the first
  have hv : SameView (ticks (cycleLength s) (ticks (cycleLength s) s))
      (ticks (cycleLength s) s) := by
    obtain ⟨j1, j2, j3, _⟩ := cycle_erases (ticks (cycleLength s) s) hl2 (coils s)
    rw [hc] at j1 j2 j3
    refine ⟨j1, j2, j3, ?_⟩
    have e1 := (cycle_erases (ticks (cycleLength s) s) hl2 (coils s)).2.2.2
    have e3 : SameView (setCoils (ticks (cycleLength s) s) (coils s))
        (setCoils s (coils s)) := by
      rw [setCoils_coils]
      exact ⟨k1, k2, k3, rfl⟩
    rw [hc] at e1
    -- with the outputs of `s` put back, the second cycle is the first one again
    have f1 := (ticks_sameView (cycleLength s) _ _ e3).2.2.2
    rw [setCoils_coils] at f1
    rw [← e1, f1]
  refine ⟨?_, k3, ⟨hv.2.2.1, hv.2.2.2⟩, ?_⟩
  · intro c1 c2
    rw [(cycle_erases s hl c1).2.2.2, (cycle_erases s hl c2).2.2.2]
  · intro n hn
    obtain ⟨j, rfl⟩ : ∃ j, n = cycleLength s + j := ⟨n - cycleLength s, by omega⟩
    have e : cycleLength s + j + cycleLength s = cycleLength s + cycleLength s + j := by omega
    rw [e, ticks_add (cycleLength s + cycleLength s) j, ticks_add (cycleLength s) (cycleLength s),
      ticks_add (cycleLength s) j]
    have w := ticks_sameView j _ _ hv
    exact ⟨w.2.2.1, w.2.2.2⟩

/-- C24 for the reverse full-step run from the reset state: the outputs after
eight ticks are those after four ticks. -/
theorem C24_cycle_erases_initial_coils_witness :
    coils (ticks (cycleLength (HAL_GPIO_EXTI_Callback main GPIO_PIN_1))
        (ticks (cycleLength (HAL_GPIO_EXTI_Callback main GPIO_PIN_1))
          (HAL_GPIO_EXTI_Callback main GPIO_PIN_1))) =
      coils (ticks (cycleLength (HAL_GPIO_EXTI_Callback main GPIO_PIN_1))
        (HAL_GPIO_EXTI_Callback main GPIO_PIN_1)) :=
  (C24_cycle_erases_initial_coils (HAL_GPIO_EXTI_Callback main GPIO_PIN_1)
    (Or.inl (by decide)) (Or.inr (by decide)) (by decide) (by decide)).2.2.1.2

/-! ## Frame of the tick -/

/-- The tick leaves the phase index of the inactive mode alone, whatever the
state. -/
theorem tick_inactive (s : Board) :
    (s.mode = 0 → (HAL_TIM_PeriodElapsedCallback s).stateh = s.stateh) ∧
    (s.mode = 1 → (HAL_TIM_PeriodElapsedCallback s).state = s.state) := by
  rcases tick_trichotomy s with ⟨hm, hd, h0, h3⟩ | ⟨hm, hd, h0, h7⟩ | h
  · refine ⟨fun _ => (tick_full s hm hd h0 h3).2.2.1, fun g => ?_⟩
    rw [hm] at g
    exact absurd g (by decide)
  · refine ⟨fun g => ?_, fun _ => (tick_half s hm hd h0 h7).2.2.1⟩
    rw [hm] at g
    exact absurd g (by decide)
  · rw [h]
    exact ⟨fun _ => rfl, fun _ => rfl⟩

/-- On a valid full-step phase the tick assigns two coil outputs, whatever they
were, and keeps the other two. -/
theorem tick_full_writes_two (s : Board) (hm : s.mode = 0)
    (hd : s.direction = 0 ∨ s.direction = 1) (h0 : 0 ≤ s.state) (h3 : s.state ≤ 3) :
    ∃ i j : Fin 4, i ≠ j ∧ ∃ vi vj : Bool, ∀ (c : Coils) (k : Fin 4),
      coilAt (coils (HAL_TIM_PeriodElapsedCallback (setCoils s c))) k =
        if k = i then vi else if k = j then vj else coilAt c k := by
  rcases s with ⟨st, sth, m, d, p, pv, ti, a, b, e, g, l⟩
  simp only at hm hd h0 h3
  subst hm
  rcases hd with rfl | rfl <;> interval_cases st
  · refine ⟨0, 1, by decide, false, true, fun c k => ?_⟩
    fin_cases k <;> simp [setCoils, coils, coilAt]
  · refine ⟨1, 3, by decide, false, true, fun c k => ?_⟩
    fin_cases k <;> simp [setCoils, coils, coilAt]
  · refine ⟨3, 2, by decide, false, true, fun c k => ?_⟩
    fin_cases k <;> simp [setCoils, coils, coilAt]
  · refine ⟨2, 0, by decide, false, true, fun c k => ?_⟩
    fin_cases k <;> simp [setCoils, coils, coilAt]
  · refine ⟨0, 1, by decide, false, true, fun c k => ?_⟩
    fin_cases k <;> simp [setCoils, coils, coilAt]
  · refine ⟨1, 3, by decide, false, true, fun c k => ?_⟩
    fin_cases k <;> simp [setCoils, coils, coilAt]
  · refine ⟨3, 2, by decide, false, true, fun c k => ?_⟩
    fin_cases k <;> simp [setCoils, coils, coilAt]
  · refine ⟨2, 0, by decide, false, true, fun c k => ?_⟩
    fin_cases k <;> simp [setCoils, coils, coilAt]

/-- On a valid half-step phase the tick assigns one coil output, whatever it
was, and keeps the other three. -/
theorem tick_half_writes_one (s : Board) (hm : s.mode = 1)
    (hd : s.direction = 0 ∨ s.direction = 1) (h0 : 0 ≤ s.stateh) (h7 : s.stateh ≤ 7) :
    ∃ (i : Fin 4) (v : Bool), ∀ (c : Coils) (k : Fin 4),
      coilAt (coils (HAL_TIM_PeriodElapsedCallback (setCoils s c))) k =
        if k = i then v else coilAt c k := by
  rcases s with ⟨st, sth, m, d, p, pv, ti, a, b, e, g, l⟩
  simp only at hm hd h0 h7
  subst hm
  rcases hd with rfl | rfl <;> interval_cases sth
  · exact ⟨1, true, fun c k => by fin_cases k <;> simp [setCoils, coils, coilAt]⟩
  · exact ⟨0, false, fun c k => by fin_cases k <;> simp [setCoils, coils, coilAt]⟩
  · exact ⟨3, true, fun c k => by fin_cases k <;> simp [setCoils, coils, coilAt]⟩
  · exact ⟨1, false, fun c k => by fin_cases k <;> simp [setCoils, coils, coilAt]⟩
  · exact ⟨2, true, fun c k => by fin_cases k <;> simp [setCoils, coils, coilAt]⟩
  · exact ⟨3, false, fun c k => by fin_cases k <;> simp [setCoils, coils, coilAt]⟩
  · exact ⟨0, true, fun c k => by fin_cases k <;> simp [setCoils, coils, coilAt]⟩
  · exact ⟨2, false, fun c k => by fin_cases k <;> simp [setCoils, coils, coilAt]⟩
  · exact ⟨1, true, fun c k => by fin_cases k <;> simp [setCoils, coils, coilAt]⟩
  · exact ⟨0, false, fun c k => by fin_cases k <;> simp [setCoils, coils, coilAt]⟩
  · exact ⟨3, true, fun c k => by fin_cases k <;> simp [setCoils, coils, coilAt]⟩
  · exact ⟨1, false, fun c k => by fin_cases k <;> simp [setCoils, coils, coilAt]⟩
  · exact ⟨2, true, fun c k => by fin_cases k <;> simp [setCoils, coils, coilAt]⟩
  · exact ⟨3, false, fun c k => by fin_cases k <;> simp [setCoils, coils, coilAt]⟩
  · exact ⟨0, true, fun c k => by fin_cases k <;> simp [setCoils, coils, coilAt]⟩
  · exact ⟨2, false, fun c k => by fin_cases k <;> simp [setCoils, coils, coilAt]⟩

/-- The coil outputs of a state whose outputs were replaced by `c`. -/
theorem coils_setCoils (s : Board) (c : Coils) : coils (setCoils s c) = c := rfl

/-- Outside the valid flag and phase ranges the tick writes no coil output:
whatever the outputs were, they are the same after the tick. -/
theorem tick_idle_writes_none (s : Board) (h : ¬ Live s) (c : Coils) :
    coils (HAL_TIM_PeriodElapsedCallback (setCoils s c)) = c := by
  have h2 : ¬ (((setCoils s c).mode = 0 ∨ (setCoils s c).mode = 1) ∧
      ((setCoils s c).direction = 0 ∨ (setCoils s c).direction = 1) ∧
      0 ≤ activePhase (setCoils s c) ∧
      activePhase (setCoils s c) < cycleLength (setCoils s c)) := h
  rw [tick_idle (setCoils s c) h2]
  rfl

/-- C25 as stated fails on a phase index outside the table: in full-step mode
with `state` at 7 no branch of the ladder matches, so the tick writes no coil
output at all (the outputs stay whatever they were), where the claim has
exactly two outputs written. -/
theorem C25_no_write_off_table :
    ({ main with state := 7 } : Board).mode = 0 ∧
    (∀ c : Coils,
      coils (HAL_TIM_PeriodElapsedCallback (setCoils { main with state := 7 } c)) = c) ∧
    ¬ ∃ i j : Fin 4, i ≠ j ∧ ∃ vi vj : Bool, ∀ (c : Coils) (k : Fin 4),
      coilAt (coils (HAL_TIM_PeriodElapsedCallback (setCoils { main with state := 7 } c))) k =
        if k = i then vi else if k = j then vj else coilAt c k := by
  have hl : ¬ Live { main with state := 7 } := by
    rintro ⟨_, _, _, h⟩
    revert h
    decide
  refine ⟨rfl, tick_idle_writes_none _ hl, ?_⟩
  rintro ⟨i, j, _, vi, vj, h⟩
  have e := h (!vi, !vi, !vi, !vi) i
  rw [tick_idle_writes_none _ hl, if_pos rfl] at e
  revert e
  fin_cases i <;> cases vi <;> decide

/-- C25, amended: whatever the state, a tick leaves `mode`, `direction` and
`period` unchanged and leaves the phase index of the inactive mode unchanged
(`stateh` when `mode == 0`, `state` when `mode == 1`); when `direction` is 0 or 1
and the active phase index is within its table (`state` in 0..3 in full-step
mode, `stateh` in 0..7 in half-step mode) the tick assigns exactly two coil
outputs in full-step mode and exactly one in half-step mode, whatever the
outputs were, and the other outputs stay as they were; in every other state the
tick writes no coil output; so in any state at most two outputs change in
full-step mode and at most one in half-step mode. -/
theorem C25_tick_frame (s : Board) :
    (HAL_TIM_PeriodElapsedCallback s).mode = s.mode ∧
    (HAL_TIM_PeriodElapsedCallback s).direction = s.direction ∧
    (HAL_TIM_PeriodElapsedCallback s).period = s.period ∧
    (s.mode = 0 → (HAL_TIM_PeriodElapsedCallback s).stateh = s.stateh) ∧
    (s.mode = 1 → (HAL_TIM_PeriodElapsedCallback s).state = s.state) ∧
    (s.mode = 0 → (s.direction = 0 ∨ s.direction = 1) → 0 ≤ s.state → s.state ≤ 3 →
      ∃ i j : Fin 4, i ≠ j ∧ ∃ vi vj : Bool, ∀ (c : Coils) (k : Fin 4),
        coilAt (coils (HAL_TIM_PeriodElapsedCallback (setCoils s c))) k =
          if k = i then vi else if k = j then vj else coilAt c k) ∧
    (s.mode = 1 → (s.direction = 0 ∨ s.direction = 1) → 0 ≤ s.stateh → s.stateh ≤ 7 →
      ∃ (i : Fin 4) (v : Bool), ∀ (c : Coils) (k : Fin 4),
        coilAt (coils (HAL_TIM_PeriodElapsedCallback (setCoils s c))) k =
          if k = i then v else coilAt c k) ∧
    (¬ (s.mode = 0 ∧ (s.direction = 0 ∨ s.direction = 1) ∧ 0 ≤ s.state ∧ s.state ≤ 3) →
      ¬ (s.mode = 1 ∧ (s.direction = 0 ∨ s.direction = 1) ∧ 0 ≤ s.stateh ∧ s.stateh ≤ 7) →
      ∀ c : Coils, coils (HAL_TIM_PeriodElapsedCallback (setCoils s c)) = c) ∧
    (s.mode = 0 → ∃ i j : Fin 4, ∀ k : Fin 4, k ≠ i → k ≠ j →
      coilAt (coils (HAL_TIM_PeriodElapsedCallback s)) k = coilAt (coils s) k) ∧
    (s.mode = 1 → ∃ i : Fin 4, ∀ k : Fin 4, k ≠ i →
      coilAt (coils (HAL_TIM_PeriodElapsedCallback s)) k = coilAt (coils s) k) := by
  obtain ⟨f1, f2, f3, _, _⟩ := tick_frame s
  obtain ⟨g1, g2⟩ := tick_inactive s
  refine ⟨f1, f2, f3, g1, g2, tick_full_writes_two s, tick_half_writes_one s, ?_, ?_, ?_⟩
  · intro n0 n1 c
    rcases tick_trichotomy (setCoils s c) with h | h | h
    · exact absurd h n0
    · exact absurd h n1
    · rw [h]
      rfl
  · intro hm
    rcases tick_trichotomy s with ⟨_, hd, h0, h3⟩ | ⟨h1, _⟩ | h
    · obtain ⟨i, j, _, vi, vj, hw⟩ := tick_full_writes_two s hm hd h0 h3
      refine ⟨i, j, fun k ki kj => ?_⟩
      have e := hw (coils s) k
      rw [setCoils_coils, if_neg ki, if_neg kj] at e
      exact e
    · rw [hm] at h1
      exact absurd h1 (by decide)
    · rw [h]
      exact ⟨0, 0, fun _ _ _ => rfl⟩
  · intro hm
    rcases tick_trichotomy s with ⟨h0, _⟩ | ⟨_, hd, h0, h7⟩ | h
    · rw [hm] at h0
      exact absurd h0 (by decide)
    · obtain ⟨i, v, hw⟩ := tick_half_writes_one s hm hd h0 h7
      refine ⟨i, fun k ki => ?_⟩
      have e := hw (coils s) k
      rw [setCoils_coils, if_neg ki] at e
      exact e
    · rw [h]
      exact ⟨0, fun _ _ => rfl⟩

/-- C25, amended, at the power-up state (the first tick assigns two coil
outputs) and at a full-step state with `state` at 7 (the tick assigns none). -/
theorem C25_tick_frame_witness :
    (∃ i j : Fin 4, i ≠ j ∧ ∃ vi vj : Bool, ∀ (c : Coils) (k : Fin 4),
      coilAt (coils (HAL_TIM_PeriodElapsedCallback (setCoils main c))) k =
        if k = i then vi else if k = j then vj else coilAt c k) ∧
    (∀ c : Coils,
      coils (HAL_TIM_PeriodElapsedCallback (setCoils { main with state := 8 } c)) = c) :=
  ⟨(C25_tick_frame main).2.2.2.2.2.1 rfl (Or.inl rfl) (by decide) (by decide),
    (C25_tick_frame { main with state := 8 }).2.2.2.2.2.2.2.1 (by decide) (by decide)⟩

/-! ## The period stays off zero -/

/-- In every reachable state `period` is congruent to 2 modulo 8: 11250 is, and
1000 and 2^32 are multiples of 8. -/
theorem period_mod8_run (es : List Event) (t : Board) (h : t.period % 8 = 2) :
    (run t es).period % 8 = 2 := by
  induction es generalizing t with
  | nil => exact h
  | cons ev rest ih =>
    cases ev with
    | tick =>
      refine ih (HAL_TIM_PeriodElapsedCallback t) ?_
      rw [(tick_frame t).2.2.1]; exact h
    | exti pin =>
      refine ih (HAL_GPIO_EXTI_Callback t pin) ?_
      by_cases h0 : pin = KEY_BUTTON_PIN
      · subst h0; rw [(exti_key_timer t).1]; exact h
      by_cases h1 : pin = GPIO_PIN_1
      · subst h1; rw [(exti_pin1_timer t).1]; exact h
      by_cases h2 : pin = GPIO_PIN_2
      · subst h2; rw [(exti_pin2_period t).1, wrapInt32_mod8]; omega
      by_cases h3 : pin = GPIO_PIN_3
      · subst h3; rw [(exti_pin3_period t).1, wrapInt32_mod8]; omega
      rw [exti_other t pin h0 h1 h2 h3]; exact h

/-- On a run that does not overflow the `int` range, `period` stays within the
range and congruent to 250 modulo 1000. -/
theorem period_mod1000_run (es : List Event) (t : Board)
    (h : t.period % 1000 = 250 ∧ INT_MIN ≤ t.period ∧ t.period ≤ INT_MAX)
    (hn : NoOverflow t es = true) :
    (run t es).period % 1000 = 250 ∧ INT_MIN ≤ (run t es).period ∧
      (run t es).period ≤ INT_MAX := by
  induction es generalizing t with
  | nil => exact h
  | cons ev rest ih =>
    cases ev with
    | tick =>
      refine ih (HAL_TIM_PeriodElapsedCallback t) ?_ hn
      rw [(tick_frame t).2.2.1]; exact h
    | exti pin =>
      simp only [NoOverflow, Bool.and_eq_true] at hn
      obtain ⟨⟨n2, n3⟩, nr⟩ := hn
      refine ih (HAL_GPIO_EXTI_Callback t pin) ?_ nr
      by_cases h0 : pin = KEY_BUTTON_PIN
      · subst h0; rw [(exti_key_timer t).1]; exact h
      by_cases h1 : pin = GPIO_PIN_1
      · subst h1; rw [(exti_pin1_timer t).1]; exact h
      by_cases h2 : pin = GPIO_PIN_2
      · subst h2
        rw [if_pos rfl, decide_eq_true_eq] at n2
        rw [(exti_pin2_period t).1, wrapInt32_of_range _ (by omega) n2]
        exact ⟨by omega, by omega, n2⟩
      by_cases h3 : pin = GPIO_PIN_3
      · subst h3
        rw [if_pos rfl, decide_eq_true_eq] at n3
        rw [(exti_pin3_period t).1, wrapInt32_of_range _ n3 (by omega)]
        exact ⟨by omega, n3, by omega⟩
      rw [exti_other t pin h0 h1 h2 h3]; exact h

/-- C26: in every state reached from power-up by a sequence of ticks and button
events that does not overflow the `int` range, `period` is congruent to 250
modulo 1000; hence `period` is never 0 or 1, the value `period - 1` is never 0,
and the reload value that `TIM3_Config` stored in the timer handle is never 0.
The last four facts hold in every reachable state, also past an overflow,
because the 32-bit reduction keeps `period` congruent to 2 modulo 8. -/
theorem C26_reload_never_zero (es : List Event) :
    (NoOverflow main es = true →
      (run main es).period % 1000 = 250 ∧ (run main es).period ≠ 0 ∧
      (run main es).period ≠ 1 ∧ (run main es).period - 1 ≠ 0 ∧
      (run main es).Tim3_Init.Period ≠ 0) ∧
    ((run main es).period ≠ 0 ∧ (run main es).period ≠ 1 ∧ (run main es).period - 1 ≠ 0 ∧
      (run main es).Tim3_Init.Period ≠ 0) := by
  have h8 : (run main es).period % 8 = 2 :=
    period_mod8_run es main (by rw [main_eq]; decide)
  have hs : (run main es).Tim3_Init.Period = (((run main es).period - 1) % 2 ^ 32).toNat :=
    synced_of_reachable _ ⟨es, rfl⟩
  have hz : (run main es).Tim3_Init.Period ≠ 0 := by
    rw [hs]
    omega
  refine ⟨fun hn => ?_, by omega, by omega, by omega, hz⟩
  obtain ⟨hp, _, _⟩ :=
    period_mod1000_run es main (by rw [main_eq]; decide) hn
  exact ⟨hp, by omega, by omega, by omega, hz⟩

/-- C26 after two period-down events and a tick, where `period` is 9250. -/
theorem C26_reload_never_zero_witness :
    (run main [Event.exti GPIO_PIN_3, Event.exti GPIO_PIN_3, Event.tick]).period % 1000 = 250 ∧
    (run main [Event.exti GPIO_PIN_3, Event.exti GPIO_PIN_3, Event.tick]).Tim3_Init.Period ≠ 0 :=
  ⟨((C26_reload_never_zero [Event.exti GPIO_PIN_3, Event.exti GPIO_PIN_3, Event.tick]).1
      (by decide)).1,
    ((C26_reload_never_zero [Event.exti GPIO_PIN_3, Event.exti GPIO_PIN_3, Event.tick]).1
      (by decide)).2.2.2.2⟩

end Lab5

namespace Lab3

/-! ## Lab 3: editing the clock fields -/

/-- Button 1 in the edit states 5 to 10: the selected field is incremented and
wrapped, the other fields stay, and the calendar ranges are kept. -/
theorem button1_states_5_to_10 (s : Clock) (t : RTC_TimeTypeDef) (d : RTC_DateTypeDef)
    (h : InCalendarRange s) :
    (s.state = 5 → fields (HAL_GPIO_EXTI_Callback s Lab5.GPIO_PIN_1 t d) =
      [(s.Hour1 + 1) % 24, s.Min1, s.Sec1, s.Weekday, s.Day, s.Month, s.Year]) ∧
    (s.state = 6 → fields (HAL_GPIO_EXTI_Callback s Lab5.GPIO_PIN_1 t d) =
      [s.Hour1, (s.Min1 + 1) % 60, s.Sec1, s.Weekday, s.Day, s.Month, s.Year]) ∧
    (s.state = 7 → fields (HAL_GPIO_EXTI_Callback s Lab5.GPIO_PIN_1 t d) =
      [s.Hour1, s.Min1, (s.Sec1 + 1) % 60, s.Weekday, s.Day, s.Month, s.Year]) ∧
    (s.state = 8 → fields (HAL_GPIO_EXTI_Callback s Lab5.GPIO_PIN_1 t d) =
      [s.Hour1, s.Min1, s.Sec1, s.Weekday % 7 + 1, s.Day, s.Month, s.Year]) ∧
    (s.state = 9 → fields (HAL_GPIO_EXTI_Callback s Lab5.GPIO_PIN_1 t d) =
      [s.Hour1, s.Min1, s.Sec1, s.Weekday, s.Day % 31 + 1, s.Month, s.Year]) ∧
    (s.state = 10 → fields (HAL_GPIO_EXTI_Callback s Lab5.GPIO_PIN_1 t d) =
      [s.Hour1, s.Min1, s.Sec1, s.Weekday, s.Day, s.Month % 12 + 1, s.Year]) ∧
    (5 ≤ s.state → s.state ≤ 10 →
      InCalendarRange (HAL_GPIO_EXTI_Callback s Lab5.GPIO_PIN_1 t d)) := by
  rcases s with ⟨st, ho, mi, se, wd, da, mo, ye, ts, ds, eo, en, stt, sdt⟩
  obtain ⟨h1, h2, h3, ⟨h4, h5⟩, ⟨h6, h7⟩, ⟨h8, h9⟩, h10⟩ := h
  simp only at h1 h2 h3 h4 h5 h6 h7 h8 h9 h10
  refine ⟨?_, ?_, ?_, ?_, ?_, ?_, ?_⟩
  · rintro rfl
    simp [HAL_GPIO_EXTI_Callback, fields, Lab5.GPIO_PIN_1, Lab5.GPIO_PIN_2,
      Lab5.KEY_BUTTON_PIN, Lab5.GPIO_PIN_0]
    split_ifs <;> simp <;> omega
  · rintro rfl
    simp [HAL_GPIO_EXTI_Callback, fields, Lab5.GPIO_PIN_1, Lab5.GPIO_PIN_2,
      Lab5.KEY_BUTTON_PIN, Lab5.GPIO_PIN_0]
    split_ifs <;> simp <;> omega
  · rintro rfl
    simp [HAL_GPIO_EXTI_Callback, fields, Lab5.GPIO_PIN_1, Lab5.GPIO_PIN_2,
      Lab5.KEY_BUTTON_PIN, Lab5.GPIO_PIN_0]
    split_ifs <;> simp <;> omega
  · rintro rfl
    simp [HAL_GPIO_EXTI_Callback, fields, Lab5.GPIO_PIN_1, Lab5.GPIO_PIN_2,
      Lab5.KEY_BUTTON_PIN, Lab5.GPIO_PIN_0]
    split_ifs <;> simp <;> omega
  · rintro rfl
    simp [HAL_GPIO_EXTI_Callback, fields, Lab5.GPIO_PIN_1, Lab5.GPIO_PIN_2,
      Lab5.KEY_BUTTON_PIN, Lab5.GPIO_PIN_0]
    split_ifs <;> simp <;> omega
  · rintro rfl
    simp [HAL_GPIO_EXTI_Callback, fields, Lab5.GPIO_PIN_1, Lab5.GPIO_PIN_2,
      Lab5.KEY_BUTTON_PIN, Lab5.GPIO_PIN_0]
    split_ifs <;> simp <;> omega
  · intro a b
    simp only at a b
    interval_cases st <;>
      simp [HAL_GPIO_EXTI_Callback, InCalendarRange, Lab5.GPIO_PIN_1, Lab5.GPIO_PIN_2,
        Lab5.KEY_BUTTON_PIN, Lab5.GPIO_PIN_0] <;>
      split_ifs <;> simp <;> omega

/-- Button 1 in edit state 11 while the year is below 99: the year is
incremented and the calendar ranges are kept. -/
theorem button1_state_11_below_99 (s : Clock) (t : RTC_TimeTypeDef) (d : RTC_DateTypeDef)
    (h : InCalendarRange s) (h11 : s.state = 11) (hy : s.Year < 99) :
    fields (HAL_GPIO_EXTI_Callback s Lab5.GPIO_PIN_1 t d) =
      [s.Hour1, s.Min1, s.Sec1, s.Weekday, s.Day, s.Month, s.Year + 1] ∧
    InCalendarRange (HAL_GPIO_EXTI_Callback s Lab5.GPIO_PIN_1 t d) := by
  rcases s with ⟨st, ho, mi, se, wd, da, mo, ye, ts, ds, eo, en, stt, sdt⟩
  obtain ⟨h1, h2, h3, ⟨h4, h5⟩, ⟨h6, h7⟩, ⟨h8, h9⟩, h10⟩ := h
  simp only at h1 h2 h3 h4 h5 h6 h7 h8 h9 h10 h11 hy
  subst h11
  have hm : mo ≠ 100 := by omega
  have e : (ye + 1) % 256 = ye + 1 := by omega
  simp [HAL_GPIO_EXTI_Callback, fields, InCalendarRange, Lab5.GPIO_PIN_1, Lab5.GPIO_PIN_2,
    Lab5.KEY_BUTTON_PIN, Lab5.GPIO_PIN_0, hm, e]
  omega

/-- C27, evaluated where it fails: in edit state 11 with `Year` = 99 and all
seven fields in calendar range, a button-1 event makes `Year` 100 and leaves
the other fields as they were, so the range `Year <= 99` no longer holds: the
wrap of that branch tests `Month == 100` and resets `Month`, not `Year`. -/
theorem C27_year_leaves_range :
    InCalendarRange { globals with state := 11, Year := 99 } ∧
    fields (HAL_GPIO_EXTI_Callback { globals with state := 11, Year := 99 } Lab5.GPIO_PIN_1
      globals.RTC_TimeStructure globals.RTC_DateStructure) = [12, 32, 5, 7, 11, 8, 100] ∧
    ¬ InCalendarRange (HAL_GPIO_EXTI_Callback { globals with state := 11, Year := 99 }
      Lab5.GPIO_PIN_1 globals.RTC_TimeStructure globals.RTC_DateStructure) ∧
    (HAL_GPIO_EXTI_Callback { globals with state := 11, Year := 99, Month := 100 }
      Lab5.GPIO_PIN_1 globals.RTC_TimeStructure globals.RTC_DateStructure).Month = 0 := by
  refine ⟨by simp [InCalendarRange, globals], by decide, ?_, by decide⟩
  intro h
  have : (HAL_GPIO_EXTI_Callback { globals with state := 11, Year := 99 } Lab5.GPIO_PIN_1
      globals.RTC_TimeStructure globals.RTC_DateStructure).Year = 100 := by decide
  have h10 := h.2.2.2.2.2.2
  rw [this] at h10
  exact absurd h10 (by decide)

/-! ## Lab 3: the settings menu -/

/-- Outside the menu states a button-2 event changes nothing. -/
theorem button2_idle (s : Clock) (t : RTC_TimeTypeDef) (d : RTC_DateTypeDef)
    (h0 : s.state ≠ 0) (h3 : s.state ≠ 3) (h : s.state < 4 ∨ 11 < s.state) :
    HAL_GPIO_EXTI_Callback s Lab5.GPIO_PIN_2 t d = s := by
  have e4 : s.state ≠ 4 := by omega
  have e5 : s.state ≠ 5 := by omega
  have e6 : s.state ≠ 6 := by omega
  have e7 : s.state ≠ 7 := by omega
  have e8 : s.state ≠ 8 := by omega
  have e9 : s.state ≠ 9 := by omega
  have e10 : s.state ≠ 10 := by omega
  have e11 : s.state ≠ 11 := by omega
  simp [HAL_GPIO_EXTI_Callback, Lab5.GPIO_PIN_1, Lab5.GPIO_PIN_2, Lab5.KEY_BUTTON_PIN,
    Lab5.GPIO_PIN_0, h0, h3, e4, e5, e6, e7, e8, e9, e10, e11]

/-- The value of `state` after a button-2 event, whatever the state. -/
theorem button2_state (s : Clock) (t : RTC_TimeTypeDef) (d : RTC_DateTypeDef) :
    (HAL_GPIO_EXTI_Callback s Lab5.GPIO_PIN_2 t d).state =
      if s.state = 0 ∨ s.state = 3 then 4
      else if 4 ≤ s.state ∧ s.state ≤ 10 then s.state + 1
      else if s.state = 11 then 0
      else s.state := by
  by_cases h : s.state < 0 ∨ 11 < s.state ∨ s.state = 1 ∨ s.state = 2
  · rw [button2_idle s t d (by omega) (by omega) (by omega)]
    have n1 : ¬ (s.state = 0 ∨ s.state = 3) := by omega
    have n2 : ¬ (4 ≤ s.state ∧ s.state ≤ 10) := by omega
    have n3 : ¬ s.state = 11 := by omega
    rw [if_neg n1, if_neg n2, if_neg n3]
  · rcases s with ⟨st, ho, mi, se, wd, da, mo, ye, ts, ds, eo, en, stt, sdt⟩
    simp only at h
    have h0 : 0 ≤ st := by omega
    have h11 : st ≤ 11 := by omega
    interval_cases st <;> rfl

/-- In the menu states 4 to 11 a button-2 event leaves the clock fields alone. -/
theorem button2_fields (s : Clock) (t : RTC_TimeTypeDef) (d : RTC_DateTypeDef)
    (h4 : 4 ≤ s.state) (h11 : s.state ≤ 11) :
    fields (HAL_GPIO_EXTI_Callback s Lab5.GPIO_PIN_2 t d) = fields s := by
  rcases s with ⟨st, ho, mi, se, wd, da, mo, ye, ts, ds, eo, en, stt, sdt⟩
  simp only at h4 h11
  interval_cases st <;>
    simp [HAL_GPIO_EXTI_Callback, RTC_Config, fields, Lab5.GPIO_PIN_1, Lab5.GPIO_PIN_2,
      Lab5.KEY_BUTTON_PIN, Lab5.GPIO_PIN_0]

/-- C28: from `state` 0 or 3, nine button-2 events in a row, whatever the
calendar reads, move `state` through 4, 5, 6, 7, 8, 9, 10, 11 and back to 0; a
button-2 event in any state other than 0, 3 and 4 to 11 (state 1, for one)
changes nothing; and in the states 4 to 11 a button-2 event changes none of
`Hour1`, `Min1`, `Sec1`, `Weekday`, `Day`, `Month`, `Year`. -/
theorem C28_menu_cycle (s : Clock) :
    (s.state = 0 ∨ s.state = 3 →
      ∀ r1 r2 r3 r4 r5 r6 r7 r8 r9 : RTC_TimeTypeDef × RTC_DateTypeDef,
        menuTrace s [r1, r2, r3, r4, r5, r6, r7, r8, r9] = [4, 5, 6, 7, 8, 9, 10, 11, 0]) ∧
    (∀ (t : RTC_TimeTypeDef) (d : RTC_DateTypeDef),
      s.state ≠ 0 → s.state ≠ 3 → (s.state < 4 ∨ 11 < s.state) →
        HAL_GPIO_EXTI_Callback s Lab5.GPIO_PIN_2 t d = s) ∧
    (∀ (t : RTC_TimeTypeDef) (d : RTC_DateTypeDef), 4 ≤ s.state → s.state ≤ 11 →
      fields (HAL_GPIO_EXTI_Callback s Lab5.GPIO_PIN_2 t d) = fields s) := by
  refine ⟨?_, fun t d => button2_idle s t d, fun t d => button2_fields s t d⟩
  intro h r1 r2 r3 r4 r5 r6 r7 r8 r9
  have e1 : (HAL_GPIO_EXTI_Callback s Lab5.GPIO_PIN_2 r1.1 r1.2).state = 4 := by
    rw [button2_state, if_pos h]
  simp only [menuTrace, button2_state, e1]
  simp

/-- C28 from the initial globals (state 0), and for state 1. -/
theorem C28_menu_cycle_witness :
    menuTrace globals (List.replicate 9 (globals.RTC_TimeStructure, globals.RTC_DateStructure)) =
      [4, 5, 6, 7, 8, 9, 10, 11, 0] ∧
    HAL_GPIO_EXTI_Callback { globals with state := 1 } Lab5.GPIO_PIN_2
      globals.RTC_TimeStructure globals.RTC_DateStructure = { globals with state := 1 } :=
  ⟨(C28_menu_cycle globals).1 (Or.inl rfl) _ _ _ _ _ _ _ _ _,
   (C28_menu_cycle { globals with state := 1 }).2.1 _ _ (by decide) (by decide)
     (Or.inl (by decide))⟩

end Lab3

namespace Lab4

/-! ## Lab 4: the PWM time base -/

/-- C29, evaluated where it fails: with every HAL call reporting `HAL_OK`,
`TIM3_PWM_Config` leaves `Tim3_Handle.Init.Prescaler` = 0 and
`Tim3_Handle.Init.Period` = 0.  The values 1799 and 1000 of the comment are the
initialisers of `TIM3Prescaler` and `TIM3Period`, two variables that the
function does not read; it reads `Tim3_PrescalerValue` and `TIM3_Period`, which
nothing assigns. -/
theorem C29_time_base_zero :
    (TIM3_PWM_Config globals (fun _ => Lab5.HAL_StatusTypeDef.HAL_OK)).map
      (fun t => (t.Tim3_Init.Prescaler, t.Tim3_Init.Period)) = some (0, 0) ∧
    globals.TIM3Prescaler = 1799 ∧ globals.TIM3Period = 1000 ∧
    globals.Tim3_PrescalerValue = 0 ∧ globals.TIM3_Period = 0 := by
  refine ⟨rfl, rfl, rfl, rfl, rfl⟩

/-- Whatever the globals hold, a successful `TIM3_PWM_Config` copies
`TIM3_Period` and `Tim3_PrescalerValue` into the handle. -/
theorem pwm_config_copies (s t : Fan) (hal : Nat → Lab5.HAL_StatusTypeDef)
    (h : TIM3_PWM_Config s hal = some t) :
    t.Tim3_Init.Period = s.TIM3_Period ∧ t.Tim3_Init.Prescaler = s.Tim3_PrescalerValue := by
  unfold TIM3_PWM_Config at h
  simp only at h
  split_ifs at h
  simp only [Option.some.injEq] at h
  subst h
  exact ⟨rfl, rfl⟩

/-! ## Lab 4: the control ladder -/

/-- What the ladder does band by band. -/
theorem ladder_bands (s : Fan) :
    (s.setPoint + 6 < s.b → s.b ≤ s.setPoint + 8 → (main_ladder s).Pulse = TIM3_CCR4_Val) ∧
    (s.b < s.setPoint → (main_ladder s).Pulse = 0) ∧
    (s.setPoint + 8 < s.b → main_ladder s = s) ∧
    (s.b = s.setPoint → main_ladder s = s) := by
  refine ⟨?_, ?_, ?_, ?_⟩
  · intro h1 h2
    have n1 : ¬ (s.b > s.setPoint ∧ s.b ≤ s.setPoint + 2) := by
      rintro ⟨_, h⟩; linarith
    have n2 : ¬ (s.b > s.setPoint + 2 ∧ s.b ≤ s.setPoint + 4) := by
      rintro ⟨_, h⟩; linarith
    have n3 : ¬ (s.b > s.setPoint + 4 ∧ s.b ≤ s.setPoint + 6) := by
      rintro ⟨_, h⟩; linarith
    have p4 : s.b > s.setPoint + 6 ∧ s.b ≤ s.setPoint + 8 := ⟨h1, h2⟩
    simp only [main_ladder, if_neg n1, if_neg n2, if_neg n3, if_pos p4]
  · intro h
    have n1 : ¬ (s.b > s.setPoint ∧ s.b ≤ s.setPoint + 2) := by
      rintro ⟨g, _⟩; linarith
    have n2 : ¬ (s.b > s.setPoint + 2 ∧ s.b ≤ s.setPoint + 4) := by
      rintro ⟨g, _⟩; linarith
    have n3 : ¬ (s.b > s.setPoint + 4 ∧ s.b ≤ s.setPoint + 6) := by
      rintro ⟨g, _⟩; linarith
    have n4 : ¬ (s.b > s.setPoint + 6 ∧ s.b ≤ s.setPoint + 8) := by
      rintro ⟨g, _⟩; linarith
    simp only [main_ladder, if_neg n1, if_neg n2, if_neg n3, if_neg n4, if_pos h]
  · intro h
    have n1 : ¬ (s.b > s.setPoint ∧ s.b ≤ s.setPoint + 2) := by
      rintro ⟨_, g⟩; linarith
    have n2 : ¬ (s.b > s.setPoint + 2 ∧ s.b ≤ s.setPoint + 4) := by
      rintro ⟨_, g⟩; linarith
    have n3 : ¬ (s.b > s.setPoint + 4 ∧ s.b ≤ s.setPoint + 6) := by
      rintro ⟨_, g⟩; linarith
    have n4 : ¬ (s.b > s.setPoint + 6 ∧ s.b ≤ s.setPoint + 8) := by
      rintro ⟨_, g⟩; linarith
    have n5 : ¬ s.b < s.setPoint := by
      intro g; linarith
    simp only [main_ladder, if_neg n1, if_neg n2, if_neg n3, if_neg n4, if_neg n5]
  · intro h
    have n1 : ¬ (s.b > s.setPoint ∧ s.b ≤ s.setPoint + 2) := by
      rintro ⟨g, _⟩; linarith
    have n2 : ¬ (s.b > s.setPoint + 2 ∧ s.b ≤ s.setPoint + 4) := by
      rintro ⟨g, _⟩; linarith
    have n3 : ¬ (s.b > s.setPoint + 4 ∧ s.b ≤ s.setPoint + 6) := by
      rintro ⟨g, _⟩; linarith
    have n4 : ¬ (s.b > s.setPoint + 6 ∧ s.b ≤ s.setPoint + 8) := by
      rintro ⟨g, _⟩; linarith
    have n5 : ¬ s.b < s.setPoint := by
      intro g; linarith
    simp only [main_ladder, if_neg n1, if_neg n2, if_neg n3, if_neg n4, if_neg n5]

/-- C30, evaluated where it fails: at the first pass of the loop after start-up
(`setPoint` = 33, `Pulse` = 0, fan stopped) with the ADC value 1720, the
temperature is 1720 * 3000 / 122850, a little above 42, so more than
`setPoint + 6`, in fact more than `setPoint + 8`; no branch of the ladder fires
and `Pulse` stays 0 instead of becoming 800, and the fan stays stopped. -/
theorem C30_no_branch_above_band :
    (main_startup (fun _ => Lab5.HAL_StatusTypeDef.HAL_OK)).map
      (fun s => (s.setPoint, s.Pulse, s.pwm3)) = some (33, 0, false) ∧
    (main_startup (fun _ => Lab5.HAL_StatusTypeDef.HAL_OK)).map
      (fun s => (main_pass s false false 1720).b) = some (1720 * 3000 / 122850) ∧
    (33 : ℚ) + 6 < 1720 * 3000 / 122850 ∧ (33 : ℚ) + 8 < 1720 * 3000 / 122850 ∧
    (main_startup (fun _ => Lab5.HAL_StatusTypeDef.HAL_OK)).map
      (fun s => ((main_pass s false false 1720).Pulse, (main_pass s false false 1720).pwm3)) =
      some (0, false) ∧
    (0 : Nat) ≠ TIM3_CCR4_Val := by
  refine ⟨rfl, ?_, by norm_num, by norm_num, ?_, by decide⟩
  · simp [main_startup, TIM3_PWM_Config, main_pass, main_ladder, globals]
    norm_num
  · simp [main_startup, TIM3_PWM_Config, main_pass, main_ladder, globals]
    norm_num

end Lab4
